import Mathlib

/-!
The render system of uwb-vk, `5-BigRefactor/RenderSystem.cpp`.

A shallow embedding of `RenderSystem` (frame loop, swapchain recreation and
extent negotiation) together with the properties the specification states
about it.

Conventions of the embedding.

* Vulkan handles are natural numbers; `VK_NULL_HANDLE` is `0`.  The driver
  hands out handles from a counter (`RenderSystem.nextHandle`), so that two
  objects created by different calls carry different handles.
* Every driver or collaborator call the source makes is appended to
  `RenderSystem.trace`, oldest call first.
* What the driver answers (result codes, the acquired image index, surface
  capabilities, window size) is an argument of the operation that asks.
* A C++ exception is an `Outcome` whose `thrown` field is set; the state
  reached when the exception left the function is kept.
* `std::vector::operator[]` is `List.getD _ VK_NULL_HANDLE`: reading out of
  range is undefined behaviour in the source and reads the null handle here.
* `uint32_t` values are natural numbers; a conversion from `int` reduces
  modulo `2 ^ 32`.
-/

namespace UwbVk

/-! ## Vulkan vocabulary -/

abbrev Handle := Nat

def VK_NULL_HANDLE : Handle := 0

abbrev VkResult := Int

def VK_SUCCESS : VkResult := 0
def VK_NOT_READY : VkResult := 1
def VK_TIMEOUT : VkResult := 2
def VK_SUBOPTIMAL_KHR : VkResult := 1000001003
def VK_ERROR_OUT_OF_DATE_KHR : VkResult := -1000001004
def VK_ERROR_DEVICE_LOST : VkResult := -4
def VK_ERROR_SURFACE_LOST_KHR : VkResult := -1000000000

/-- The value of `std::numeric_limits<uint32_t>::max()`. -/
def UINT32_MAX : Nat := 4294967295

/-- The conversion `static_cast<uint32_t>(int)`. -/
def toUint32 (i : Int) : Nat := (i % 4294967296).toNat

def VK_PIPELINE_STAGE_COLOR_ATTACHMENT_OUTPUT_BIT : Nat := 0x400

structure VkExtent2D where
  width : Nat
  height : Nat
deriving DecidableEq, Repr

/-- The three fields of `VkSurfaceCapabilitiesKHR` that the source reads. -/
structure VkSurfaceCapabilitiesKHR where
  currentExtent : VkExtent2D
  minImageExtent : VkExtent2D
  maxImageExtent : VkExtent2D
deriving DecidableEq, Repr

/-- A clear value: the bit patterns of the four colour components. -/
structure VkClearValue where
  r : Nat
  g : Nat
  b : Nat
  a : Nat
deriving DecidableEq, Repr

def VK_DESCRIPTOR_TYPE_COMBINED_IMAGE_SAMPLER : Nat := 1
def VK_DESCRIPTOR_TYPE_UNIFORM_BUFFER : Nat := 6

def VK_IMAGE_LAYOUT_UNDEFINED : Nat := 0
def VK_IMAGE_LAYOUT_SHADER_READ_ONLY_OPTIMAL : Nat := 5
def VK_IMAGE_LAYOUT_TRANSFER_DST_OPTIMAL : Nat := 7

def VK_ACCESS_SHADER_READ_BIT : Nat := 0x20
def VK_ACCESS_TRANSFER_WRITE_BIT : Nat := 0x1000

def VK_PIPELINE_STAGE_TOP_OF_PIPE_BIT : Nat := 0x1
def VK_PIPELINE_STAGE_FRAGMENT_SHADER_BIT : Nat := 0x80
def VK_PIPELINE_STAGE_TRANSFER_BIT : Nat := 0x1000

def VK_BUFFER_USAGE_UNIFORM_BUFFER_BIT : Nat := 0x10
def VK_MEMORY_PROPERTY_HOST_VISIBLE_BIT : Nat := 0x2
def VK_MEMORY_PROPERTY_HOST_COHERENT_BIT : Nat := 0x4

/-- The fields of `VkDescriptorBufferInfo` that lines 631-633 set from the
state. -/
structure VkDescriptorBufferInfo where
  buffer : Handle
  offset : Nat
deriving DecidableEq, Repr

structure VkDescriptorImageInfo where
  imageLayout : Nat
  imageView : Handle
  sampler : Handle
deriving DecidableEq, Repr

/-- One element of the array given to `vkUpdateDescriptorSets`; a null pointer
is `none`. -/
structure VkWriteDescriptorSet where
  dstSet : Handle
  dstBinding : Nat
  dstArrayElement : Nat
  descriptorType : Nat
  descriptorCount : Nat
  pBufferInfo : Option VkDescriptorBufferInfo
  pImageInfo : Option VkDescriptorImageInfo
deriving DecidableEq, Repr

/-- The fields of `VkImageMemoryBarrier` that depend on the arguments of
`transitionImageLayout`. -/
structure VkImageMemoryBarrier where
  srcAccessMask : Nat
  dstAccessMask : Nat
  oldLayout : Nat
  newLayout : Nat
  image : Handle
deriving DecidableEq, Repr

inductive Exception where
  | runtime_error (what : String)
  | invalid_argument (what : String)
deriving DecidableEq, Repr

/-- The calls that only `cleanup` makes. -/
inductive TeardownCall where
  | textureFree (image memory imageView sampler : Handle)
  | vkDestroyDescriptorPool (device descriptorPool : Handle)
  | vkDestroyDescriptorSetLayout (device layout : Handle)
  | vkDestroyBuffer (device buffer : Handle)
  | vkFreeMemory (device memory : Handle)
  | vkDestroySemaphore (device semaphore : Handle)
  | vkDestroyFence (device fence : Handle)
  | commandPoolCleanup (pool : Handle)
  | vkDestroyDevice (device : Handle)
  | DestroyDebugReportCallbackEXT (vkInstance callback : Handle)
  | vkDestroySurfaceKHR (vkInstance surface : Handle)
  | vkDestroyInstance (vkInstance : Handle)
deriving DecidableEq, Repr

/-- The calls that only `initialize` makes. -/
inductive SetupCall where
  | vkEnumerateInstanceExtensionProperties
  | glfwGetRequiredInstanceExtensions
  | vkCreateInstance
  | CreateDebugReportCallbackEXT (vkInstance : Handle)
  | glfwCreateWindowSurface (vkInstance window : Handle)
  | deviceContextInitialize (window : Handle)
  | vkEnumeratePhysicalDevices (vkInstance : Handle)
  | vkGetPhysicalDeviceProperties (physicalDevice : Handle)
  | findQueueFamilies (physicalDevice surface : Handle)
  | vkCreateDevice (physicalDevice : Handle) (queueFamilies : List Nat)
  | vkGetDeviceQueue (device : Handle) (queueFamily queueIndex : Nat)
  | commandPoolInitialize (device : Handle)
  | vkCreateDescriptorSetLayout (device : Handle)
  | stbi_load (path : String)
  | stbi_image_free
  | textureLoad (width height channels : Int)
  | createVertexBuffer
  | createIndexBuffer
  | createBuffer (usage properties : Nat)
  | vkCreateSemaphore (device : Handle)
  | vkCreateFence (device : Handle)
deriving DecidableEq, Repr

/-- The calls the render system makes on the driver and on its collaborators,
with the arguments the properties below talk about. -/
inductive Call where
  | vkWaitForFences (device fence : Handle)
  | vkResetFences (device fence : Handle)
  | vkAcquireNextImageKHR (device swapchain semaphore : Handle)
  | vkMapMemory (device memory : Handle)
  | vkUnmapMemory (device memory : Handle)
  | vkQueueSubmit (queue : Handle) (waitSemaphores : List Handle) (waitDstStageMask : List Nat)
      (commandBuffers signalSemaphores : List Handle) (fence : Handle)
  | vkQueuePresentKHR (queue : Handle) (waitSemaphores swapchains : List Handle)
      (imageIndices : List Nat)
  | vkDeviceWaitIdle (device : Handle)
  | vkQueueWaitIdle (queue : Handle)
  | vkDestroyFramebuffer (device framebuffer : Handle)
  | freeCommandBuffers (pool : Handle) (commandBuffers : List Handle)
  | vkDestroyPipeline (device pipeline : Handle)
  | vkDestroyPipelineLayout (device layout : Handle)
  | vkDestroyRenderPass (device renderPass : Handle)
  | swapchainCleanup (swapchain : Handle) (imageViews : List Handle)
  | vkGetPhysicalDeviceSurfaceCapabilitiesKHR (physicalDevice surface : Handle)
  | swapchainInitialize (surface : Handle) (extent : VkExtent2D) (frames : Nat)
  | swapchainCreateImageViews (swapchain : Handle)
  | vkCreateRenderPass (device : Handle) (format : Nat)
  | readShaderFile (path : String)
  | vkCreateShaderModule (device : Handle)
  | vkDestroyShaderModule (device shaderModule : Handle)
  | vkCreatePipelineLayout (device : Handle) (setLayouts : List Handle)
  | vkCreateGraphicsPipelines (device layout renderPass : Handle) (extent : VkExtent2D)
  | vkCreateFramebuffer (device renderPass : Handle) (attachments : List Handle)
      (width height : Nat)
  | allocateCommandBuffers (pool : Handle) (count : Nat)
  | vkBeginCommandBuffer (commandBuffer : Handle)
  | vkCmdBeginRenderPass (commandBuffer renderPass framebuffer : Handle) (extent : VkExtent2D)
      (clearValue : VkClearValue)
  | vkCmdBindPipeline (commandBuffer pipeline : Handle)
  | vkCmdBindVertexBuffers (commandBuffer buffer : Handle)
  | vkCmdBindIndexBuffer (commandBuffer buffer : Handle)
  | vkCmdBindDescriptorSets (commandBuffer layout descriptorSet : Handle)
  | vkCmdDrawIndexed (commandBuffer : Handle)
  | vkCmdEndRenderPass (commandBuffer : Handle)
  | vkEndCommandBuffer (commandBuffer : Handle)
  | vkCreateDescriptorPool (device : Handle) (poolSizes : List (Nat × Nat)) (maxSets : Nat)
  | vkAllocateDescriptorSets (device descriptorPool : Handle) (setLayouts : List Handle)
      (descriptorSetCount : Nat)
  | vkUpdateDescriptorSets (device : Handle) (descriptorWrites : List VkWriteDescriptorSet)
  | beginSingleCmdBuffer (pool : Handle)
  | vkCmdPipelineBarrier (commandBuffer : Handle) (srcStage dstStage : Nat)
      (imageBarriers : List VkImageMemoryBarrier)
  | endSingleCmdBuffer (pool commandBuffer : Handle)
  | teardown (call : TeardownCall)
  | setup (call : SetupCall)
deriving DecidableEq, Repr

/-! ## Collaborators -/

/-- Modelled from the spec: the class `Swapchain` (its source is not part of
`RenderSystem.cpp`).  It owns the presentable images with one image view per
image, the chosen image format and the chosen extent; `size()` is the number
of images. -/
structure Swapchain where
  vkSwapchain : Handle
  images : List Handle
  imageViews : List Handle
  imageFormat : Nat
  extent : VkExtent2D
deriving DecidableEq, Repr

def Swapchain.getVkSwapchain (sc : Swapchain) : Handle := sc.vkSwapchain
def Swapchain.getImageViews (sc : Swapchain) : List Handle := sc.imageViews
def Swapchain.getExtent (sc : Swapchain) : VkExtent2D := sc.extent
def Swapchain.getImageFormat (sc : Swapchain) : Nat := sc.imageFormat
def Swapchain.size (sc : Swapchain) : Nat := sc.images.length

/-- Modelled from the spec: the class `Texture` (image, memory, view and
sampler; its source is not part of `RenderSystem.cpp`). -/
structure Texture where
  image : Handle
  memory : Handle
  imageView : Handle
  sampler : Handle
deriving DecidableEq, Repr

/-! ## The render system -/

/-- The members of `RenderSystem` that `RenderSystem.cpp` reads or writes (the
fields of `mContext` are flattened), followed by the two fields of the
driver: the handle counter and the trace of calls. -/
structure RenderSystem where
  mWindow : Handle
  mInstance : Handle
  mCallback : Handle
  mSurface : Handle
  physicalDevice : Handle
  device : Handle
  graphicsQueue : Handle
  presentQueue : Handle
  mCommandPool : Handle
  mSwapchain : Swapchain
  mRenderPass : Handle
  mDescriptorSetLayout : Handle
  mPipelineLayout : Handle
  mPipeline : Handle
  mDescriptorPool : Handle
  mSwapchainFramebuffers : List Handle
  mCommandBuffers : List Handle
  mDescriptorSets : List Handle
  mUniformBuffers : List Handle
  mUniformBuffersMemory : List Handle
  mVertexBuffer : Handle
  mVertexBufferMemory : Handle
  mIndexBuffer : Handle
  mIndexBufferMemory : Handle
  mTexture : Texture
  mImageAvailableSemaphores : List Handle
  mRenderFinishedSemaphores : List Handle
  mFrameFences : List Handle
  mCurrentFrame : Nat
  mClearColor : VkClearValue
  nextHandle : Nat
  trace : List Call
deriving DecidableEq, Repr

/-- The result of running an operation: the state reached and the exception
that left the operation, if one did. -/
structure Outcome where
  state : RenderSystem
  thrown : Option Exception
deriving DecidableEq, Repr

/-- Normal completion. -/
def Outcome.ok (s : RenderSystem) : Outcome := ⟨s, none⟩

/-- Completion by an exception. -/
def Outcome.throw (s : RenderSystem) (e : Exception) : Outcome := ⟨s, some e⟩

/-- Sequencing: the next statement runs only if no exception is in flight. -/
def Outcome.andThen (o : Outcome) (f : RenderSystem → Outcome) : Outcome :=
  match o.thrown with
  | none => f o.state
  | some _ => o

/-- Appends one call to the trace. -/
def RenderSystem.call (s : RenderSystem) (c : Call) : RenderSystem :=
  { s with trace := s.trace ++ [c] }

/-- What the window system and the driver answer while the swapchain and the
objects depending on it are built.  Results of calls made once per image are
indexed by the image. -/
structure SwapchainReplies where
  capabilities : VkSurfaceCapabilitiesKHR
  framebufferSize : Handle → Int × Int
  imageCount : Nat
  imageFormat : Nat
  createSwapchain : VkResult
  createImageViews : VkResult
  createRenderPass : VkResult
  createVertShaderModule : VkResult
  createFragShaderModule : VkResult
  createPipelineLayout : VkResult
  createGraphicsPipelines : VkResult
  createFramebuffer : Nat → VkResult
  beginCommandBuffer : Nat → VkResult
  endCommandBuffer : Nat → VkResult

/-! ## Extent negotiation -/

/-- The method `RenderSystem::chooseSwapchainExtent` (lines 312-329).  The
second argument is `glfwGetFramebufferSize`, which the method asks about
`mWindow`. -/
def RenderSystem.chooseSwapchainExtent (s : RenderSystem)
    (glfwGetFramebufferSize : Handle → Int × Int) (capabilities : VkSurfaceCapabilitiesKHR) :
    VkExtent2D :=
  if capabilities.currentExtent.width ≠ UINT32_MAX then
    capabilities.currentExtent
  else
    let size := glfwGetFramebufferSize s.mWindow
    let actualExtent : VkExtent2D := { width := toUint32 size.1, height := toUint32 size.2 }
    { width := max capabilities.minImageExtent.width
        (min capabilities.maxImageExtent.width actualExtent.width)
      height := max capabilities.minImageExtent.height
        (min capabilities.maxImageExtent.height actualExtent.height) }

/-! ## Building and tearing down the swapchain-dependent objects -/

/-- The resize of a `std::vector` of handles: surplus elements are dropped,
new elements are value-initialised. -/
def resize (v : List Handle) (n : Nat) : List Handle :=
  v.take n ++ List.replicate (n - v.length) VK_NULL_HANDLE

/-- Modelled from the spec: the call `Swapchain::initialize` (its source is not
part of `RenderSystem.cpp`).  The swapchain is built for the extent it is
given, the driver provides `imageCount` images, and a creation failure is a
hard error. -/
def Swapchain.initialize (s : RenderSystem) (r : SwapchainReplies) (extent : VkExtent2D)
    (frames : Nat) : Outcome :=
  let s1 := s.call (.swapchainInitialize s.mSurface extent frames)
  if r.createSwapchain ≠ VK_SUCCESS then
    Outcome.throw s1 (.runtime_error "failed to create swapchain!")
  else
    Outcome.ok { s1 with
      mSwapchain :=
        { vkSwapchain := s1.nextHandle
          images := List.range' (s1.nextHandle + 1) r.imageCount
          imageViews := []
          imageFormat := r.imageFormat
          extent := extent }
      nextHandle := s1.nextHandle + 1 + r.imageCount }

/-- Modelled from the spec: the call `Swapchain::createImageViews` (its source
is not part of `RenderSystem.cpp`), which creates one image view per image. -/
def Swapchain.createImageViews (s : RenderSystem) (r : SwapchainReplies) : Outcome :=
  let s1 := s.call (.swapchainCreateImageViews s.mSwapchain.vkSwapchain)
  if r.createImageViews ≠ VK_SUCCESS then
    Outcome.throw s1 (.runtime_error "Failed to create image view!")
  else
    Outcome.ok { s1 with
      mSwapchain :=
        { s1.mSwapchain with imageViews := List.range' s1.nextHandle s1.mSwapchain.images.length }
      nextHandle := s1.nextHandle + s1.mSwapchain.images.length }

/-- Modelled from the spec: a newly constructed `Swapchain` (its constructor is
not part of `RenderSystem.cpp`), which holds no swapchain, no image and no
image view yet. -/
def Swapchain.empty : Swapchain :=
  { vkSwapchain := VK_NULL_HANDLE, images := [], imageViews := [], imageFormat := 0,
    extent := ⟨0, 0⟩ }

/-- The method `RenderSystem::createSwapchain` (lines 297-310): `mSwapchain` is
replaced by a new `Swapchain` (line 301) before the surface is queried and the
swapchain is built. -/
def RenderSystem.createSwapchain (MAX_CONCURRENT_FRAMES : Nat) (s : RenderSystem)
    (r : SwapchainReplies) : Outcome :=
  let s0 := { s with mSwapchain := Swapchain.empty }
  let s1 := s0.call (.vkGetPhysicalDeviceSurfaceCapabilitiesKHR s0.physicalDevice s0.mSurface)
  let capabilities := r.capabilities
  let extent := s1.chooseSwapchainExtent r.framebufferSize capabilities
  Outcome.andThen ( Swapchain.initialize s1 r extent MAX_CONCURRENT_FRAMES) fun s2 =>
  Swapchain.createImageViews s2 r

/-- The method `RenderSystem::createRenderPass` (lines 532-565). -/
def RenderSystem.createRenderPass (s : RenderSystem) (r : SwapchainReplies) : Outcome :=
  let s1 := s.call (.vkCreateRenderPass s.device s.mSwapchain.getImageFormat)
  if r.createRenderPass ≠ VK_SUCCESS then
    Outcome.throw s1 (.runtime_error "Failed to create render pass!")
  else
    Outcome.ok { s1 with mRenderPass := s1.nextHandle, nextHandle := s1.nextHandle + 1 }

/-- The method `RenderSystem::createShaderModule` (lines 517-530): the outcome
and, on success, the new module. -/
def RenderSystem.createShaderModule (s : RenderSystem) (result : VkResult) : Outcome × Handle :=
  let s1 := s.call (.vkCreateShaderModule s.device)
  if result ≠ VK_SUCCESS then
    (Outcome.throw s1 (.runtime_error "Failed to create shader module!"), VK_NULL_HANDLE)
  else
    (Outcome.ok { s1 with nextHandle := s1.nextHandle + 1 }, s1.nextHandle)

/-- The method `RenderSystem::createGraphicsPipeline` (lines 331-515); the
shader bytecode loader `readShaderFile` is an external collaborator. -/
def RenderSystem.createGraphicsPipeline (s : RenderSystem) (r : SwapchainReplies) : Outcome :=
  let s1 := s.call (.readShaderFile "shaders/square_vert.spv")
  let s2 := s1.call (.readShaderFile "shaders/square_frag.spv")
  let vert := s2.createShaderModule r.createVertShaderModule
  vert.1.andThen fun s3 =>
  let frag := s3.createShaderModule r.createFragShaderModule
  frag.1.andThen fun s4 =>
  let s5 := s4.call (.vkCreatePipelineLayout s4.device [s4.mDescriptorSetLayout])
  if r.createPipelineLayout ≠ VK_SUCCESS then
    Outcome.throw s5 (.runtime_error "failed to create pipeline layout!")
  else
    let s6 := { s5 with mPipelineLayout := s5.nextHandle, nextHandle := s5.nextHandle + 1 }
    let s7 := s6.call
      (.vkCreateGraphicsPipelines s6.device s6.mPipelineLayout s6.mRenderPass s6.mSwapchain.getExtent)
    if r.createGraphicsPipelines ≠ VK_SUCCESS then
      Outcome.throw s7 (.runtime_error "Failed to create a graphics pipeline!")
    else
      let s8 := { s7 with mPipeline := s7.nextHandle, nextHandle := s7.nextHandle + 1 }
      let s9 := s8.call (.vkDestroyShaderModule s8.device vert.2)
      Outcome.ok (s9.call (.vkDestroyShaderModule s9.device frag.2))

/-- The loop of `RenderSystem::createFramebuffers` (lines 674-691), from index
`i` on, over the image views still to be visited. -/
def RenderSystem.createFramebuffersFrom (r : SwapchainReplies) :
    List Handle → Nat → RenderSystem → Outcome
  | [], _, s => Outcome.ok s
  | view :: rest, i, s =>
    let s1 := s.call (.vkCreateFramebuffer s.device s.mRenderPass [view]
      s.mSwapchain.getExtent.width s.mSwapchain.getExtent.height)
    if r.createFramebuffer i ≠ VK_SUCCESS then
      Outcome.throw s1 (.runtime_error "failed to create framebuffer!")
    else
      RenderSystem.createFramebuffersFrom r rest (i + 1)
        { s1 with
          mSwapchainFramebuffers := s1.mSwapchainFramebuffers.set i s1.nextHandle
          nextHandle := s1.nextHandle + 1 }

/-- The method `RenderSystem::createFramebuffers` (lines 666-692). -/
def RenderSystem.createFramebuffers (s : RenderSystem) (r : SwapchainReplies) : Outcome :=
  let swapchainImageViews := s.mSwapchain.getImageViews
  let s1 := { s with
    mSwapchainFramebuffers := resize s.mSwapchainFramebuffers swapchainImageViews.length }
  RenderSystem.createFramebuffersFrom r swapchainImageViews 0 s1

/-- Modelled from the spec: the call `CommandPool::allocateCommandBuffers` (its
source is not part of `RenderSystem.cpp`), which fills the vector it is given
with newly allocated command buffers. -/
def CommandPool.allocateCommandBuffers (s : RenderSystem) : RenderSystem :=
  let s1 := s.call (.allocateCommandBuffers s.mCommandPool s.mCommandBuffers.length)
  { s1 with
    mCommandBuffers := List.range' s1.nextHandle s1.mCommandBuffers.length
    nextHandle := s1.nextHandle + s1.mCommandBuffers.length }

/-- The recording loop of `RenderSystem::createCommandBuffers` (lines 709-748):
`n` command buffers are still to be recorded, the next one is `i`. -/
def RenderSystem.recordCommandBuffersFrom (r : SwapchainReplies) :
    Nat → Nat → RenderSystem → Outcome
  | 0, _, s => Outcome.ok s
  | n + 1, i, s =>
    let cb := s.mCommandBuffers.getD i VK_NULL_HANDLE
    let s1 := s.call (.vkBeginCommandBuffer cb)
    if r.beginCommandBuffer i ≠ VK_SUCCESS then
      Outcome.throw s1 (.runtime_error "failed to begin recording command buffer!")
    else
      let s2 := s1.call (.vkCmdBeginRenderPass cb s1.mRenderPass
        (s1.mSwapchainFramebuffers.getD i VK_NULL_HANDLE) s1.mSwapchain.getExtent s1.mClearColor)
      let s3 := s2.call (.vkCmdBindPipeline cb s2.mPipeline)
      let s4 := s3.call (.vkCmdBindVertexBuffers cb s3.mVertexBuffer)
      let s5 := s4.call (.vkCmdBindIndexBuffer cb s4.mIndexBuffer)
      let s6 := s5.call (.vkCmdBindDescriptorSets cb s5.mPipelineLayout
        (s5.mDescriptorSets.getD i VK_NULL_HANDLE))
      let s7 := s6.call (.vkCmdDrawIndexed cb)
      let s8 := s7.call (.vkCmdEndRenderPass cb)
      let s9 := s8.call (.vkEndCommandBuffer cb)
      if r.endCommandBuffer i ≠ VK_SUCCESS then
        Outcome.throw s9 (.runtime_error "failed to record command buffer!")
      else
        RenderSystem.recordCommandBuffersFrom r n (i + 1) s9

/-- The method `RenderSystem::createCommandBuffers` (lines 701-749). -/
def RenderSystem.createCommandBuffers (s : RenderSystem) (r : SwapchainReplies) : Outcome :=
  let s1 := { s with mCommandBuffers := resize s.mCommandBuffers s.mSwapchainFramebuffers.length }
  let s2 := CommandPool.allocateCommandBuffers s1
  RenderSystem.recordCommandBuffersFrom r s2.mCommandBuffers.length 0 s2

/-- The method `RenderSystem::cleanupSwapchain` (lines 61-75). -/
def RenderSystem.cleanupSwapchain (s : RenderSystem) : RenderSystem :=
  let s1 := s.mSwapchainFramebuffers.foldl
    (fun (t : RenderSystem) framebuffer => t.call (.vkDestroyFramebuffer t.device framebuffer)) s
  let s2 := s1.call (.freeCommandBuffers s1.mCommandPool s1.mCommandBuffers)
  let s3 := s2.call (.vkDestroyPipeline s2.device s2.mPipeline)
  let s4 := s3.call (.vkDestroyPipelineLayout s3.device s3.mPipelineLayout)
  let s5 := s4.call (.vkDestroyRenderPass s4.device s4.mRenderPass)
  s5.call (.swapchainCleanup s5.mSwapchain.getVkSwapchain s5.mSwapchain.getImageViews)

/-- The method `RenderSystem::recreateSwapchain` (lines 48-59). -/
def RenderSystem.recreateSwapchain (MAX_CONCURRENT_FRAMES : Nat) (s : RenderSystem)
    (r : SwapchainReplies) : Outcome :=
  let s1 := s.call (.vkDeviceWaitIdle s.device)
  let s2 := s1.cleanupSwapchain
  (s2.createSwapchain MAX_CONCURRENT_FRAMES r).andThen fun s3 =>
  (s3.createRenderPass r).andThen fun s4 =>
  (s4.createGraphicsPipeline r).andThen fun s5 =>
  (s5.createFramebuffers r).andThen fun s6 =>
  s6.createCommandBuffers r

/-! ## The frame loop -/

/-- What the driver answers during one call of `drawFrame`: the result and the
image index of `vkAcquireNextImageKHR`, the results of `vkQueueSubmit` and
`vkQueuePresentKHR`, and the answers for a swapchain recreation. -/
structure FrameReplies where
  acquireNextImage : VkResult
  imageIndex : Nat
  queueSubmit : VkResult
  queuePresent : VkResult
  recreate : SwapchainReplies

/-- The method `RenderSystem::updateUniformBuffer` (lines 901-918); the matrices
written are floating-point data and are left out. -/
def RenderSystem.updateUniformBuffer (s : RenderSystem) (currentImage : Nat) : RenderSystem :=
  let s1 := s.call (.vkMapMemory s.device (s.mUniformBuffersMemory.getD currentImage VK_NULL_HANDLE))
  s1.call (.vkUnmapMemory s1.device (s1.mUniformBuffersMemory.getD currentImage VK_NULL_HANDLE))

/-- The method `RenderSystem::drawFrame` (lines 120-177).  The result of
`vkAcquireNextImageKHR` is not read by the source. -/
def RenderSystem.drawFrame (MAX_CONCURRENT_FRAMES : Nat) (s : RenderSystem)
    (r : FrameReplies) : Outcome :=
  let fence := s.mFrameFences.getD s.mCurrentFrame VK_NULL_HANDLE
  let s1 := s.call (.vkWaitForFences s.device fence)
  let s2 := s1.call (.vkResetFences s1.device fence)
  let s3 := s2.call (.vkAcquireNextImageKHR s2.device s2.mSwapchain.getVkSwapchain
    (s2.mImageAvailableSemaphores.getD s2.mCurrentFrame VK_NULL_HANDLE))
  let imageIndex := r.imageIndex
  let s4 := s3.updateUniformBuffer imageIndex
  let waitSemaphores := [s4.mImageAvailableSemaphores.getD s4.mCurrentFrame VK_NULL_HANDLE]
  let waitStages := [VK_PIPELINE_STAGE_COLOR_ATTACHMENT_OUTPUT_BIT]
  let signalSemaphores := [s4.mRenderFinishedSemaphores.getD s4.mCurrentFrame VK_NULL_HANDLE]
  let s5 := s4.call (.vkQueueSubmit s4.graphicsQueue waitSemaphores waitStages
    [s4.mCommandBuffers.getD imageIndex VK_NULL_HANDLE] signalSemaphores
    (s4.mFrameFences.getD s4.mCurrentFrame VK_NULL_HANDLE))
  if r.queueSubmit ≠ VK_SUCCESS then
    Outcome.throw s5 (.runtime_error "failed to submit draw command buffer!")
  else
    let s6 := s5.call (.vkQueuePresentKHR s5.presentQueue signalSemaphores
      [s5.mSwapchain.getVkSwapchain] [imageIndex])
    let result := r.queuePresent
    if result = VK_ERROR_OUT_OF_DATE_KHR then
      s6.recreateSwapchain MAX_CONCURRENT_FRAMES r.recreate
    else if result ≠ VK_SUCCESS ∧ result ≠ VK_SUBOPTIMAL_KHR then
      Outcome.throw s6 (.runtime_error "Failed to acquire swapchain image!")
    else
      Outcome.ok { s6 with mCurrentFrame := (s6.mCurrentFrame + 1) % MAX_CONCURRENT_FRAMES }

/-- A run of `drawFrame` calls, one per element of the list of replies; an
exception ends the run. -/
def RenderSystem.drawFrames (MAX_CONCURRENT_FRAMES : Nat) :
    RenderSystem → List FrameReplies → Outcome
  | s, [] => Outcome.ok s
  | s, r :: rs =>
    (s.drawFrame MAX_CONCURRENT_FRAMES r).andThen fun s1 =>
      RenderSystem.drawFrames MAX_CONCURRENT_FRAMES s1 rs

/-! ## Descriptors -/

def Texture.getImageView (t : Texture) : Handle := t.imageView
def Texture.getSampler (t : Texture) : Handle := t.sampler

/-- The method `RenderSystem::createDescriptorPool` (lines 597-614). -/
def RenderSystem.createDescriptorPool (s : RenderSystem) (result : VkResult) : Outcome :=
  let poolSizes :=
    [ (VK_DESCRIPTOR_TYPE_UNIFORM_BUFFER, s.mSwapchain.size),
      (VK_DESCRIPTOR_TYPE_COMBINED_IMAGE_SAMPLER, s.mSwapchain.size) ]
  let s1 := s.call (.vkCreateDescriptorPool s.device poolSizes s.mSwapchain.size)
  if result ≠ VK_SUCCESS then
    Outcome.throw s1 (.runtime_error "Failed to create descriptor pool!")
  else
    Outcome.ok { s1 with mDescriptorPool := s1.nextHandle, nextHandle := s1.nextHandle + 1 }

/-- The two writes that the loop of `createDescriptorSets` builds for index `i`
(lines 631-660). -/
def RenderSystem.descriptorWrites (s : RenderSystem) (i : Nat) : List VkWriteDescriptorSet :=
  let bufferInfo : VkDescriptorBufferInfo :=
    { buffer := s.mUniformBuffers.getD i VK_NULL_HANDLE, offset := 0 }
  let imageInfo : VkDescriptorImageInfo :=
    { imageLayout := VK_IMAGE_LAYOUT_SHADER_READ_ONLY_OPTIMAL
      imageView := s.mTexture.getImageView
      sampler := s.mTexture.getSampler }
  [ { dstSet := s.mDescriptorSets.getD i VK_NULL_HANDLE
      dstBinding := 0
      dstArrayElement := 0
      descriptorType := VK_DESCRIPTOR_TYPE_UNIFORM_BUFFER
      descriptorCount := 1
      pBufferInfo := some bufferInfo
      pImageInfo := none },
    { dstSet := s.mDescriptorSets.getD i VK_NULL_HANDLE
      dstBinding := 1
      dstArrayElement := 0
      descriptorType := VK_DESCRIPTOR_TYPE_COMBINED_IMAGE_SAMPLER
      descriptorCount := 1
      pBufferInfo := none
      pImageInfo := some imageInfo } ]

/-- The loop of `RenderSystem::createDescriptorSets` (lines 630-663): `n` sets
are still to be written, the next one is `i`. -/
def RenderSystem.updateDescriptorSetsFrom : Nat → Nat → RenderSystem → RenderSystem
  | 0, _, s => s
  | n + 1, i, s =>
    RenderSystem.updateDescriptorSetsFrom n (i + 1)
      (s.call (.vkUpdateDescriptorSets s.device (s.descriptorWrites i)))

/-- The method `RenderSystem::createDescriptorSets` (lines 616-664). -/
def RenderSystem.createDescriptorSets (s : RenderSystem) (result : VkResult) : Outcome :=
  let layouts := List.replicate s.mSwapchain.size s.mDescriptorSetLayout
  let s1 := { s with mDescriptorSets := resize s.mDescriptorSets s.mSwapchain.size }
  let s2 := s1.call
    (.vkAllocateDescriptorSets s1.device s1.mDescriptorPool layouts s1.mSwapchain.size)
  if result ≠ VK_SUCCESS then
    Outcome.throw s2 (.runtime_error "Failed to allocate descriptor set!")
  else
    let s3 := { s2 with
      mDescriptorSets := List.range' s2.nextHandle s2.mSwapchain.size
      nextHandle := s2.nextHandle + s2.mSwapchain.size }
    Outcome.ok (RenderSystem.updateDescriptorSetsFrom s3.mSwapchain.size 0 s3)

/-! ## Image layout transitions -/

/-- Modelled from the spec: the call `CommandPool::beginSingleCmdBuffer` (its
source is not part of `RenderSystem.cpp`), which hands out a command buffer
for single use. -/
def CommandPool.beginSingleCmdBuffer (s : RenderSystem) : RenderSystem × Handle :=
  let s1 := s.call (.beginSingleCmdBuffer s.mCommandPool)
  ({ s1 with nextHandle := s1.nextHandle + 1 }, s1.nextHandle)

/-- Modelled from the spec: the call `CommandPool::endSingleCmdBuffer` (its
source is not part of `RenderSystem.cpp`), which submits the command buffer
and waits for it. -/
def CommandPool.endSingleCmdBuffer (s : RenderSystem) (commandBuffer : Handle) : RenderSystem :=
  s.call (.endSingleCmdBuffer s.mCommandPool commandBuffer)

/-- The method `RenderSystem::transitionImageLayout` (lines 810-872).  The
branches choose the access masks and the stages; the barrier is recorded
after the branches (lines 861-871). -/
def RenderSystem.transitionImageLayout (s : RenderSystem) (image : Handle) (_format : Nat)
    (oldLayout newLayout : Nat) : Outcome :=
  let begun := CommandPool.beginSingleCmdBuffer s
  let s1 := begun.1
  let commandBuffer := begun.2
  let record (srcAccessMask dstAccessMask srcStage dstStage : Nat) : Outcome :=
    let barrier : VkImageMemoryBarrier :=
      { srcAccessMask := srcAccessMask, dstAccessMask := dstAccessMask
        oldLayout := oldLayout, newLayout := newLayout, image := image }
    let s2 := s1.call (.vkCmdPipelineBarrier commandBuffer srcStage dstStage [barrier])
    Outcome.ok (CommandPool.endSingleCmdBuffer s2 commandBuffer)
  if oldLayout = VK_IMAGE_LAYOUT_UNDEFINED ∧ newLayout = VK_IMAGE_LAYOUT_TRANSFER_DST_OPTIMAL then
    record 0 VK_ACCESS_TRANSFER_WRITE_BIT VK_PIPELINE_STAGE_TOP_OF_PIPE_BIT
      VK_PIPELINE_STAGE_TRANSFER_BIT
  else if oldLayout = VK_IMAGE_LAYOUT_TRANSFER_DST_OPTIMAL ∧
      newLayout = VK_IMAGE_LAYOUT_SHADER_READ_ONLY_OPTIMAL then
    record VK_ACCESS_TRANSFER_WRITE_BIT VK_ACCESS_SHADER_READ_BIT VK_PIPELINE_STAGE_TRANSFER_BIT
      VK_PIPELINE_STAGE_FRAGMENT_SHADER_BIT
  else
    Outcome.throw s1 (.invalid_argument "Layout transition not supported!")

/-! ## The clear colour -/

/-- The method `RenderSystem::setClearColor` (lines 999-1006). -/
def RenderSystem.setClearColor (s : RenderSystem) (clearColor : VkClearValue)
    (r : SwapchainReplies) : Outcome :=
  let s1 := s.call (.vkDeviceWaitIdle s.device)
  let s2 := { s1 with mClearColor := clearColor }
  s2.createCommandBuffers r

/-! ## Shutdown -/

/-- The loop of lines 91-94: `n` uniform buffers are still to be destroyed, the
next one is `i`. -/
def RenderSystem.destroyUniformBuffersFrom : Nat → Nat → RenderSystem → RenderSystem
  | 0, _, s => s
  | n + 1, i, s =>
    let s1 := s.call
      (.teardown (.vkDestroyBuffer s.device (s.mUniformBuffers.getD i VK_NULL_HANDLE)))
    let s2 := s1.call
      (.teardown (.vkFreeMemory s1.device (s1.mUniformBuffersMemory.getD i VK_NULL_HANDLE)))
    RenderSystem.destroyUniformBuffersFrom n (i + 1) s2

/-- The loop of lines 102-106: `n` frame slots are still to be destroyed, the
next one is `i`. -/
def RenderSystem.destroySyncObjectsFrom : Nat → Nat → RenderSystem → RenderSystem
  | 0, _, s => s
  | n + 1, i, s =>
    let s1 := s.call (.teardown
      (.vkDestroySemaphore s.device (s.mRenderFinishedSemaphores.getD i VK_NULL_HANDLE)))
    let s2 := s1.call (.teardown
      (.vkDestroySemaphore s1.device (s1.mImageAvailableSemaphores.getD i VK_NULL_HANDLE)))
    let s3 := s2.call (.teardown
      (.vkDestroyFence s2.device (s2.mFrameFences.getD i VK_NULL_HANDLE)))
    RenderSystem.destroySyncObjectsFrom n (i + 1) s3

/-- The method `RenderSystem::cleanup` (lines 77-118).  The constant
`enableValidationLayers` is defined outside `RenderSystem.cpp`. -/
def RenderSystem.cleanup (enableValidationLayers : Bool) (MAX_CONCURRENT_FRAMES : Nat)
    (s : RenderSystem) : RenderSystem :=
  let s1 := s.call (.vkQueueWaitIdle s.presentQueue)
  let s2 := s1.cleanupSwapchain
  let s3 := s2.call (.teardown (.textureFree s2.mTexture.image s2.mTexture.memory
    s2.mTexture.imageView s2.mTexture.sampler))
  let s4 := s3.call (.teardown (.vkDestroyDescriptorPool s3.device s3.mDescriptorPool))
  let s5 := s4.call (.teardown (.vkDestroyDescriptorSetLayout s4.device s4.mDescriptorSetLayout))
  let s6 := RenderSystem.destroyUniformBuffersFrom s5.mUniformBuffers.length 0 s5
  let s7 := s6.call (.teardown (.vkDestroyBuffer s6.device s6.mIndexBuffer))
  let s8 := s7.call (.teardown (.vkFreeMemory s7.device s7.mIndexBufferMemory))
  let s9 := s8.call (.teardown (.vkDestroyBuffer s8.device s8.mVertexBuffer))
  let s10 := s9.call (.teardown (.vkFreeMemory s9.device s9.mVertexBufferMemory))
  let s11 := RenderSystem.destroySyncObjectsFrom MAX_CONCURRENT_FRAMES 0 s10
  let s12 := s11.call (.teardown (.commandPoolCleanup s11.mCommandPool))
  let s13 := s12.call (.teardown (.vkDestroyDevice s12.device))
  let s14 :=
    if enableValidationLayers then
      s13.call (.teardown (.DestroyDebugReportCallbackEXT s13.mInstance s13.mCallback))
    else s13
  let s15 := s14.call (.teardown (.vkDestroySurfaceKHR s14.mInstance s14.mSurface))
  s15.call (.teardown (.vkDestroyInstance s15.mInstance))

/-! ## Memory types -/

/-- The loop of `RenderSystem::findMemoryType` (lines 801-807): `n` memory types
are still to be tried, the next one is `i`.  The list holds the property flags
of the `memoryTypeCount` memory types of the device. -/
def findMemoryTypeFrom (memoryTypes : List Nat) (typeFilter properties : Nat) :
    Nat → Nat → Except Exception Nat
  | 0, _ => .error (.runtime_error "Failed to find a suitable memory type!")
  | n + 1, i =>
    if typeFilter &&& (1 <<< i) ≠ 0 ∧
        (memoryTypes.getD i 0) &&& properties = properties then
      .ok i
    else
      findMemoryTypeFrom memoryTypes typeFilter properties n (i + 1)

/-- The method `RenderSystem::findMemoryType` (lines 796-808), as a function of
the memory types that `vkGetPhysicalDeviceMemoryProperties` reports. -/
def findMemoryType (memoryTypes : List Nat) (typeFilter properties : Nat) :
    Except Exception Nat :=
  findMemoryTypeFrom memoryTypes typeFilter properties memoryTypes.length 0

/-! ## Start-up -/

/-- What the window system, the image loader and the driver answer during
`initialize`. -/
structure InitializeReplies where
  createInstance : VkResult
  createDebugReportCallback : VkResult
  createWindowSurface : VkResult
  physicalDevices : List Handle
  graphicsFamily : Nat
  presentFamily : Nat
  createDevice : VkResult
  swapchain : SwapchainReplies
  createDescriptorPool : VkResult
  createDescriptorSetLayout : VkResult
  pixelsLoaded : Bool
  textureWidth : Int
  textureHeight : Int
  textureChannels : Int
  textureLoad : VkResult
  createVertexBuffer : VkResult
  createIndexBuffer : VkResult
  createUniformBuffer : Nat → VkResult
  allocateDescriptorSets : VkResult
  createImageAvailableSemaphore : Nat → VkResult
  createRenderFinishedSemaphore : Nat → VkResult
  createFence : Nat → VkResult

/-- The method `RenderSystem::printExtensions` (lines 1008-1024). -/
def RenderSystem.printExtensions (s : RenderSystem) : RenderSystem :=
  (s.call (.setup .vkEnumerateInstanceExtensionProperties)).call
    (.setup .vkEnumerateInstanceExtensionProperties)

/-- The method `RenderSystem::createInstance` (lines 181-215); a failure is
reported on the error stream only. -/
def RenderSystem.createInstance (s : RenderSystem) (r : InitializeReplies) : RenderSystem :=
  let s1 := s.call (.setup .glfwGetRequiredInstanceExtensions)
  let s2 := s1.call (.setup .vkCreateInstance)
  if r.createInstance ≠ VK_SUCCESS then
    s2
  else
    { s2 with mInstance := s2.nextHandle, nextHandle := s2.nextHandle + 1 }

/-- The method `RenderSystem::setupDebugCallback` (lines 1035-1049). -/
def RenderSystem.setupDebugCallback (enableValidationLayers : Bool) (s : RenderSystem)
    (r : InitializeReplies) : Outcome :=
  if !enableValidationLayers then
    Outcome.ok s
  else
    let s1 := s.call (.setup (.CreateDebugReportCallbackEXT s.mInstance))
    if r.createDebugReportCallback ≠ VK_SUCCESS then
      Outcome.throw s1 (.runtime_error "failed to set up debug callback!")
    else
      Outcome.ok { s1 with mCallback := s1.nextHandle, nextHandle := s1.nextHandle + 1 }

/-- The method `RenderSystem::createSurface` (lines 288-295). -/
def RenderSystem.createSurface (s : RenderSystem) (r : InitializeReplies) (window : Handle) :
    Outcome :=
  let s1 := s.call (.setup (.glfwCreateWindowSurface s.mInstance window))
  if r.createWindowSurface ≠ VK_SUCCESS then
    Outcome.throw s1 (.runtime_error "Failed to create a window surface!")
  else
    Outcome.ok { s1 with mSurface := s1.nextHandle, nextHandle := s1.nextHandle + 1 }

/-- The method `RenderSystem::createDevice` (lines 217-286); a failure of
`vkCreateDevice` is reported on the error stream only. -/
def RenderSystem.createDevice (s : RenderSystem) (r : InitializeReplies) : RenderSystem :=
  let s1 := s.call (.setup (.vkEnumeratePhysicalDevices s.mInstance))
  let s2 := s1.call (.setup (.vkEnumeratePhysicalDevices s1.mInstance))
  let s3 := r.physicalDevices.foldl
    (fun (t : RenderSystem) physicalDevice =>
      t.call (.setup (.vkGetPhysicalDeviceProperties physicalDevice))) s2
  let s4 := { s3 with physicalDevice := r.physicalDevices.getD 0 VK_NULL_HANDLE }
  let s5 := s4.call (.setup (.findQueueFamilies s4.physicalDevice s4.mSurface))
  let queueFamilies :=
    if r.graphicsFamily ≠ r.presentFamily then [r.graphicsFamily, r.presentFamily]
    else [r.graphicsFamily]
  let s6 := s5.call (.setup (.vkCreateDevice s5.physicalDevice queueFamilies))
  let s7 :=
    if r.createDevice ≠ VK_SUCCESS then s6
    else { s6 with device := s6.nextHandle, nextHandle := s6.nextHandle + 1 }
  let s8 := s7.call (.setup (.vkGetDeviceQueue s7.device r.graphicsFamily 0))
  let s9 := { s8 with graphicsQueue := s8.nextHandle, nextHandle := s8.nextHandle + 1 }
  let s10 := s9.call (.setup (.vkGetDeviceQueue s9.device r.presentFamily 0))
  { s10 with presentQueue := s10.nextHandle, nextHandle := s10.nextHandle + 1 }

/-- The method `RenderSystem::createCommandPool` (lines 694-699); the class
`CommandPool` is a collaborator. -/
def RenderSystem.createCommandPool (s : RenderSystem) : RenderSystem :=
  let s1 := s.call (.setup (.commandPoolInitialize s.device))
  { s1 with mCommandPool := s1.nextHandle, nextHandle := s1.nextHandle + 1 }

/-- The method `RenderSystem::createDescriptorSetLayout` (lines 567-595). -/
def RenderSystem.createDescriptorSetLayout (s : RenderSystem) (r : InitializeReplies) :
    Outcome :=
  let s1 := s.call (.setup (.vkCreateDescriptorSetLayout s.device))
  if r.createDescriptorSetLayout ≠ VK_SUCCESS then
    Outcome.throw s1 (.runtime_error "Failed to create descriptor set layout!")
  else
    Outcome.ok { s1 with mDescriptorSetLayout := s1.nextHandle, nextHandle := s1.nextHandle + 1 }

/-- Modelled from the spec: the call `Texture::load` (its source is not part of
`RenderSystem.cpp`), which creates the image, its memory, its view and its
sampler and uploads the pixels; a creation failure is a hard error. -/
def Texture.load (s : RenderSystem) (r : InitializeReplies) : Outcome :=
  let s1 := s.call (.setup (.textureLoad r.textureWidth r.textureHeight r.textureChannels))
  if r.textureLoad ≠ VK_SUCCESS then
    Outcome.throw s1 (.runtime_error "failed to create image!")
  else
    Outcome.ok { s1 with
      mTexture :=
        { image := s1.nextHandle, memory := s1.nextHandle + 1, imageView := s1.nextHandle + 2
          sampler := s1.nextHandle + 3 }
      nextHandle := s1.nextHandle + 4 }

/-- The method `RenderSystem::createTexture` (lines 982-997). -/
def RenderSystem.createTexture (s : RenderSystem) (r : InitializeReplies) : Outcome :=
  let s1 := s.call (.setup (.stbi_load "textures/texture.jpg"))
  if !r.pixelsLoaded then
    Outcome.throw s1 (.runtime_error "Failed to load texture image")
  else
    (Texture.load s1 r).andThen fun s2 =>
    Outcome.ok (s2.call (.setup .stbi_image_free))

/-- Modelled from the spec: the calls of `BufferManager` that create a buffer
together with its backing memory (their source is not part of
`RenderSystem.cpp`); a creation failure is a hard error.  The result carries
the outcome, the buffer and its memory. -/
def BufferManager.createBuffer (s : RenderSystem) (call : SetupCall) (result : VkResult) :
    Outcome × Handle × Handle :=
  let s1 := s.call (.setup call)
  if result ≠ VK_SUCCESS then
    (Outcome.throw s1 (.runtime_error "failed to create buffer!"), VK_NULL_HANDLE,
      VK_NULL_HANDLE)
  else
    (Outcome.ok { s1 with nextHandle := s1.nextHandle + 2 }, s1.nextHandle, s1.nextHandle + 1)

/-- The loop of `RenderSystem::createUniformBuffers` (lines 890-896): `n`
uniform buffers are still to be created, the next one is `i`. -/
def RenderSystem.createUniformBuffersFrom (r : InitializeReplies) :
    Nat → Nat → RenderSystem → Outcome
  | 0, _, s => Outcome.ok s
  | n + 1, i, s =>
    let created := BufferManager.createBuffer s
      (.createBuffer VK_BUFFER_USAGE_UNIFORM_BUFFER_BIT
        (VK_MEMORY_PROPERTY_HOST_VISIBLE_BIT ||| VK_MEMORY_PROPERTY_HOST_COHERENT_BIT))
      (r.createUniformBuffer i)
    created.1.andThen fun s1 =>
    RenderSystem.createUniformBuffersFrom r n (i + 1)
      { s1 with
        mUniformBuffers := s1.mUniformBuffers.set i created.2.1
        mUniformBuffersMemory := s1.mUniformBuffersMemory.set i created.2.2 }

/-- The method `RenderSystem::createUniformBuffers` (lines 883-899). -/
def RenderSystem.createUniformBuffers (s : RenderSystem) (r : InitializeReplies) : Outcome :=
  let s1 := { s with
    mUniformBuffers := resize s.mUniformBuffers s.mSwapchain.size
    mUniformBuffersMemory := resize s.mUniformBuffersMemory s.mSwapchain.size }
  RenderSystem.createUniformBuffersFrom r s1.mSwapchain.size 0 s1

/-- The method `RenderSystem::createBuffers` (lines 874-881). -/
def RenderSystem.createBuffers (s : RenderSystem) (r : InitializeReplies) : Outcome :=
  let vertex := BufferManager.createBuffer s .createVertexBuffer r.createVertexBuffer
  vertex.1.andThen fun s1 =>
  let s2 := { s1 with mVertexBuffer := vertex.2.1, mVertexBufferMemory := vertex.2.2 }
  let index := BufferManager.createBuffer s2 .createIndexBuffer r.createIndexBuffer
  index.1.andThen fun s3 =>
  let s4 := { s3 with mIndexBuffer := index.2.1, mIndexBufferMemory := index.2.2 }
  s4.createUniformBuffers r

/-- The loop of `RenderSystem::createSyncObjects` (lines 765-773): `n` frame
slots are still to be equipped, the next one is `i`.  The three creations are
joined by `||`, so the first failure ends them. -/
def RenderSystem.createSyncObjectsFrom (r : InitializeReplies) :
    Nat → Nat → RenderSystem → Outcome
  | 0, _, s => Outcome.ok s
  | n + 1, i, s =>
    let s1 := s.call (.setup (.vkCreateSemaphore s.device))
    if r.createImageAvailableSemaphore i ≠ VK_SUCCESS then
      Outcome.throw s1 (.runtime_error "Failed to create frame sync objects!")
    else
      let s2 := { s1 with
        mImageAvailableSemaphores := s1.mImageAvailableSemaphores.set i s1.nextHandle
        nextHandle := s1.nextHandle + 1 }
      let s3 := s2.call (.setup (.vkCreateSemaphore s2.device))
      if r.createRenderFinishedSemaphore i ≠ VK_SUCCESS then
        Outcome.throw s3 (.runtime_error "Failed to create frame sync objects!")
      else
        let s4 := { s3 with
          mRenderFinishedSemaphores := s3.mRenderFinishedSemaphores.set i s3.nextHandle
          nextHandle := s3.nextHandle + 1 }
        let s5 := s4.call (.setup (.vkCreateFence s4.device))
        if r.createFence i ≠ VK_SUCCESS then
          Outcome.throw s5 (.runtime_error "Failed to create frame sync objects!")
        else
          RenderSystem.createSyncObjectsFrom r n (i + 1)
            { s5 with
              mFrameFences := s5.mFrameFences.set i s5.nextHandle
              nextHandle := s5.nextHandle + 1 }

/-- The method `RenderSystem::createSyncObjects` (lines 751-774). -/
def RenderSystem.createSyncObjects (MAX_CONCURRENT_FRAMES : Nat) (s : RenderSystem)
    (r : InitializeReplies) : Outcome :=
  let s1 := { s with
    mImageAvailableSemaphores := resize s.mImageAvailableSemaphores MAX_CONCURRENT_FRAMES
    mRenderFinishedSemaphores := resize s.mRenderFinishedSemaphores MAX_CONCURRENT_FRAMES
    mFrameFences := resize s.mFrameFences MAX_CONCURRENT_FRAMES }
  RenderSystem.createSyncObjectsFrom r MAX_CONCURRENT_FRAMES 0 s1

/-- The method `RenderSystem::initialize` (lines 8-46).  The constant
`enableValidationLayers` is defined outside `RenderSystem.cpp`; the classes
`DeviceContext` and `BufferManager` are collaborators.  Line 19 replaces
`mContext` by a new `DeviceContext`, modelled from the spec as a context that
holds no physical device, no device and no queue yet. -/
def RenderSystem.initialize (enableValidationLayers : Bool) (MAX_CONCURRENT_FRAMES : Nat)
    (s : RenderSystem) (r : InitializeReplies) (window : Handle) : Outcome :=
  let s1 := s.printExtensions
  let s2 := s1.createInstance r
  let debug :=
    if enableValidationLayers then s2.setupDebugCallback enableValidationLayers r
    else Outcome.ok s2
  debug.andThen fun s3 =>
  let s4 := { s3 with mWindow := window }
  (s4.createSurface r window).andThen fun s5 =>
  let context := { s5 with
    physicalDevice := VK_NULL_HANDLE, device := VK_NULL_HANDLE
    graphicsQueue := VK_NULL_HANDLE, presentQueue := VK_NULL_HANDLE }
  let s6 := context.call (.setup (.deviceContextInitialize window))
  let s7 := s6.createDevice r
  let s8 := s7.createCommandPool
  (s8.createSwapchain MAX_CONCURRENT_FRAMES r.swapchain).andThen fun s9 =>
  (s9.createDescriptorPool r.createDescriptorPool).andThen fun s10 =>
  (s10.createRenderPass r.swapchain).andThen fun s11 =>
  (s11.createDescriptorSetLayout r).andThen fun s12 =>
  (s12.createGraphicsPipeline r.swapchain).andThen fun s13 =>
  (s13.createFramebuffers r.swapchain).andThen fun s14 =>
  (s14.createTexture r).andThen fun s15 =>
  (s15.createBuffers r).andThen fun s16 =>
  (s16.createDescriptorSets r.allocateDescriptorSets).andThen fun s17 =>
  (s17.createCommandBuffers r.swapchain).andThen fun s18 =>
  s18.createSyncObjects MAX_CONCURRENT_FRAMES r

/-! ## Vocabulary of the properties -/

/-- An extent lies within the bounds `minImageExtent` and `maxImageExtent` of
the capabilities, componentwise. -/
def VkExtent2D.within (e : VkExtent2D) (capabilities : VkSurfaceCapabilitiesKHR) : Prop :=
  capabilities.minImageExtent.width ≤ e.width ∧ e.width ≤ capabilities.maxImageExtent.width ∧
  capabilities.minImageExtent.height ≤ e.height ∧ e.height ≤ capabilities.maxImageExtent.height

instance (e : VkExtent2D) (capabilities : VkSurfaceCapabilitiesKHR) :
    Decidable (e.within capabilities) := by
  unfold VkExtent2D.within; infer_instance

/-- The calls made since the trace had length `n`. -/
def RenderSystem.callsSince (s : RenderSystem) (n : Nat) : List Call := s.trace.drop n

/-- Recognises a device-idle wait. -/
def Call.isDeviceWaitIdle : Call → Bool
  | .vkDeviceWaitIdle _ => true
  | _ => false

/-- Recognises a submission to a queue. -/
def Call.isQueueSubmit : Call → Bool
  | .vkQueueSubmit .. => true
  | _ => false

/-- Recognises a presentation. -/
def Call.isQueuePresent : Call → Bool
  | .vkQueuePresentKHR .. => true
  | _ => false

/-- The calls of a frame that runs to presentation in slot `mCurrentFrame` with
the acquired image `imageIndex`, in the order of lines 122-166. -/
def RenderSystem.frameCalls (s : RenderSystem) (imageIndex : Nat) : List Call :=
  [ .vkWaitForFences s.device (s.mFrameFences.getD s.mCurrentFrame VK_NULL_HANDLE),
    .vkResetFences s.device (s.mFrameFences.getD s.mCurrentFrame VK_NULL_HANDLE),
    .vkAcquireNextImageKHR s.device s.mSwapchain.getVkSwapchain
      (s.mImageAvailableSemaphores.getD s.mCurrentFrame VK_NULL_HANDLE),
    .vkMapMemory s.device (s.mUniformBuffersMemory.getD imageIndex VK_NULL_HANDLE),
    .vkUnmapMemory s.device (s.mUniformBuffersMemory.getD imageIndex VK_NULL_HANDLE),
    .vkQueueSubmit s.graphicsQueue
      [s.mImageAvailableSemaphores.getD s.mCurrentFrame VK_NULL_HANDLE]
      [VK_PIPELINE_STAGE_COLOR_ATTACHMENT_OUTPUT_BIT]
      [s.mCommandBuffers.getD imageIndex VK_NULL_HANDLE]
      [s.mRenderFinishedSemaphores.getD s.mCurrentFrame VK_NULL_HANDLE]
      (s.mFrameFences.getD s.mCurrentFrame VK_NULL_HANDLE),
    .vkQueuePresentKHR s.presentQueue
      [s.mRenderFinishedSemaphores.getD s.mCurrentFrame VK_NULL_HANDLE]
      [s.mSwapchain.getVkSwapchain] [imageIndex] ]

/-- The part of the state that does not depend on the swapchain. -/
def RenderSystem.fixedPart (s : RenderSystem) :=
  ((s.mDescriptorPool, s.mDescriptorSetLayout, s.mDescriptorSets),
   (s.mUniformBuffers, s.mUniformBuffersMemory),
   (s.mVertexBuffer, s.mVertexBufferMemory, s.mIndexBuffer, s.mIndexBufferMemory),
   s.mTexture,
   (s.mImageAvailableSemaphores, s.mRenderFinishedSemaphores, s.mFrameFences),
   (s.physicalDevice, s.device, s.graphicsQueue, s.presentQueue),
   s.mCurrentFrame,
   (s.mWindow, s.mInstance, s.mSurface, s.mCommandPool, s.mClearColor))

/-- Recognises the calls that tear down or build a swapchain-dependent object:
the calls made by `cleanupSwapchain`, `createSwapchain`, `createRenderPass`,
`createGraphicsPipeline`, `createFramebuffers` and `createCommandBuffers`. -/
def Call.isRebuild : Call → Bool
  | .vkDestroyFramebuffer .. => true
  | .freeCommandBuffers .. => true
  | .vkDestroyPipeline .. => true
  | .vkDestroyPipelineLayout .. => true
  | .vkDestroyRenderPass .. => true
  | .swapchainCleanup .. => true
  | .vkGetPhysicalDeviceSurfaceCapabilitiesKHR .. => true
  | .swapchainInitialize .. => true
  | .swapchainCreateImageViews .. => true
  | .vkCreateRenderPass .. => true
  | .readShaderFile .. => true
  | .vkCreateShaderModule .. => true
  | .vkDestroyShaderModule .. => true
  | .vkCreatePipelineLayout .. => true
  | .vkCreateGraphicsPipelines .. => true
  | .vkCreateFramebuffer .. => true
  | .allocateCommandBuffers .. => true
  | .vkBeginCommandBuffer .. => true
  | .vkCmdBeginRenderPass .. => true
  | .vkCmdBindPipeline .. => true
  | .vkCmdBindVertexBuffers .. => true
  | .vkCmdBindIndexBuffer .. => true
  | .vkCmdBindDescriptorSets .. => true
  | .vkCmdDrawIndexed .. => true
  | .vkCmdEndRenderPass .. => true
  | .vkEndCommandBuffer .. => true
  | _ => false

/-- The state `t` is reached from `s` by teardown and build calls only, and
with the swapchain-independent part of the state unchanged. -/
def RenderSystem.Rebuilds (s t : RenderSystem) : Prop :=
  (∃ calls, t.trace = s.trace ++ calls ∧ ∀ c ∈ calls, c.isRebuild = true) ∧
  t.fixedPart = s.fixedPart

/-- The handles of the objects that depend on the swapchain: render pass,
pipeline, pipeline layout, framebuffers and command buffers. -/
def RenderSystem.swapchainObjects (s : RenderSystem) : List Handle :=
  s.mRenderPass :: s.mPipeline :: s.mPipelineLayout ::
    (s.mSwapchainFramebuffers ++ s.mCommandBuffers)

/-- Every creation the driver is asked for while a swapchain of `imageCount`
images is rebuilt succeeds. -/
def SwapchainReplies.allSucceed (r : SwapchainReplies) : Prop :=
  r.createSwapchain = VK_SUCCESS ∧ r.createImageViews = VK_SUCCESS ∧
  r.createRenderPass = VK_SUCCESS ∧
  r.createVertShaderModule = VK_SUCCESS ∧ r.createFragShaderModule = VK_SUCCESS ∧
  r.createPipelineLayout = VK_SUCCESS ∧ r.createGraphicsPipelines = VK_SUCCESS ∧
  (∀ i, i < r.imageCount → r.createFramebuffer i = VK_SUCCESS) ∧
  (∀ i, i < r.imageCount → r.beginCommandBuffer i = VK_SUCCESS) ∧
  (∀ i, i < r.imageCount → r.endCommandBuffer i = VK_SUCCESS)

instance (r : SwapchainReplies) : Decidable r.allSucceed := by
  unfold SwapchainReplies.allSucceed; infer_instance

/-- The state without its trace: what an operation that only makes calls
leaves unchanged. -/
def RenderSystem.forgetTrace (s : RenderSystem) : RenderSystem := { s with trace := [] }

/-- The uniform-buffer memory a command buffer reads when it executes: command
buffer `i` is recorded with descriptor set `i` (line 737), which is written to
refer to uniform buffer `i` (line 632), whose memory is
`mUniformBuffersMemory[i]` (lines 891-895). -/
def RenderSystem.memoryReadBy (s : RenderSystem) (commandBuffer : Handle) : List Handle :=
  (s.mCommandBuffers.zip s.mUniformBuffersMemory).filterMap
    fun p => if p.1 = commandBuffer then some p.2 else none

/-- After a submission of `commandBuffer` with completion fence `fence`: in the
calls that follow, the command buffer is not submitted again and the memory
it reads is not mapped for writing before `fence` has been waited on. -/
def notReusedBeforeWait (commandBuffer fence : Handle) (memory : List Handle) :
    List Call → Bool
  | [] => true
  | c :: rest =>
    match c with
    | .vkWaitForFences _ f =>
      decide (f = fence) || notReusedBeforeWait commandBuffer fence memory rest
    | .vkMapMemory _ m =>
      !decide (m ∈ memory) && notReusedBeforeWait commandBuffer fence memory rest
    | .vkQueueSubmit _ _ _ commandBuffers _ _ =>
      !decide (commandBuffer ∈ commandBuffers) &&
        notReusedBeforeWait commandBuffer fence memory rest
    | _ => notReusedBeforeWait commandBuffer fence memory rest

/-- Every submission in the trace is guarded by its fence: no command buffer
and no uniform buffer it reads is reused before the completion fence of the
submission has been waited on.  The first argument tells which memory a
command buffer reads. -/
def fenceGuarded (reads : Handle → List Handle) : List Call → Bool
  | [] => true
  | c :: rest =>
    match c with
    | .vkQueueSubmit _ _ _ commandBuffers _ fence =>
      commandBuffers.all (fun cb => notReusedBeforeWait cb fence (reads cb) rest) &&
        fenceGuarded reads rest
    | _ => fenceGuarded reads rest

/-- No image index recurs within `n` consecutive frames. -/
def imagesSpread (n : Nat) : List Nat → Bool
  | [] => true
  | k :: ks => !decide (k ∈ ks.take (n - 1)) && imagesSpread n ks

/-- The calls of a run of frames that all run to presentation, the first one in
slot `c`, for the given image indices. -/
def RenderSystem.framesCalls (MAX_CONCURRENT_FRAMES : Nat) (s : RenderSystem) :
    Nat → List Nat → List Call
  | _, [] => []
  | c, k :: ks =>
    ({ s with mCurrentFrame := c } : RenderSystem).frameCalls k ++
      RenderSystem.framesCalls MAX_CONCURRENT_FRAMES s ((c + 1) % MAX_CONCURRENT_FRAMES) ks

/-- Recognises the recording of a pipeline barrier. -/
def Call.isPipelineBarrier : Call → Bool
  | .vkCmdPipelineBarrier .. => true
  | _ => false

/-- The image barriers a call records. -/
def Call.imageBarriers : Call → List VkImageMemoryBarrier
  | .vkCmdPipelineBarrier _ _ _ barriers => barriers
  | _ => []

/-- The two layout transitions of the texture upload: undefined to
transfer-destination and transfer-destination to shader-read-only. -/
def layoutTransitionSupported (oldLayout newLayout : Nat) : Prop :=
  (oldLayout = VK_IMAGE_LAYOUT_UNDEFINED ∧ newLayout = VK_IMAGE_LAYOUT_TRANSFER_DST_OPTIMAL) ∨
  (oldLayout = VK_IMAGE_LAYOUT_TRANSFER_DST_OPTIMAL ∧
    newLayout = VK_IMAGE_LAYOUT_SHADER_READ_ONLY_OPTIMAL)

instance (oldLayout newLayout : Nat) : Decidable (layoutTransitionSupported oldLayout newLayout) := by
  unfold layoutTransitionSupported; infer_instance

/-- The descriptor writes a call hands to the driver. -/
def Call.descriptorWrites : Call → List VkWriteDescriptorSet
  | .vkUpdateDescriptorSets _ writes => writes
  | _ => []

/-- Recognises the allocation of descriptor sets. -/
def Call.isAllocateDescriptorSets : Call → Bool
  | .vkAllocateDescriptorSets .. => true
  | _ => false

/-- Memory type `i` exists, bit `i` of the type filter is set, and the flags of
the memory type contain all required property flags. -/
def memoryTypeSuits (memoryTypes : List Nat) (typeFilter properties : Nat) (i : Nat) : Prop :=
  i < memoryTypes.length ∧ typeFilter.testBit i = true ∧
    (memoryTypes.getD i 0) &&& properties = properties

instance (memoryTypes : List Nat) (typeFilter properties i : Nat) :
    Decidable (memoryTypeSuits memoryTypes typeFilter properties i) := by
  unfold memoryTypeSuits; infer_instance

/-- Recognises the beginning of a render pass inside a command buffer. -/
def Call.isBeginRenderPass : Call → Bool
  | .vkCmdBeginRenderPass .. => true
  | _ => false

/-- The calls that record command buffer `i` when every call succeeds, in the
order of lines 715-747. -/
def RenderSystem.recordCalls (s : RenderSystem) (i : Nat) : List Call :=
  [ .vkBeginCommandBuffer (s.mCommandBuffers.getD i VK_NULL_HANDLE),
    .vkCmdBeginRenderPass (s.mCommandBuffers.getD i VK_NULL_HANDLE) s.mRenderPass
      (s.mSwapchainFramebuffers.getD i VK_NULL_HANDLE) s.mSwapchain.getExtent s.mClearColor,
    .vkCmdBindPipeline (s.mCommandBuffers.getD i VK_NULL_HANDLE) s.mPipeline,
    .vkCmdBindVertexBuffers (s.mCommandBuffers.getD i VK_NULL_HANDLE) s.mVertexBuffer,
    .vkCmdBindIndexBuffer (s.mCommandBuffers.getD i VK_NULL_HANDLE) s.mIndexBuffer,
    .vkCmdBindDescriptorSets (s.mCommandBuffers.getD i VK_NULL_HANDLE) s.mPipelineLayout
      (s.mDescriptorSets.getD i VK_NULL_HANDLE),
    .vkCmdDrawIndexed (s.mCommandBuffers.getD i VK_NULL_HANDLE),
    .vkCmdEndRenderPass (s.mCommandBuffers.getD i VK_NULL_HANDLE),
    .vkEndCommandBuffer (s.mCommandBuffers.getD i VK_NULL_HANDLE) ]

/-- The creation step a call belongs to: 1 for the calls of `createSwapchain`,
2 for `createRenderPass`, 3 for `createGraphicsPipeline`, 4 for
`createFramebuffers`, 5 for `createCommandBuffers`, and 0 for every other
call. -/
def Call.buildStep : Call → Nat
  | .vkGetPhysicalDeviceSurfaceCapabilitiesKHR .. => 1
  | .swapchainInitialize .. => 1
  | .swapchainCreateImageViews .. => 1
  | .vkCreateRenderPass .. => 2
  | .readShaderFile .. => 3
  | .vkCreateShaderModule .. => 3
  | .vkDestroyShaderModule .. => 3
  | .vkCreatePipelineLayout .. => 3
  | .vkCreateGraphicsPipelines .. => 3
  | .vkCreateFramebuffer .. => 4
  | .allocateCommandBuffers .. => 5
  | .vkBeginCommandBuffer .. => 5
  | .vkCmdBeginRenderPass .. => 5
  | .vkCmdBindPipeline .. => 5
  | .vkCmdBindVertexBuffers .. => 5
  | .vkCmdBindIndexBuffer .. => 5
  | .vkCmdBindDescriptorSets .. => 5
  | .vkCmdDrawIndexed .. => 5
  | .vkCmdEndRenderPass .. => 5
  | .vkEndCommandBuffer .. => 5
  | _ => 0

/-- The destructions of `cleanupSwapchain` on the state `s`, in the order of
lines 63-74: the framebuffers, the command buffers (freed back to the pool),
the pipeline, the pipeline layout, the render pass and the swapchain. -/
def RenderSystem.teardownCalls (s : RenderSystem) : List Call :=
  s.mSwapchainFramebuffers.map (fun framebuffer => .vkDestroyFramebuffer s.device framebuffer) ++
  [ .freeCommandBuffers s.mCommandPool s.mCommandBuffers,
    .vkDestroyPipeline s.device s.mPipeline,
    .vkDestroyPipelineLayout s.device s.mPipelineLayout,
    .vkDestroyRenderPass s.device s.mRenderPass,
    .swapchainCleanup s.mSwapchain.getVkSwapchain s.mSwapchain.getImageViews ]

/-- The state `t` is reached from `s` by calls of creation step `k` only. -/
def RenderSystem.Builds (k : Nat) (s t : RenderSystem) : Prop :=
  ∃ calls, t.trace = s.trace ++ calls ∧ ∀ c ∈ calls, c.buildStep = k

/-- Recognises the calls that destroy or free an object. -/
def Call.isDestroy : Call → Bool
  | .vkDestroyFramebuffer .. => true
  | .freeCommandBuffers .. => true
  | .vkDestroyPipeline .. => true
  | .vkDestroyPipelineLayout .. => true
  | .vkDestroyRenderPass .. => true
  | .swapchainCleanup .. => true
  | .teardown _ => true
  | _ => false

/-- The state `t` is reached from `s` by destroying and freeing calls only. -/
def RenderSystem.Destroys (s t : RenderSystem) : Prop :=
  ∃ calls, t.trace = s.trace ++ calls ∧ ∀ c ∈ calls, c.isDestroy = true

/-- The swapchain has `N` images and there are `N` framebuffers, command
buffers, descriptor sets, uniform buffers and uniform-buffer memories. -/
def RenderSystem.Counted (N : Nat) (s : RenderSystem) : Prop :=
  s.mSwapchain.size = N ∧ s.mSwapchainFramebuffers.length = N ∧ s.mCommandBuffers.length = N ∧
  s.mDescriptorSets.length = N ∧ s.mUniformBuffers.length = N ∧
  s.mUniformBuffersMemory.length = N

instance (N : Nat) (s : RenderSystem) : Decidable (s.Counted N) := by
  unfold RenderSystem.Counted; infer_instance

/-- The numbers of images, image views, framebuffers, command buffers,
descriptor sets, uniform buffers and uniform-buffer memories. -/
def RenderSystem.counts (s : RenderSystem) : Nat × Nat × Nat × Nat × Nat × Nat × Nat :=
  (s.mSwapchain.size, s.mSwapchain.getImageViews.length, s.mSwapchainFramebuffers.length,
    s.mCommandBuffers.length, s.mDescriptorSets.length, s.mUniformBuffers.length,
    s.mUniformBuffersMemory.length)

/-- What the steps from `createRenderPass` to `createCommandBuffers` do to the
counts: images, image views, descriptor sets and uniform buffers keep their
number; the framebuffers keep theirs or get the number of image views; the
command buffers keep theirs or get the number of framebuffers; and on normal
return both have the number of image views. -/
def RenderSystem.Resizes (s : RenderSystem) (o : Outcome) : Prop :=
  o.state.counts.1 = s.counts.1 ∧ o.state.counts.2.1 = s.counts.2.1 ∧
  o.state.counts.2.2.2.2 = s.counts.2.2.2.2 ∧
  (o.state.counts.2.2.1 = s.counts.2.2.1 ∨ o.state.counts.2.2.1 = s.counts.2.1) ∧
  (o.state.counts.2.2.2.1 = s.counts.2.2.2.1 ∨
    o.state.counts.2.2.2.1 = o.state.counts.2.2.1) ∧
  (o.thrown = none →
    o.state.counts.2.2.1 = s.counts.2.1 ∧ o.state.counts.2.2.2.1 = s.counts.2.1)

/-- The calls that a client of the render system makes after start-up. -/
inductive Operation where
  | drawFrame (r : FrameReplies)
  | setClearColor (clearColor : VkClearValue) (r : SwapchainReplies)
  | recreateSwapchain (r : SwapchainReplies)

/-- One call of the render system. -/
def RenderSystem.perform (MAX_CONCURRENT_FRAMES : Nat) (s : RenderSystem) :
    Operation → Outcome
  | .drawFrame r => s.drawFrame MAX_CONCURRENT_FRAMES r
  | .setClearColor clearColor r => s.setClearColor clearColor r
  | .recreateSwapchain r => s.recreateSwapchain MAX_CONCURRENT_FRAMES r

/-- A run of calls of the render system; an exception ends the run. -/
def RenderSystem.performAll (MAX_CONCURRENT_FRAMES : Nat) :
    RenderSystem → List Operation → Outcome
  | s, [] => Outcome.ok s
  | s, op :: rest =>
    (s.perform MAX_CONCURRENT_FRAMES op).andThen fun t =>
      RenderSystem.performAll MAX_CONCURRENT_FRAMES t rest

/-- The states a run of calls passes through: the state after each call, in
order; an exception ends the run. -/
def RenderSystem.statesOf (MAX_CONCURRENT_FRAMES : Nat) :
    RenderSystem → List Operation → List RenderSystem
  | _, [] => []
  | s, op :: rest =>
    (s.perform MAX_CONCURRENT_FRAMES op).state ::
      (match (s.perform MAX_CONCURRENT_FRAMES op).thrown with
        | none => RenderSystem.statesOf MAX_CONCURRENT_FRAMES
            (s.perform MAX_CONCURRENT_FRAMES op).state rest
        | some _ => [])

/-! ## Sample data -/

/-- A swapchain of three images of 800 by 600 pixels. -/
def sampleSwapchain : Swapchain :=
  { vkSwapchain := 20, images := [21, 22, 23], imageViews := [24, 25, 26],
    imageFormat := 44, extent := ⟨800, 600⟩ }

/-- An initialized render system with three swapchain images and two frame
slots, as `initialize` leaves it when `MAX_CONCURRENT_FRAMES` is 2. -/
def sampleState : RenderSystem :=
  { mWindow := 1, mInstance := 2, mCallback := 10, mSurface := 3, physicalDevice := 4, device := 5,
    graphicsQueue := 6, presentQueue := 7, mCommandPool := 8,
    mSwapchain := sampleSwapchain,
    mRenderPass := 27, mDescriptorSetLayout := 28, mPipelineLayout := 29, mPipeline := 30,
    mDescriptorPool := 9,
    mSwapchainFramebuffers := [31, 32, 33],
    mCommandBuffers := [34, 35, 36],
    mDescriptorSets := [37, 38, 39],
    mUniformBuffers := [40, 41, 42],
    mUniformBuffersMemory := [43, 44, 45],
    mVertexBuffer := 46, mVertexBufferMemory := 47,
    mIndexBuffer := 48, mIndexBufferMemory := 49,
    mTexture := { image := 50, memory := 51, imageView := 52, sampler := 53 },
    mImageAvailableSemaphores := [54, 55],
    mRenderFinishedSemaphores := [56, 57],
    mFrameFences := [58, 59],
    mCurrentFrame := 0,
    mClearColor := ⟨0, 0, 0, 1065353216⟩,
    nextHandle := 60,
    trace := [] }

/-- Capabilities of a surface that accepts any extent between 1 by 1 and 4096
by 4096. -/
def sentinelCapabilities : VkSurfaceCapabilitiesKHR :=
  { currentExtent := ⟨UINT32_MAX, UINT32_MAX⟩, minImageExtent := ⟨1, 1⟩,
    maxImageExtent := ⟨4096, 4096⟩ }

/-- Capabilities of a surface of the fixed extent 800 by 600. -/
def fixedCapabilities : VkSurfaceCapabilitiesKHR :=
  { currentExtent := ⟨800, 600⟩, minImageExtent := ⟨1, 1⟩, maxImageExtent := ⟨4096, 4096⟩ }

/-- Answers of a driver on which every call succeeds, for a window of 1920 by
1080 pixels and a swapchain of `imageCount` images. -/
def sampleReplies (capabilities : VkSurfaceCapabilitiesKHR) (imageCount : Nat) :
    SwapchainReplies :=
  { capabilities := capabilities
    framebufferSize := fun _ => (1920, 1080)
    imageCount := imageCount
    imageFormat := 44
    createSwapchain := VK_SUCCESS
    createImageViews := VK_SUCCESS
    createRenderPass := VK_SUCCESS
    createVertShaderModule := VK_SUCCESS
    createFragShaderModule := VK_SUCCESS
    createPipelineLayout := VK_SUCCESS
    createGraphicsPipelines := VK_SUCCESS
    createFramebuffer := fun _ => VK_SUCCESS
    beginCommandBuffer := fun _ => VK_SUCCESS
    endCommandBuffer := fun _ => VK_SUCCESS }

/-- Answers for one frame: the results of acquire, submit and present and the
acquired image index. -/
def sampleFrame (acquire : VkResult) (imageIndex : Nat) (submit present : VkResult) :
    FrameReplies :=
  { acquireNextImage := acquire, imageIndex := imageIndex, queueSubmit := submit,
    queuePresent := present, recreate := sampleReplies fixedCapabilities 3 }

/-- A render system before `initialize`: no object exists yet. -/
def freshState : RenderSystem :=
  { mWindow := 0, mInstance := 0, mCallback := 0, mSurface := 0, physicalDevice := 0, device := 0,
    graphicsQueue := 0, presentQueue := 0, mCommandPool := 0,
    mSwapchain := { vkSwapchain := 0, images := [], imageViews := [], imageFormat := 0,
                    extent := ⟨0, 0⟩ },
    mRenderPass := 0, mDescriptorSetLayout := 0, mPipelineLayout := 0, mPipeline := 0,
    mDescriptorPool := 0,
    mSwapchainFramebuffers := [],
    mCommandBuffers := [],
    mDescriptorSets := [],
    mUniformBuffers := [],
    mUniformBuffersMemory := [],
    mVertexBuffer := 0, mVertexBufferMemory := 0,
    mIndexBuffer := 0, mIndexBufferMemory := 0,
    mTexture := { image := 0, memory := 0, imageView := 0, sampler := 0 },
    mImageAvailableSemaphores := [],
    mRenderFinishedSemaphores := [],
    mFrameFences := [],
    mCurrentFrame := 0,
    mClearColor := ⟨0, 0, 0, 1065353216⟩,
    nextHandle := 1,
    trace := [] }

/-- Answers during `initialize` of a system on which every call succeeds: one
physical device, one queue family for graphics and presentation, a texture of
512 by 512 pixels and a swapchain of `imageCount` images. -/
def sampleInitializeReplies (imageCount : Nat) : InitializeReplies :=
  { createInstance := VK_SUCCESS
    createDebugReportCallback := VK_SUCCESS
    createWindowSurface := VK_SUCCESS
    physicalDevices := [100]
    graphicsFamily := 0
    presentFamily := 0
    createDevice := VK_SUCCESS
    swapchain := sampleReplies fixedCapabilities imageCount
    createDescriptorPool := VK_SUCCESS
    createDescriptorSetLayout := VK_SUCCESS
    pixelsLoaded := true
    textureWidth := 512
    textureHeight := 512
    textureChannels := 4
    textureLoad := VK_SUCCESS
    createVertexBuffer := VK_SUCCESS
    createIndexBuffer := VK_SUCCESS
    createUniformBuffer := fun _ => VK_SUCCESS
    allocateDescriptorSets := VK_SUCCESS
    createImageAvailableSemaphore := fun _ => VK_SUCCESS
    createRenderFinishedSemaphore := fun _ => VK_SUCCESS
    createFence := fun _ => VK_SUCCESS }

/-! ## Extent negotiation: properties -/

/-- C6: when the width of `currentExtent` is not the sentinel `UINT32_MAX` (the
test the source makes), `chooseSwapchainExtent` returns `currentExtent`
verbatim, whatever the window size and the extent bounds are. -/
theorem chooseSwapchainExtent_fixed (s : RenderSystem) (size : Handle → Int × Int)
    (capabilities : VkSurfaceCapabilitiesKHR)
    (h : capabilities.currentExtent.width ≠ UINT32_MAX) :
    s.chooseSwapchainExtent size capabilities = capabilities.currentExtent := by
  simp [RenderSystem.chooseSwapchainExtent, h]

/-- Witness of C6: a surface reporting 800 by 600 yields exactly 800 by 600,
although the window reports 1920 by 1080. -/
theorem chooseSwapchainExtent_fixed_witness :
    fixedCapabilities.currentExtent.width ≠ UINT32_MAX ∧
    sampleState.chooseSwapchainExtent (fun _ => (1920, 1080)) fixedCapabilities = ⟨800, 600⟩ :=
  ⟨by decide, chooseSwapchainExtent_fixed sampleState _ fixedCapabilities (by decide)⟩

theorem toUint32_natCast (w : Nat) (h : w ≤ 2147483647) : toUint32 (w : Int) = w := by
  unfold toUint32
  omega

/-- C7: when `currentExtent` carries the sentinel and the window framebuffer
has size `(w, h)`, `chooseSwapchainExtent` returns the window size clamped
componentwise into the bounds of the capabilities. -/
theorem chooseSwapchainExtent_sentinel (s : RenderSystem) (size : Handle → Int × Int)
    (capabilities : VkSurfaceCapabilitiesKHR) (w h : Nat)
    (hs : capabilities.currentExtent.width = UINT32_MAX)
    (hsize : size s.mWindow = ((w : Int), (h : Int)))
    (hw : w ≤ 2147483647) (hh : h ≤ 2147483647) :
    s.chooseSwapchainExtent size capabilities =
      { width := max capabilities.minImageExtent.width (min capabilities.maxImageExtent.width w)
        height := max capabilities.minImageExtent.height
          (min capabilities.maxImageExtent.height h) } := by
  simp [RenderSystem.chooseSwapchainExtent, hs, hsize, toUint32_natCast, hw, hh]

/-- Witness of C7: a window of 1920 by 1080 on a surface with bounds 1 by 1 and
4096 by 4096 yields 1920 by 1080. -/
theorem chooseSwapchainExtent_sentinel_witness :
    sentinelCapabilities.currentExtent.width = UINT32_MAX ∧
    sampleState.chooseSwapchainExtent (fun _ => (1920, 1080)) sentinelCapabilities
      = ⟨1920, 1080⟩ :=
  ⟨rfl, chooseSwapchainExtent_sentinel sampleState (fun _ => (1920, 1080)) sentinelCapabilities
    1920 1080 rfl rfl (by decide) (by decide)⟩

/-- Counterexample to C8 as stated: a fixed extent of 800 by 600 is returned
although the maximum is 640 by 480, and on the sentinel path a minimum above
the maximum is returned although it exceeds the maximum. -/
theorem chooseSwapchainExtent_out_of_bounds :
    ¬ (sampleState.chooseSwapchainExtent (fun _ => (800, 600))
        ⟨⟨800, 600⟩, ⟨1, 1⟩, ⟨640, 480⟩⟩).within ⟨⟨800, 600⟩, ⟨1, 1⟩, ⟨640, 480⟩⟩ ∧
    ¬ (sampleState.chooseSwapchainExtent (fun _ => (800, 600))
        ⟨⟨UINT32_MAX, UINT32_MAX⟩, ⟨1024, 768⟩, ⟨640, 480⟩⟩).within
        ⟨⟨UINT32_MAX, UINT32_MAX⟩, ⟨1024, 768⟩, ⟨640, 480⟩⟩ := by
  decide

/-- C8, amended: when the minimum extent does not exceed the maximum extent
and a fixed `currentExtent` lies within these bounds itself, the extent
returned lies within the bounds componentwise. -/
theorem chooseSwapchainExtent_within (s : RenderSystem) (size : Handle → Int × Int)
    (capabilities : VkSurfaceCapabilitiesKHR)
    (hw : capabilities.minImageExtent.width ≤ capabilities.maxImageExtent.width)
    (hh : capabilities.minImageExtent.height ≤ capabilities.maxImageExtent.height)
    (hfixed : capabilities.currentExtent.width ≠ UINT32_MAX →
      capabilities.currentExtent.within capabilities) :
    (s.chooseSwapchainExtent size capabilities).within capabilities := by
  unfold RenderSystem.chooseSwapchainExtent
  split
  · next hne => exact hfixed hne
  · simp only [VkExtent2D.within]
    omega

/-- Witness of C8: the bounds hold for a window of 5000 by 0 pixels on the
surface that accepts any extent between 1 by 1 and 4096 by 4096. -/
theorem chooseSwapchainExtent_within_witness :
    (sampleState.chooseSwapchainExtent (fun _ => (5000, 0)) sentinelCapabilities).within
      sentinelCapabilities :=
  chooseSwapchainExtent_within sampleState _ sentinelCapabilities (by decide) (by decide)
    (by decide)

/-- C9: the extent chosen depends on the capabilities and on the window size
only.  Two computations in arbitrary states that are given the same
capabilities and the same window size return the same extent, and every call
of `createSwapchain` hands to `Swapchain::initialize` the extent computed from
the answers of that very call, whatever extent the previous swapchain had. -/
theorem chooseSwapchainExtent_deterministic (MAX_CONCURRENT_FRAMES : Nat)
    (s₁ s₂ : RenderSystem) (r₁ r₂ : SwapchainReplies)
    (hcap : r₁.capabilities = r₂.capabilities)
    (hsize : r₁.framebufferSize s₁.mWindow = r₂.framebufferSize s₂.mWindow) :
    s₁.chooseSwapchainExtent r₁.framebufferSize r₁.capabilities
      = s₂.chooseSwapchainExtent r₂.framebufferSize r₂.capabilities ∧
    Call.swapchainInitialize s₁.mSurface
        (s₁.chooseSwapchainExtent r₁.framebufferSize r₁.capabilities) MAX_CONCURRENT_FRAMES
      ∈ (s₁.createSwapchain MAX_CONCURRENT_FRAMES r₁).state.callsSince s₁.trace.length := by
  constructor
  · simp only [RenderSystem.chooseSwapchainExtent, hcap, hsize]
  · simp only [RenderSystem.createSwapchain, Swapchain.initialize, Swapchain.createImageViews,
      Outcome.andThen, Outcome.ok, Outcome.throw, RenderSystem.callsSince]
    split_ifs <;>
      simp [RenderSystem.call, RenderSystem.chooseSwapchainExtent]

/-- Witness of C9: a render system whose swapchain is 800 by 600 and one whose
swapchain is 1 by 1 choose the same extent, 1920 by 1080, for the same
answers. -/
theorem chooseSwapchainExtent_deterministic_witness :
    sampleState.chooseSwapchainExtent (sampleReplies sentinelCapabilities 3).framebufferSize
        sentinelCapabilities
      = ({ sampleState with mSwapchain := { sampleSwapchain with extent := ⟨1, 1⟩ } }
          : RenderSystem).chooseSwapchainExtent
          (sampleReplies sentinelCapabilities 2).framebufferSize sentinelCapabilities ∧
    Call.swapchainInitialize 3 ⟨1920, 1080⟩ 2
      ∈ (sampleState.createSwapchain 2 (sampleReplies sentinelCapabilities 3)).state.callsSince
          sampleState.trace.length :=
  chooseSwapchainExtent_deterministic 2 sampleState
    { sampleState with mSwapchain := { sampleSwapchain with extent := ⟨1, 1⟩ } }
    (sampleReplies sentinelCapabilities 3) (sampleReplies sentinelCapabilities 2) rfl rfl

/-! ## The frame loop: properties -/

/-- The result of `vkAcquireNextImageKHR` has no influence on `drawFrame`. -/
theorem drawFrame_ignores_acquire (MAX_CONCURRENT_FRAMES : Nat) (s : RenderSystem)
    (r : FrameReplies) (result : VkResult) :
    s.drawFrame MAX_CONCURRENT_FRAMES { r with acquireNextImage := result }
      = s.drawFrame MAX_CONCURRENT_FRAMES r := rfl

/-- C1, the code at the failing input: `vkAcquireNextImageKHR` reports
out-of-date in slot 0, yet `drawFrame` makes no device-idle wait (so no
recreation), submits, presents, and advances `mCurrentFrame` to 1. -/
theorem drawFrame_acquire_out_of_date_ignored :
    (sampleState.drawFrame 2
      (sampleFrame VK_ERROR_OUT_OF_DATE_KHR 0 VK_SUCCESS VK_SUCCESS)).thrown = none ∧
    (sampleState.drawFrame 2
      (sampleFrame VK_ERROR_OUT_OF_DATE_KHR 0 VK_SUCCESS VK_SUCCESS)).state.trace =
      [ .vkWaitForFences 5 58, .vkResetFences 5 58, .vkAcquireNextImageKHR 5 20 54,
        .vkMapMemory 5 43, .vkUnmapMemory 5 43,
        .vkQueueSubmit 6 [54] [VK_PIPELINE_STAGE_COLOR_ATTACHMENT_OUTPUT_BIT] [34] [56] 58,
        .vkQueuePresentKHR 7 [56] [20] [0] ] ∧
    (sampleState.drawFrame 2
      (sampleFrame VK_ERROR_OUT_OF_DATE_KHR 0 VK_SUCCESS VK_SUCCESS)).state.mCurrentFrame
      = 1 := by
  decide

/-- A frame whose submission succeeds and whose presentation reports success or
suboptimal: the calls of lines 122-166 are made and the slot advances. -/
theorem drawFrame_completes (MAX_CONCURRENT_FRAMES : Nat) (s : RenderSystem) (r : FrameReplies)
    (hsubmit : r.queueSubmit = VK_SUCCESS)
    (hpresent : r.queuePresent = VK_SUCCESS ∨ r.queuePresent = VK_SUBOPTIMAL_KHR) :
    s.drawFrame MAX_CONCURRENT_FRAMES r = Outcome.ok
      { s with
        mCurrentFrame := (s.mCurrentFrame + 1) % MAX_CONCURRENT_FRAMES
        trace := s.trace ++ s.frameCalls r.imageIndex } := by
  have hood : r.queuePresent ≠ VK_ERROR_OUT_OF_DATE_KHR := by
    rcases hpresent with h | h <;> rw [h] <;> decide
  have hno : ¬ (r.queuePresent ≠ VK_SUCCESS ∧ r.queuePresent ≠ VK_SUBOPTIMAL_KHR) := by
    rcases hpresent with h | h <;> simp [h]
  simp [RenderSystem.drawFrame, RenderSystem.updateUniformBuffer, RenderSystem.call,
    RenderSystem.frameCalls, hsubmit, hood, hno]

/-- C4: with `mCurrentFrame = c`, a successful submission and a presentation
that reports success or suboptimal, `drawFrame` raises no error, makes exactly
the seven calls of a frame (none is a device-idle wait, so no recreation is
invoked and no swapchain-dependent object changes), and leaves
`mCurrentFrame = (c + 1) mod MAX_CONCURRENT_FRAMES`. -/
theorem drawFrame_advances (MAX_CONCURRENT_FRAMES : Nat) (s : RenderSystem) (r : FrameReplies)
    (c : Nat) (hc : s.mCurrentFrame = c)
    (hsubmit : r.queueSubmit = VK_SUCCESS)
    (hpresent : r.queuePresent = VK_SUCCESS ∨ r.queuePresent = VK_SUBOPTIMAL_KHR) :
    (s.drawFrame MAX_CONCURRENT_FRAMES r).thrown = none ∧
    (s.drawFrame MAX_CONCURRENT_FRAMES r).state.mCurrentFrame
      = (c + 1) % MAX_CONCURRENT_FRAMES ∧
    (s.drawFrame MAX_CONCURRENT_FRAMES r).state.callsSince s.trace.length
      = s.frameCalls r.imageIndex ∧
    (∀ call ∈ (s.drawFrame MAX_CONCURRENT_FRAMES r).state.callsSince s.trace.length,
      call.isDeviceWaitIdle = false) ∧
    (s.drawFrame MAX_CONCURRENT_FRAMES r).state =
      { s with
        mCurrentFrame := (c + 1) % MAX_CONCURRENT_FRAMES
        trace := s.trace ++ s.frameCalls r.imageIndex } := by
  rw [drawFrame_completes MAX_CONCURRENT_FRAMES s r hsubmit hpresent]
  subst hc
  refine ⟨rfl, rfl, ?_, ?_, rfl⟩
  · simp [Outcome.ok, RenderSystem.callsSince]
  · simp [Outcome.ok, RenderSystem.callsSince, RenderSystem.frameCalls, Call.isDeviceWaitIdle]

/-- Witness of C4: in slot 1 of 2 a presentation that reports suboptimal
leaves the slot counter at 0. -/
theorem drawFrame_advances_witness :
    (({ sampleState with mCurrentFrame := 1 } : RenderSystem).drawFrame 2
        (sampleFrame VK_SUCCESS 2 VK_SUCCESS VK_SUBOPTIMAL_KHR)).thrown = none ∧
    (({ sampleState with mCurrentFrame := 1 } : RenderSystem).drawFrame 2
        (sampleFrame VK_SUCCESS 2 VK_SUCCESS VK_SUBOPTIMAL_KHR)).state.mCurrentFrame = 0 :=
  have h := drawFrame_advances 2 { sampleState with mCurrentFrame := 1 }
    (sampleFrame VK_SUCCESS 2 VK_SUCCESS VK_SUBOPTIMAL_KHR) 1 rfl rfl (Or.inr rfl)
  ⟨h.1, h.2.1⟩

/-- The presentation half of the escalation: a result of `vkQueuePresentKHR`
that is neither success, nor out-of-date, nor suboptimal is raised as a
runtime error and the slot counter keeps its value. -/
theorem drawFrame_present_error (MAX_CONCURRENT_FRAMES : Nat) (s : RenderSystem)
    (r : FrameReplies) (hsubmit : r.queueSubmit = VK_SUCCESS)
    (h₁ : r.queuePresent ≠ VK_SUCCESS) (h₂ : r.queuePresent ≠ VK_ERROR_OUT_OF_DATE_KHR)
    (h₃ : r.queuePresent ≠ VK_SUBOPTIMAL_KHR) :
    (s.drawFrame MAX_CONCURRENT_FRAMES r).thrown
      = some (.runtime_error "Failed to acquire swapchain image!") ∧
    (s.drawFrame MAX_CONCURRENT_FRAMES r).state.mCurrentFrame = s.mCurrentFrame := by
  simp [RenderSystem.drawFrame, RenderSystem.updateUniformBuffer, RenderSystem.call,
    Outcome.throw, hsubmit, h₁, h₂, h₃]

/-- C5, the code at the failing input: `vkAcquireNextImageKHR` reports a lost
device, yet `drawFrame` raises nothing, submits and presents, and advances
`mCurrentFrame` from 0 to 1; the same result code coming from
`vkQueuePresentKHR` is raised as an error with the counter unchanged. -/
theorem drawFrame_acquire_error_ignored :
    (sampleState.drawFrame 2
      (sampleFrame VK_ERROR_DEVICE_LOST 0 VK_SUCCESS VK_SUCCESS)).thrown = none ∧
    (sampleState.drawFrame 2
      (sampleFrame VK_ERROR_DEVICE_LOST 0 VK_SUCCESS VK_SUCCESS)).state.mCurrentFrame = 1 ∧
    ((sampleState.drawFrame 2
      (sampleFrame VK_ERROR_DEVICE_LOST 0 VK_SUCCESS VK_SUCCESS)).state.trace.filter
        (fun call => call.isQueueSubmit || call.isQueuePresent)).length = 2 ∧
    (sampleState.drawFrame 2
      (sampleFrame VK_SUCCESS 0 VK_SUCCESS VK_ERROR_DEVICE_LOST)).thrown
        = some (.runtime_error "Failed to acquire swapchain image!") ∧
    (sampleState.drawFrame 2
      (sampleFrame VK_SUCCESS 0 VK_SUCCESS VK_ERROR_DEVICE_LOST)).state.mCurrentFrame = 0 := by
  decide

/-! ## Swapchain recreation: what the rebuilding steps leave alone -/

theorem RenderSystem.Rebuilds.refl (s : RenderSystem) : s.Rebuilds s :=
  ⟨⟨[], by simp, by simp⟩, rfl⟩

theorem RenderSystem.Rebuilds.trans {s t u : RenderSystem} (h₁ : s.Rebuilds t)
    (h₂ : t.Rebuilds u) : s.Rebuilds u := by
  obtain ⟨⟨c₁, e₁, q₁⟩, f₁⟩ := h₁
  obtain ⟨⟨c₂, e₂, q₂⟩, f₂⟩ := h₂
  refine ⟨⟨c₁ ++ c₂, by rw [e₂, e₁, List.append_assoc], ?_⟩, f₂.trans f₁⟩
  intro c hc
  rcases List.mem_append.mp hc with h | h
  · exact q₁ c h
  · exact q₂ c h

theorem RenderSystem.Rebuilds.call (s : RenderSystem) (c : Call)
    (hc : c.isRebuild = true) : s.Rebuilds (s.call c) :=
  ⟨⟨[c], rfl, by simpa using hc⟩, rfl⟩

theorem RenderSystem.Rebuilds.andThen {s : RenderSystem} (o : Outcome)
    (f : RenderSystem → Outcome) (h₁ : s.Rebuilds o.state)
    (h₂ : ∀ t : RenderSystem, t.Rebuilds (f t).state) : s.Rebuilds (o.andThen f).state := by
  unfold Outcome.andThen
  split
  · exact h₁.trans (h₂ _)
  · exact h₁

theorem createRenderPass_rebuilds (s : RenderSystem) (r : SwapchainReplies) :
    s.Rebuilds (s.createRenderPass r).state := by
  unfold RenderSystem.createRenderPass
  split <;>
    simp [RenderSystem.Rebuilds, RenderSystem.call, RenderSystem.fixedPart, Outcome.throw,
      Outcome.ok, Call.isRebuild]

theorem Swapchain.initialize_rebuilds (s : RenderSystem) (r : SwapchainReplies)
    (extent : VkExtent2D) (frames : Nat) :
    s.Rebuilds ( Swapchain.initialize s r extent frames).state := by
  unfold Swapchain.initialize
  split_ifs <;>
    simp [RenderSystem.Rebuilds, RenderSystem.call, RenderSystem.fixedPart, Outcome.throw,
      Outcome.ok, Call.isRebuild]

theorem Swapchain.createImageViews_rebuilds (s : RenderSystem) (r : SwapchainReplies) :
    s.Rebuilds (Swapchain.createImageViews s r).state := by
  unfold Swapchain.createImageViews
  split_ifs <;>
    simp [RenderSystem.Rebuilds, RenderSystem.call, RenderSystem.fixedPart, Outcome.throw,
      Outcome.ok, Call.isRebuild]

theorem createShaderModule_rebuilds (s : RenderSystem) (result : VkResult) :
    s.Rebuilds (s.createShaderModule result).1.state := by
  unfold RenderSystem.createShaderModule
  split_ifs <;>
    simp [RenderSystem.Rebuilds, RenderSystem.call, RenderSystem.fixedPart, Outcome.throw,
      Outcome.ok, Call.isRebuild]

theorem createGraphicsPipeline_rebuilds (s : RenderSystem) (r : SwapchainReplies) :
    s.Rebuilds (s.createGraphicsPipeline r).state := by
  unfold RenderSystem.createGraphicsPipeline
  refine RenderSystem.Rebuilds.andThen _ _ ?_ fun t =>
    RenderSystem.Rebuilds.andThen _ _ (createShaderModule_rebuilds t _) fun u => ?_
  · exact ((RenderSystem.Rebuilds.call s _ (by rfl)).trans
      (RenderSystem.Rebuilds.call _ _ (by rfl))).trans (createShaderModule_rebuilds _ _)
  · split_ifs <;>
      simp [RenderSystem.Rebuilds, RenderSystem.call, RenderSystem.fixedPart, Outcome.throw,
        Outcome.ok, Call.isRebuild]


theorem createSwapchain_rebuilds (MAX_CONCURRENT_FRAMES : Nat) (s : RenderSystem)
    (r : SwapchainReplies) : s.Rebuilds (s.createSwapchain MAX_CONCURRENT_FRAMES r).state := by
  unfold RenderSystem.createSwapchain
  exact RenderSystem.Rebuilds.andThen _ _
    ((RenderSystem.Rebuilds.call s _ (by rfl)).trans ( Swapchain.initialize_rebuilds _ _ _ _))
    (Swapchain.createImageViews_rebuilds · r)

theorem createFramebuffersFrom_rebuilds (r : SwapchainReplies) (views : List Handle) :
    ∀ (i : Nat) (s : RenderSystem),
      s.Rebuilds (RenderSystem.createFramebuffersFrom r views i s).state := by
  induction views with
  | nil => intro i s; exact RenderSystem.Rebuilds.refl s
  | cons view rest ih =>
    intro i s
    unfold RenderSystem.createFramebuffersFrom
    split_ifs
    · simp [RenderSystem.Rebuilds, RenderSystem.call, RenderSystem.fixedPart, Outcome.throw,
        Call.isRebuild]
    · refine RenderSystem.Rebuilds.trans ?_ (ih _ _)
      simp [RenderSystem.Rebuilds, RenderSystem.call, RenderSystem.fixedPart,
        Call.isRebuild]

theorem createFramebuffers_rebuilds (s : RenderSystem) (r : SwapchainReplies) :
    s.Rebuilds (s.createFramebuffers r).state := by
  unfold RenderSystem.createFramebuffers
  refine RenderSystem.Rebuilds.trans ?_ (createFramebuffersFrom_rebuilds r _ 0 _)
  simp [RenderSystem.Rebuilds, RenderSystem.fixedPart]

theorem recordCommandBuffersFrom_rebuilds (r : SwapchainReplies) (n : Nat) :
    ∀ (i : Nat) (s : RenderSystem),
      s.Rebuilds (RenderSystem.recordCommandBuffersFrom r n i s).state := by
  induction n with
  | zero => intro i s; exact RenderSystem.Rebuilds.refl s
  | succ n ih =>
    intro i s
    unfold RenderSystem.recordCommandBuffersFrom
    split_ifs
    · simp [RenderSystem.Rebuilds, RenderSystem.call, RenderSystem.fixedPart, Outcome.throw,
        Call.isRebuild]
    · simp [RenderSystem.Rebuilds, RenderSystem.call, RenderSystem.fixedPart, Outcome.throw,
        Call.isRebuild]
    · refine RenderSystem.Rebuilds.trans ?_ (ih _ _)
      simp [RenderSystem.Rebuilds, RenderSystem.call, RenderSystem.fixedPart,
        Call.isRebuild]

theorem createCommandBuffers_rebuilds (s : RenderSystem) (r : SwapchainReplies) :
    s.Rebuilds (s.createCommandBuffers r).state := by
  unfold RenderSystem.createCommandBuffers
  refine RenderSystem.Rebuilds.trans ?_ (recordCommandBuffersFrom_rebuilds r _ 0 _)
  simp [RenderSystem.Rebuilds, RenderSystem.call, RenderSystem.fixedPart,
    CommandPool.allocateCommandBuffers, Call.isRebuild]

theorem destroyFramebuffers_rebuilds (framebuffers : List Handle) :
    ∀ s : RenderSystem, s.Rebuilds (framebuffers.foldl
      (fun (t : RenderSystem) framebuffer => t.call (.vkDestroyFramebuffer t.device framebuffer))
      s) := by
  induction framebuffers with
  | nil => intro s; exact RenderSystem.Rebuilds.refl s
  | cons fb rest ih =>
    intro s
    exact (RenderSystem.Rebuilds.call s _ (by rfl)).trans (ih _)

theorem cleanupSwapchain_rebuilds (s : RenderSystem) : s.Rebuilds s.cleanupSwapchain := by
  unfold RenderSystem.cleanupSwapchain
  have h := destroyFramebuffers_rebuilds s.mSwapchainFramebuffers s
  exact h.trans ((RenderSystem.Rebuilds.call _ _ (by rfl)).trans
    ((RenderSystem.Rebuilds.call _ _ (by rfl)).trans ((RenderSystem.Rebuilds.call _ _ (by rfl)).trans
      ((RenderSystem.Rebuilds.call _ _ (by rfl)).trans (RenderSystem.Rebuilds.call _ _ (by rfl))))))

/-- After its device-idle wait `recreateSwapchain` only rebuilds. -/
theorem recreateSwapchain_rebuilds (MAX_CONCURRENT_FRAMES : Nat) (s : RenderSystem)
    (r : SwapchainReplies) :
    (s.call (.vkDeviceWaitIdle s.device)).Rebuilds
      (s.recreateSwapchain MAX_CONCURRENT_FRAMES r).state := by
  unfold RenderSystem.recreateSwapchain
  refine RenderSystem.Rebuilds.andThen _ _
    ((cleanupSwapchain_rebuilds _).trans (createSwapchain_rebuilds _ _ _)) fun t =>
    RenderSystem.Rebuilds.andThen _ _ (createRenderPass_rebuilds _ _) fun t =>
    RenderSystem.Rebuilds.andThen _ _ (createGraphicsPipeline_rebuilds _ _) fun t =>
    RenderSystem.Rebuilds.andThen _ _ (createFramebuffers_rebuilds _ _) fun t =>
    createCommandBuffers_rebuilds t r


/-! ## Swapchain recreation: what a successful rebuild creates -/

theorem Outcome.andThen_ok (o : Outcome) (f : RenderSystem → Outcome) (h : o.thrown = none) :
    o.andThen f = f o.state := by
  simp [Outcome.andThen, h]

theorem createFramebuffersFrom_ok (r : SwapchainReplies) (lo : Nat) (views : List Handle) :
    ∀ (i : Nat) (s : RenderSystem),
      (∀ j, i ≤ j → j < i + views.length → r.createFramebuffer j = VK_SUCCESS) →
      i + views.length = s.mSwapchainFramebuffers.length →
      lo ≤ s.nextHandle →
      (∀ (j h : Nat), j < i → s.mSwapchainFramebuffers[j]? = some h → lo ≤ h ∧ h < s.nextHandle) →
      (RenderSystem.createFramebuffersFrom r views i s).thrown = none ∧
      (RenderSystem.createFramebuffersFrom r views i s).state.nextHandle
        = s.nextHandle + views.length ∧
      (RenderSystem.createFramebuffersFrom r views i s).state.mSwapchainFramebuffers.length
        = s.mSwapchainFramebuffers.length ∧
      (∀ h : Nat, h ∈ (RenderSystem.createFramebuffersFrom r views i s).state.mSwapchainFramebuffers →
        lo ≤ h ∧ h < s.nextHandle + views.length) ∧
      (RenderSystem.createFramebuffersFrom r views i s).state.mSwapchain = s.mSwapchain ∧
      (RenderSystem.createFramebuffersFrom r views i s).state.mRenderPass = s.mRenderPass ∧
      (RenderSystem.createFramebuffersFrom r views i s).state.mPipelineLayout
        = s.mPipelineLayout ∧
      (RenderSystem.createFramebuffersFrom r views i s).state.mPipeline = s.mPipeline := by
  induction views with
  | nil =>
    intro i s _ hlen _ hprev
    refine ⟨rfl, rfl, rfl, ?_, rfl, rfl, rfl, rfl⟩
    intro h hh
    obtain ⟨j, hj, rfl⟩ := List.getElem_of_mem hh
    simp only [RenderSystem.createFramebuffersFrom, Outcome.ok] at hj ⊢
    have := hprev j _ (by simp at hlen; omega) (List.getElem?_eq_getElem hj)
    simpa using this
  | cons view rest ih =>
    intro i s hok hlen hlo hprev
    simp only [List.length_cons] at hok hlen ⊢
    have hi : r.createFramebuffer i = VK_SUCCESS := hok i (Nat.le_refl _) (by omega)
    unfold RenderSystem.createFramebuffersFrom
    simp only [hi, ne_eq, not_true_eq_false, if_false]
    have := ih (i + 1)
      { s.call (.vkCreateFramebuffer s.device s.mRenderPass [view]
          s.mSwapchain.getExtent.width s.mSwapchain.getExtent.height) with
        mSwapchainFramebuffers := (s.call (.vkCreateFramebuffer s.device s.mRenderPass [view]
          s.mSwapchain.getExtent.width s.mSwapchain.getExtent.height)).mSwapchainFramebuffers.set i
            s.nextHandle
        nextHandle := s.nextHandle + 1 }
      (fun j h₁ h₂ => hok j (by omega) (by omega))
      (by simp only [RenderSystem.call, List.length_set]; omega)
      (by simp only; omega)
      (by
        intro j h hj hget
        dsimp only
        simp only [RenderSystem.call, List.getElem?_set] at hget
        by_cases hij : i = j
        · subst hij
          simp only [if_true] at hget
          split at hget
          · cases hget; omega
          · cases hget
        · simp only [hij, if_false] at hget
          have := hprev j h (by omega) hget
          omega)
    simp only [RenderSystem.call, List.length_set, List.length_cons] at this ⊢
    obtain ⟨h₁, h₂, h₃, h₄, h₅, h₆, h₇, h₈⟩ := this
    refine ⟨h₁, by omega, h₃, ?_, h₅, h₆, h₇, h₈⟩
    intro h hh
    have := h₄ h hh
    omega


theorem resize_length (v : List Handle) (n : Nat) : (resize v n).length = n := by
  simp only [resize, List.length_append, List.length_take, List.length_replicate]
  omega

theorem createFramebuffers_ok (s : RenderSystem) (r : SwapchainReplies)
    (hok : ∀ j, j < s.mSwapchain.imageViews.length → r.createFramebuffer j = VK_SUCCESS) :
    (s.createFramebuffers r).thrown = none ∧
    (s.createFramebuffers r).state.nextHandle = s.nextHandle + s.mSwapchain.imageViews.length ∧
    (s.createFramebuffers r).state.mSwapchainFramebuffers.length
      = s.mSwapchain.imageViews.length ∧
    (∀ h : Nat, h ∈ (s.createFramebuffers r).state.mSwapchainFramebuffers →
      s.nextHandle ≤ h ∧ h < s.nextHandle + s.mSwapchain.imageViews.length) ∧
    (s.createFramebuffers r).state.mSwapchain = s.mSwapchain ∧
    (s.createFramebuffers r).state.mRenderPass = s.mRenderPass ∧
    (s.createFramebuffers r).state.mPipelineLayout = s.mPipelineLayout ∧
    (s.createFramebuffers r).state.mPipeline = s.mPipeline := by
  have h := createFramebuffersFrom_ok r s.nextHandle s.mSwapchain.imageViews 0
    { s with mSwapchainFramebuffers :=
        resize s.mSwapchainFramebuffers s.mSwapchain.imageViews.length }
    (fun j _ hj => hok j (by omega)) (by simp only [resize_length]; omega) (Nat.le_refl _)
    (fun j h hj => absurd hj (Nat.not_lt_zero _))
  simpa only [RenderSystem.createFramebuffers, Swapchain.getImageViews, resize_length] using h

theorem forgetTrace_call (s : RenderSystem) (c : Call) :
    (s.call c).forgetTrace = s.forgetTrace := rfl

theorem recordCommandBuffersFrom_ok (r : SwapchainReplies) (n : Nat) :
    ∀ (i : Nat) (s : RenderSystem),
      (∀ j, i ≤ j → j < i + n →
        r.beginCommandBuffer j = VK_SUCCESS ∧ r.endCommandBuffer j = VK_SUCCESS) →
      (RenderSystem.recordCommandBuffersFrom r n i s).thrown = none ∧
      (RenderSystem.recordCommandBuffersFrom r n i s).state.forgetTrace = s.forgetTrace := by
  induction n with
  | zero => intro i s _; exact ⟨rfl, rfl⟩
  | succ n ih =>
    intro i s hok
    obtain ⟨hb, he⟩ := hok i (Nat.le_refl _) (by omega)
    unfold RenderSystem.recordCommandBuffersFrom
    simp only [hb, he, ne_eq, not_true_eq_false, if_false]
    obtain ⟨h₁, h₂⟩ := ih (i + 1) _ (fun j h₁ h₂ => hok j (by omega) (by omega))
    exact ⟨h₁, h₂.trans (by simp only [forgetTrace_call])⟩

theorem forgetTrace_fields {s t : RenderSystem} (h : s.forgetTrace = t.forgetTrace) :
    s.mCommandBuffers = t.mCommandBuffers ∧ s.nextHandle = t.nextHandle ∧
    s.mSwapchainFramebuffers = t.mSwapchainFramebuffers ∧ s.mSwapchain = t.mSwapchain ∧
    s.mRenderPass = t.mRenderPass ∧ s.mPipelineLayout = t.mPipelineLayout ∧
    s.mPipeline = t.mPipeline := by
  simp only [RenderSystem.forgetTrace, RenderSystem.mk.injEq] at h
  simp only [h, and_self]

theorem createCommandBuffers_forgetTrace (s : RenderSystem) (r : SwapchainReplies)
    (hok : ∀ j, j < s.mSwapchainFramebuffers.length →
      r.beginCommandBuffer j = VK_SUCCESS ∧ r.endCommandBuffer j = VK_SUCCESS) :
    (s.createCommandBuffers r).thrown = none ∧
    (s.createCommandBuffers r).state.forgetTrace =
      ({ s with
        mCommandBuffers := List.range' s.nextHandle s.mSwapchainFramebuffers.length
        nextHandle := s.nextHandle + s.mSwapchainFramebuffers.length } : RenderSystem).forgetTrace
    := by
  unfold RenderSystem.createCommandBuffers
  simp only
  obtain ⟨h₁, h₂⟩ := recordCommandBuffersFrom_ok r
    (CommandPool.allocateCommandBuffers
      { s with mCommandBuffers := resize s.mCommandBuffers
                s.mSwapchainFramebuffers.length }).mCommandBuffers.length 0
    (CommandPool.allocateCommandBuffers
      { s with mCommandBuffers := resize s.mCommandBuffers s.mSwapchainFramebuffers.length })
    (fun j _ hj => hok j (by
      simp only [CommandPool.allocateCommandBuffers, RenderSystem.call, List.length_range',
        resize_length] at hj
      omega))
  refine ⟨h₁, h₂.trans ?_⟩
  simp [CommandPool.allocateCommandBuffers, RenderSystem.call, RenderSystem.forgetTrace,
    resize_length]

theorem createCommandBuffers_ok (s : RenderSystem) (r : SwapchainReplies)
    (hok : ∀ j, j < s.mSwapchainFramebuffers.length →
      r.beginCommandBuffer j = VK_SUCCESS ∧ r.endCommandBuffer j = VK_SUCCESS) :
    (s.createCommandBuffers r).thrown = none ∧
    (s.createCommandBuffers r).state.mCommandBuffers
      = List.range' s.nextHandle s.mSwapchainFramebuffers.length ∧
    (s.createCommandBuffers r).state.nextHandle
      = s.nextHandle + s.mSwapchainFramebuffers.length ∧
    (s.createCommandBuffers r).state.mSwapchainFramebuffers = s.mSwapchainFramebuffers ∧
    (s.createCommandBuffers r).state.mSwapchain = s.mSwapchain ∧
    (s.createCommandBuffers r).state.mRenderPass = s.mRenderPass ∧
    (s.createCommandBuffers r).state.mPipelineLayout = s.mPipelineLayout ∧
    (s.createCommandBuffers r).state.mPipeline = s.mPipeline := by
  obtain ⟨h₁, h₂⟩ := createCommandBuffers_forgetTrace s r hok
  obtain ⟨a₁, a₂, a₃, a₄, a₅, a₆, a₇⟩ := forgetTrace_fields h₂
  exact ⟨h₁, a₁, a₂, a₃, a₄, a₅, a₆, a₇⟩

theorem destroyFramebuffers_forgetTrace (framebuffers : List Handle) :
    ∀ s : RenderSystem, (framebuffers.foldl
      (fun (t : RenderSystem) framebuffer => t.call (.vkDestroyFramebuffer t.device framebuffer))
      s).forgetTrace = s.forgetTrace := by
  induction framebuffers with
  | nil => intro s; rfl
  | cons fb rest ih => intro s; exact (ih _).trans (forgetTrace_call _ _)

theorem cleanupSwapchain_forgetTrace (s : RenderSystem) :
    s.cleanupSwapchain.forgetTrace = s.forgetTrace := by
  unfold RenderSystem.cleanupSwapchain
  simp only [forgetTrace_call]
  exact destroyFramebuffers_forgetTrace _ s

theorem createSwapchain_ok (MAX_CONCURRENT_FRAMES : Nat) (s : RenderSystem)
    (r : SwapchainReplies) (h₁ : r.createSwapchain = VK_SUCCESS)
    (h₂ : r.createImageViews = VK_SUCCESS) :
    (s.createSwapchain MAX_CONCURRENT_FRAMES r).thrown = none ∧
    (s.createSwapchain MAX_CONCURRENT_FRAMES r).state.nextHandle
      = s.nextHandle + 1 + r.imageCount + r.imageCount ∧
    (s.createSwapchain MAX_CONCURRENT_FRAMES r).state.mSwapchain.size = r.imageCount ∧
    (s.createSwapchain MAX_CONCURRENT_FRAMES r).state.mSwapchain.imageViews.length
      = r.imageCount := by
  simp [RenderSystem.createSwapchain, Swapchain.initialize, Swapchain.createImageViews, h₁, h₂,
    Outcome.ok, Outcome.andThen, RenderSystem.call, Swapchain.size]

theorem createRenderPass_ok (s : RenderSystem) (r : SwapchainReplies)
    (h : r.createRenderPass = VK_SUCCESS) :
    (s.createRenderPass r).thrown = none ∧
    (s.createRenderPass r).state.mRenderPass = s.nextHandle ∧
    (s.createRenderPass r).state.nextHandle = s.nextHandle + 1 ∧
    (s.createRenderPass r).state.mSwapchain = s.mSwapchain := by
  simp [RenderSystem.createRenderPass, h, Outcome.ok, RenderSystem.call]

theorem createGraphicsPipeline_ok (s : RenderSystem) (r : SwapchainReplies)
    (h₁ : r.createVertShaderModule = VK_SUCCESS) (h₂ : r.createFragShaderModule = VK_SUCCESS)
    (h₃ : r.createPipelineLayout = VK_SUCCESS) (h₄ : r.createGraphicsPipelines = VK_SUCCESS) :
    (s.createGraphicsPipeline r).thrown = none ∧
    (s.createGraphicsPipeline r).state.mPipelineLayout = s.nextHandle + 2 ∧
    (s.createGraphicsPipeline r).state.mPipeline = s.nextHandle + 3 ∧
    (s.createGraphicsPipeline r).state.nextHandle = s.nextHandle + 4 ∧
    (s.createGraphicsPipeline r).state.mRenderPass = s.mRenderPass ∧
    (s.createGraphicsPipeline r).state.mSwapchain = s.mSwapchain := by
  simp [RenderSystem.createGraphicsPipeline, RenderSystem.createShaderModule, h₁, h₂, h₃, h₄,
    Outcome.ok, Outcome.andThen, RenderSystem.call]

/-- The objects `recreateSwapchain` leaves behind when every creation
succeeds. -/
theorem recreateSwapchain_ok (MAX_CONCURRENT_FRAMES : Nat) (s : RenderSystem)
    (r : SwapchainReplies) (hok : r.allSucceed) :
    (s.recreateSwapchain MAX_CONCURRENT_FRAMES r).thrown = none ∧
    (∀ h : Nat, h ∈ (s.recreateSwapchain MAX_CONCURRENT_FRAMES r).state.swapchainObjects →
      s.nextHandle ≤ h ∧ h < (s.recreateSwapchain MAX_CONCURRENT_FRAMES r).state.nextHandle) ∧
    (s.recreateSwapchain MAX_CONCURRENT_FRAMES r).state.mSwapchain.size = r.imageCount ∧
    (s.recreateSwapchain MAX_CONCURRENT_FRAMES r).state.mSwapchainFramebuffers.length
      = r.imageCount ∧
    (s.recreateSwapchain MAX_CONCURRENT_FRAMES r).state.mCommandBuffers.length
      = r.imageCount := by
  obtain ⟨h₁, h₂, h₃, h₄, h₅, h₆, h₇, h₈, h₉, h₁₀⟩ := hok
  unfold RenderSystem.recreateSwapchain
  simp only
  have hn : (s.call (.vkDeviceWaitIdle s.device)).cleanupSwapchain.nextHandle
      = s.nextHandle := by
    have := congrArg RenderSystem.nextHandle
      ((cleanupSwapchain_forgetTrace (s.call (.vkDeviceWaitIdle s.device))).trans
        (forgetTrace_call _ _))
    simpa only [RenderSystem.forgetTrace] using this
  generalize (s.call (.vkDeviceWaitIdle s.device)).cleanupSwapchain = s₂ at hn ⊢
  obtain ⟨a₁, a₂, a₃, a₄⟩ := createSwapchain_ok MAX_CONCURRENT_FRAMES s₂ r h₁ h₂
  rw [Outcome.andThen_ok _ _ a₁]
  generalize (s₂.createSwapchain MAX_CONCURRENT_FRAMES r).state = s₃ at a₂ a₃ a₄ ⊢
  obtain ⟨b₁, b₂, b₃, b₄⟩ := createRenderPass_ok s₃ r h₃
  rw [Outcome.andThen_ok _ _ b₁]
  generalize (s₃.createRenderPass r).state = s₄ at b₂ b₃ b₄ ⊢
  obtain ⟨c₁, c₂, c₃, c₄, c₅, c₆⟩ := createGraphicsPipeline_ok s₄ r h₄ h₅ h₆ h₇
  rw [Outcome.andThen_ok _ _ c₁]
  generalize (s₄.createGraphicsPipeline r).state = s₅ at c₂ c₃ c₄ c₅ c₆ ⊢
  have hviews : s₅.mSwapchain.imageViews.length = r.imageCount := by rw [c₆, b₄, a₄]
  obtain ⟨d₁, d₂, d₃, d₄, d₅, d₆, d₇, d₈⟩ := createFramebuffers_ok s₅ r
    (fun j hj => h₈ j (by omega))
  rw [Outcome.andThen_ok _ _ d₁]
  generalize (s₅.createFramebuffers r).state = s₆ at d₂ d₃ d₄ d₅ d₆ d₇ d₈ ⊢
  obtain ⟨e₁, e₂, e₃, e₄, e₅, e₆, e₇, e₈⟩ := createCommandBuffers_ok s₆ r
    (fun j hj => ⟨h₉ j (by omega), h₁₀ j (by omega)⟩)
  generalize (s₆.createCommandBuffers r).state = s₇ at e₂ e₃ e₄ e₅ e₆ e₇ e₈ ⊢
  refine ⟨e₁, ?_, ?_, ?_, ?_⟩
  · intro h hh
    simp only [RenderSystem.swapchainObjects, List.mem_cons, List.mem_append] at hh
    rcases hh with hh | hh | hh | hh | hh
    · rw [hh, e₆, d₆, c₅, b₂]; omega
    · rw [hh, e₈, d₈, c₃]; omega
    · rw [hh, e₇, d₇, c₂]; omega
    · rw [e₄] at hh
      have := d₄ h hh
      omega
    · rw [e₂] at hh
      have := List.mem_range'_1.mp hh
      omega
  · rw [e₅, d₅, c₆, b₄]; exact a₃
  · rw [e₄, d₃, hviews]
  · rw [e₂, List.length_range', d₃, hviews]


/-! ## Swapchain recreation out of the frame loop -/

theorem Call.isRebuild_not_frame (c : Call) (h : c.isRebuild = true) :
    c.isDeviceWaitIdle = false ∧ c.isQueueSubmit = false ∧ c.isQueuePresent = false := by
  cases c <;> simp_all [Call.isRebuild, Call.isDeviceWaitIdle, Call.isQueueSubmit,
    Call.isQueuePresent]

/-- The frame up to presentation: the state in which `drawFrame` inspects the
result of `vkQueuePresentKHR`. -/
theorem drawFrame_out_of_date_eq (MAX_CONCURRENT_FRAMES : Nat) (s : RenderSystem)
    (r : FrameReplies) (hsubmit : r.queueSubmit = VK_SUCCESS)
    (hpresent : r.queuePresent = VK_ERROR_OUT_OF_DATE_KHR) :
    s.drawFrame MAX_CONCURRENT_FRAMES r =
      ({ s with trace := s.trace ++ s.frameCalls r.imageIndex } : RenderSystem).recreateSwapchain
        MAX_CONCURRENT_FRAMES r.recreate := by
  simp [RenderSystem.drawFrame, RenderSystem.updateUniformBuffer, RenderSystem.call,
    RenderSystem.frameCalls, hsubmit, hpresent]

theorem memoryReadBy_getD (s : RenderSystem) (hcb : s.mCommandBuffers.Nodup) (k : Nat)
    (hk : k < s.mCommandBuffers.length) (hk' : k < s.mUniformBuffersMemory.length) (m : Handle)
    (hm : m ∈ s.memoryReadBy (s.mCommandBuffers.getD k VK_NULL_HANDLE)) :
    m = s.mUniformBuffersMemory.getD k VK_NULL_HANDLE := by
  rw [List.getD_eq_getElem _ _ hk] at hm
  rw [List.getD_eq_getElem _ _ hk']
  simp only [RenderSystem.memoryReadBy, List.mem_filterMap] at hm
  obtain ⟨p, hp, hsome⟩ := hm
  obtain ⟨i, hi, rfl⟩ := List.getElem_of_mem hp
  rw [List.getElem_zip] at hsome
  split at hsome
  · next heq =>
    have hik : i = k := (hcb.getElem_inj_iff).mp heq
    subst hik
    simpa using hsome.symm
  · cases hsome

theorem getD_ne_of_nodup (l : List Handle) (hl : l.Nodup) (i j : Nat) (hi : i < l.length)
    (hj : j < l.length) (hij : i ≠ j) : l.getD i VK_NULL_HANDLE ≠ l.getD j VK_NULL_HANDLE := by
  rw [List.getD_eq_getElem _ _ hi, List.getD_eq_getElem _ _ hj]
  exact fun h => hij ((hl.getElem_inj_iff).mp h)

theorem notReusedBeforeWait_framesCalls (MAX_CONCURRENT_FRAMES : Nat) (s : RenderSystem)
    (hcb : s.mCommandBuffers.Nodup) (hum : s.mUniformBuffersMemory.Nodup) (k : Nat)
    (hk : k < s.mCommandBuffers.length) (hk' : k < s.mUniformBuffersMemory.length) (c : Nat)
    (hc : c < MAX_CONCURRENT_FRAMES) :
    ∀ (ks : List Nat) (n c' : Nat), c' < MAX_CONCURRENT_FRAMES →
      (c' + n) % MAX_CONCURRENT_FRAMES = c →
      (∀ k' ∈ ks, k' < s.mCommandBuffers.length ∧ k' < s.mUniformBuffersMemory.length) →
      k ∉ ks.take n →
      notReusedBeforeWait (s.mCommandBuffers.getD k VK_NULL_HANDLE)
        (s.mFrameFences.getD c VK_NULL_HANDLE)
        (s.memoryReadBy (s.mCommandBuffers.getD k VK_NULL_HANDLE))
        (s.framesCalls MAX_CONCURRENT_FRAMES c' ks) = true := by
  intro ks
  induction ks with
  | nil => intro n c' _ _ _ _; rfl
  | cons k' ks ih =>
    intro n c' hc' hmod hrange hnot
    simp only [RenderSystem.framesCalls, RenderSystem.frameCalls, List.cons_append,
      List.nil_append, notReusedBeforeWait]
    cases n with
    | zero =>
      have : c' = c := by
        rw [Nat.add_zero, Nat.mod_eq_of_lt hc'] at hmod
        exact hmod
      subst this
      simp
    | succ n =>
      have hne : k ≠ k' := by
        intro h
        apply hnot
        simp [h]
      have hnot' : k ∉ ks.take n := by
        intro h
        apply hnot
        simp [List.take_succ_cons, h]
      obtain ⟨hk₁, hk₂⟩ := hrange k' (List.mem_cons_self _ _)
      have hmem : s.mUniformBuffersMemory.getD k' VK_NULL_HANDLE ∉
          s.memoryReadBy (s.mCommandBuffers.getD k VK_NULL_HANDLE) := by
        intro h
        have := memoryReadBy_getD s hcb k hk hk' _ h
        exact getD_ne_of_nodup _ hum k' k hk₂ hk' (Ne.symm hne) this
      have hcmd : s.mCommandBuffers.getD k VK_NULL_HANDLE ∉
          [s.mCommandBuffers.getD k' VK_NULL_HANDLE] := by
        intro h
        rw [List.mem_singleton] at h
        exact getD_ne_of_nodup _ hcb k k' hk hk₁ hne h
      have hrec := ih n ((c' + 1) % MAX_CONCURRENT_FRAMES)
        (Nat.mod_lt _ (by omega))
        (by rw [Nat.mod_add_mod, Nat.add_assoc, Nat.add_comm 1 n]; exact hmod)
        (fun k'' h => hrange k'' (List.mem_cons_of_mem _ h)) hnot'
      simp only [hmem, hcmd, List.append_eq, List.nil_append, hrec, decide_False, Bool.not_false,
        Bool.and_self, Bool.or_true]

theorem fenceGuarded_framesCalls (MAX_CONCURRENT_FRAMES : Nat) (s : RenderSystem)
    (hcb : s.mCommandBuffers.Nodup) (hum : s.mUniformBuffersMemory.Nodup) :
    ∀ (ks : List Nat) (c : Nat), c < MAX_CONCURRENT_FRAMES →
      (∀ k ∈ ks, k < s.mCommandBuffers.length ∧ k < s.mUniformBuffersMemory.length) →
      imagesSpread MAX_CONCURRENT_FRAMES ks = true →
      fenceGuarded s.memoryReadBy (s.framesCalls MAX_CONCURRENT_FRAMES c ks) = true := by
  intro ks
  induction ks with
  | nil => intro c _ _ _; rfl
  | cons k ks ih =>
    intro c hc hrange hspread
    simp only [imagesSpread, Bool.and_eq_true, Bool.not_eq_true', decide_eq_false_iff_not]
      at hspread
    obtain ⟨hk₁, hk₂⟩ := hrange k (List.mem_cons_self _ _)
    have hrange' : ∀ k' ∈ ks,
        k' < s.mCommandBuffers.length ∧ k' < s.mUniformBuffersMemory.length :=
      fun k' h => hrange k' (List.mem_cons_of_mem _ h)
    have hc' : (c + 1) % MAX_CONCURRENT_FRAMES < MAX_CONCURRENT_FRAMES :=
      Nat.mod_lt _ (by omega)
    have hwait := notReusedBeforeWait_framesCalls MAX_CONCURRENT_FRAMES s hcb hum k hk₁ hk₂ c hc
      ks (MAX_CONCURRENT_FRAMES - 1) ((c + 1) % MAX_CONCURRENT_FRAMES) hc'
      (by
        rw [Nat.mod_add_mod]
        have : c + 1 + (MAX_CONCURRENT_FRAMES - 1) = c + MAX_CONCURRENT_FRAMES := by omega
        rw [this, Nat.add_mod_right, Nat.mod_eq_of_lt hc])
      hrange' hspread.1
    have hrest := ih ((c + 1) % MAX_CONCURRENT_FRAMES) hc' hrange' hspread.2
    simp only [RenderSystem.framesCalls, RenderSystem.frameCalls, List.cons_append,
      List.nil_append, fenceGuarded, notReusedBeforeWait, List.all_cons, List.all_nil,
      Bool.and_true, Bool.and_eq_true]
    exact ⟨hwait, hrest⟩

theorem framesCalls_congr (MAX_CONCURRENT_FRAMES : Nat) (s t : RenderSystem)
    (h : ∀ c k, ({ t with mCurrentFrame := c } : RenderSystem).frameCalls k
      = ({ s with mCurrentFrame := c } : RenderSystem).frameCalls k) :
    ∀ (ks : List Nat) (c : Nat),
      t.framesCalls MAX_CONCURRENT_FRAMES c ks = s.framesCalls MAX_CONCURRENT_FRAMES c ks := by
  intro ks
  induction ks with
  | nil => intro c; rfl
  | cons k ks ih => intro c; simp only [RenderSystem.framesCalls, h, ih]

theorem drawFrames_completes (MAX_CONCURRENT_FRAMES : Nat) :
    ∀ (rs : List FrameReplies) (s : RenderSystem),
      (∀ r ∈ rs, r.queueSubmit = VK_SUCCESS ∧
        (r.queuePresent = VK_SUCCESS ∨ r.queuePresent = VK_SUBOPTIMAL_KHR)) →
      (s.drawFrames MAX_CONCURRENT_FRAMES rs).thrown = none ∧
      (s.drawFrames MAX_CONCURRENT_FRAMES rs).state.trace = s.trace ++
        s.framesCalls MAX_CONCURRENT_FRAMES s.mCurrentFrame (rs.map (·.imageIndex)) := by
  intro rs
  induction rs with
  | nil => intro s _; simp [RenderSystem.drawFrames, Outcome.ok, RenderSystem.framesCalls]
  | cons r rs ih =>
    intro s hnormal
    obtain ⟨hsubmit, hpresent⟩ := hnormal r (List.mem_cons_self _ _)
    have hstep := drawFrame_completes MAX_CONCURRENT_FRAMES s r hsubmit hpresent
    unfold RenderSystem.drawFrames
    rw [hstep]
    simp only [Outcome.andThen, Outcome.ok]
    obtain ⟨h₁, h₂⟩ := ih
      { s with
        mCurrentFrame := (s.mCurrentFrame + 1) % MAX_CONCURRENT_FRAMES
        trace := s.trace ++ s.frameCalls r.imageIndex }
      (fun r' h => hnormal r' (List.mem_cons_of_mem _ h))
    refine ⟨h₁, ?_⟩
    rw [h₂, List.map_cons, RenderSystem.framesCalls, List.append_assoc]
    congr 2
    apply framesCalls_congr
    intro c k
    rfl

theorem notReusedBeforeWait_prefix (commandBuffer fence : Handle) (memory : List Handle) :
    ∀ l₁ l₂ : List Call,
      notReusedBeforeWait commandBuffer fence memory (l₁ ++ l₂) = true →
      notReusedBeforeWait commandBuffer fence memory l₁ = true := by
  intro l₁
  induction l₁ with
  | nil => intro _ _; rfl
  | cons c rest ih =>
    intro l₂ h
    rw [List.cons_append] at h
    cases c <;> simp only [notReusedBeforeWait, Bool.or_eq_true, Bool.and_eq_true] at h ⊢ <;>
      first
        | exact ih l₂ h
        | exact h.imp id (ih l₂)

theorem fenceGuarded_prefix (reads : Handle → List Handle) :
    ∀ l₁ l₂ : List Call,
      fenceGuarded reads (l₁ ++ l₂) = true → fenceGuarded reads l₁ = true := by
  intro l₁
  induction l₁ with
  | nil => intro _ _; rfl
  | cons c rest ih =>
    intro l₂ h
    rw [List.cons_append] at h
    cases c <;> simp only [fenceGuarded, Bool.and_eq_true, List.all_eq_true] at h ⊢ <;>
      first
        | exact ih l₂ h
        | exact ⟨fun cb hcb => notReusedBeforeWait_prefix _ _ _ _ _ (h.1 cb hcb), ih l₂ h.2⟩

theorem notReusedBeforeWait_rebuild (commandBuffer fence : Handle) (memory : List Handle) :
    ∀ q : List Call, (∀ c ∈ q, c.isRebuild = true ∨ c.isDeviceWaitIdle = true) →
      notReusedBeforeWait commandBuffer fence memory q = true := by
  intro q
  induction q with
  | nil => intro _; rfl
  | cons c rest ih =>
    intro h
    have hc := h c (List.mem_cons_self _ _)
    have hrest := ih fun c' h' => h c' (List.mem_cons_of_mem _ h')
    cases c <;> simp [Call.isRebuild, Call.isDeviceWaitIdle] at hc <;>
      simpa only [notReusedBeforeWait] using hrest

theorem notReusedBeforeWait_append (commandBuffer fence : Handle) (memory : List Handle)
    (q : List Call) (hq : ∀ c ∈ q, c.isRebuild = true ∨ c.isDeviceWaitIdle = true) :
    ∀ l : List Call, notReusedBeforeWait commandBuffer fence memory l = true →
      notReusedBeforeWait commandBuffer fence memory (l ++ q) = true := by
  intro l
  induction l with
  | nil => intro _; exact notReusedBeforeWait_rebuild _ _ _ q hq
  | cons c rest ih =>
    intro h
    rw [List.cons_append]
    cases c <;> simp only [notReusedBeforeWait, Bool.or_eq_true, Bool.and_eq_true] at h ⊢ <;>
      first
        | exact ih h
        | exact h.imp id ih

theorem fenceGuarded_rebuild (reads : Handle → List Handle) :
    ∀ q : List Call, (∀ c ∈ q, c.isRebuild = true ∨ c.isDeviceWaitIdle = true) →
      fenceGuarded reads q = true := by
  intro q
  induction q with
  | nil => intro _; rfl
  | cons c rest ih =>
    intro h
    have hc := h c (List.mem_cons_self _ _)
    have hrest := ih fun c' h' => h c' (List.mem_cons_of_mem _ h')
    cases c <;> simp [Call.isRebuild, Call.isDeviceWaitIdle] at hc <;>
      simpa only [fenceGuarded] using hrest

theorem fenceGuarded_append (reads : Handle → List Handle)
    (q : List Call) (hq : ∀ c ∈ q, c.isRebuild = true ∨ c.isDeviceWaitIdle = true) :
    ∀ l : List Call, fenceGuarded reads l = true → fenceGuarded reads (l ++ q) = true := by
  intro l
  induction l with
  | nil => intro _; exact fenceGuarded_rebuild reads q hq
  | cons c rest ih =>
    intro h
    rw [List.cons_append]
    cases c <;> simp only [fenceGuarded, Bool.and_eq_true, List.all_eq_true] at h ⊢ <;>
      first
        | exact ih h
        | exact ⟨fun cb hcb => notReusedBeforeWait_append _ _ _ q hq _ (h.1 cb hcb), ih h.2⟩

theorem drawFrames_trace (MAX_CONCURRENT_FRAMES : Nat) :
    ∀ (rs : List FrameReplies) (s : RenderSystem),
      (∀ r ∈ rs.dropLast,
        r.queueSubmit = VK_SUCCESS → r.queuePresent ≠ VK_ERROR_OUT_OF_DATE_KHR) →
      ∃ p q rest : List Call,
        (s.drawFrames MAX_CONCURRENT_FRAMES rs).state.trace = s.trace ++ (p ++ q) ∧
        p ++ rest = s.framesCalls MAX_CONCURRENT_FRAMES s.mCurrentFrame
          (rs.map fun r => r.imageIndex) ∧
        ∀ c ∈ q, c.isRebuild = true ∨ c.isDeviceWaitIdle = true := by
  intro rs
  induction rs with
  | nil =>
    intro s _
    exact ⟨[], [], [], by simp [RenderSystem.drawFrames, Outcome.ok], rfl, by simp⟩
  | cons r rs ih =>
    intro s hdrop
    by_cases hsubmit : r.queueSubmit = VK_SUCCESS
    · by_cases hood : r.queuePresent = VK_ERROR_OUT_OF_DATE_KHR
      · have hrs : rs = [] := by
          cases rs with
          | nil => rfl
          | cons r' rs' =>
            exact absurd hood (hdrop r (by simp [List.dropLast]) hsubmit)
        subst hrs
        have heq := drawFrame_out_of_date_eq MAX_CONCURRENT_FRAMES s r hsubmit hood
        obtain ⟨⟨calls, htrace, hcalls⟩, -⟩ := recreateSwapchain_rebuilds MAX_CONCURRENT_FRAMES
          ({ s with trace := s.trace ++ s.frameCalls r.imageIndex } : RenderSystem) r.recreate
        rw [← heq] at htrace
        have hstate : (s.drawFrames MAX_CONCURRENT_FRAMES [r]).state
            = (s.drawFrame MAX_CONCURRENT_FRAMES r).state := by
          simp only [RenderSystem.drawFrames, Outcome.andThen]
          split <;> rfl
        refine ⟨s.frameCalls r.imageIndex, .vkDeviceWaitIdle s.device :: calls, [], ?_, ?_, ?_⟩
        · rw [hstate, htrace]
          simp [RenderSystem.call]
        · simp [RenderSystem.framesCalls]
        · intro c hc
          rcases List.mem_cons.mp hc with h | h
          · right; rw [h]; rfl
          · left; exact hcalls c h
      · by_cases hok : r.queuePresent = VK_SUCCESS ∨ r.queuePresent = VK_SUBOPTIMAL_KHR
        · have hstep := drawFrame_completes MAX_CONCURRENT_FRAMES s r hsubmit hok
          obtain ⟨p, q, rest, h₁, h₂, h₃⟩ := ih
            { s with
              mCurrentFrame := (s.mCurrentFrame + 1) % MAX_CONCURRENT_FRAMES
              trace := s.trace ++ s.frameCalls r.imageIndex }
            (fun r' h' => hdrop r' (by
              cases rs with
              | nil => simp [List.dropLast] at h'
              | cons r'' rs' => simp only [List.dropLast_cons₂]; exact List.mem_cons_of_mem _ h'))
          refine ⟨s.frameCalls r.imageIndex ++ p, q, rest, ?_, ?_, h₃⟩
          · unfold RenderSystem.drawFrames
            rw [hstep]
            simp only [Outcome.andThen, Outcome.ok]
            rw [h₁]
            simp only [List.append_assoc]
          · rw [List.map_cons, RenderSystem.framesCalls, List.append_assoc, h₂]
            congr 1
            apply framesCalls_congr
            intro c k
            rfl
        · have h₁ : r.queuePresent ≠ VK_SUCCESS := fun h => hok (Or.inl h)
          have h₃ : r.queuePresent ≠ VK_SUBOPTIMAL_KHR := fun h => hok (Or.inr h)
          refine ⟨s.frameCalls r.imageIndex, [],
            s.framesCalls MAX_CONCURRENT_FRAMES ((s.mCurrentFrame + 1) % MAX_CONCURRENT_FRAMES)
              (rs.map fun r => r.imageIndex), ?_, ?_, by simp⟩
          · simp [RenderSystem.drawFrames, RenderSystem.drawFrame,
              RenderSystem.updateUniformBuffer, RenderSystem.call, RenderSystem.frameCalls,
              Outcome.throw, Outcome.andThen, hsubmit, hood, h₁, h₃]
          · rw [List.map_cons, RenderSystem.framesCalls]
    · refine ⟨(s.frameCalls r.imageIndex).take 6, [],
        (s.frameCalls r.imageIndex).drop 6 ++
          s.framesCalls MAX_CONCURRENT_FRAMES ((s.mCurrentFrame + 1) % MAX_CONCURRENT_FRAMES)
            (rs.map fun r => r.imageIndex), ?_, ?_, by simp⟩
      · simp [RenderSystem.drawFrames, RenderSystem.drawFrame,
          RenderSystem.updateUniformBuffer, RenderSystem.call, RenderSystem.frameCalls,
          Outcome.throw, Outcome.andThen, hsubmit]
      · rw [List.map_cons, RenderSystem.framesCalls, ← List.append_assoc, List.take_append_drop]

/-- Counterexample to C2 as stated, at two inputs with two frame slots.  First
the driver hands out image 0 in two consecutive frames: the second frame waits
on the fence of slot 1 only, then maps the memory of uniform buffer 0 and
submits command buffer 0 again, although the fence of slot 0, which guards
their use by the first frame, has not been waited on since that submission.
Second the driver hands out the images 0, 1, 0, none twice within two
consecutive frames, and the second presentation reports out-of-date: the slot
counter does not advance, so the third frame waits on the fence of slot 1
again and maps the memory of uniform buffer 0 while the fence of slot 0 has
not been waited on since the first frame. -/
theorem drawFrames_reuse_before_fence :
    (sampleState.drawFrames 2
      [sampleFrame VK_SUCCESS 0 VK_SUCCESS VK_SUCCESS,
       sampleFrame VK_SUCCESS 0 VK_SUCCESS VK_SUCCESS]).state.trace =
      [ .vkWaitForFences 5 58, .vkResetFences 5 58, .vkAcquireNextImageKHR 5 20 54,
        .vkMapMemory 5 43, .vkUnmapMemory 5 43,
        .vkQueueSubmit 6 [54] [VK_PIPELINE_STAGE_COLOR_ATTACHMENT_OUTPUT_BIT] [34] [56] 58,
        .vkQueuePresentKHR 7 [56] [20] [0],
        .vkWaitForFences 5 59, .vkResetFences 5 59, .vkAcquireNextImageKHR 5 20 55,
        .vkMapMemory 5 43, .vkUnmapMemory 5 43,
        .vkQueueSubmit 6 [55] [VK_PIPELINE_STAGE_COLOR_ATTACHMENT_OUTPUT_BIT] [34] [57] 59,
        .vkQueuePresentKHR 7 [57] [20] [0] ] ∧
    sampleState.memoryReadBy 34 = [43] ∧
    fenceGuarded sampleState.memoryReadBy
      ((sampleState.drawFrames 2
        [sampleFrame VK_SUCCESS 0 VK_SUCCESS VK_SUCCESS,
         sampleFrame VK_SUCCESS 0 VK_SUCCESS VK_SUCCESS]).state.callsSince
        sampleState.trace.length) = false ∧
    imagesSpread 2 [0, 1, 0] = true ∧
    ((sampleState.drawFrames 2
      [sampleFrame VK_SUCCESS 0 VK_SUCCESS VK_SUCCESS,
       sampleFrame VK_SUCCESS 1 VK_SUCCESS VK_ERROR_OUT_OF_DATE_KHR,
       sampleFrame VK_SUCCESS 0 VK_SUCCESS VK_SUCCESS]).state.callsSince
      sampleState.trace.length).filter
        (fun c => c.isDeviceWaitIdle || decide (c = .vkWaitForFences 5 58) ||
          decide (c = .vkWaitForFences 5 59) || decide (c = .vkMapMemory 5 43)) =
      [ .vkWaitForFences 5 58, .vkMapMemory 5 43, .vkWaitForFences 5 59,
        .vkDeviceWaitIdle 5, .vkWaitForFences 5 59, .vkMapMemory 5 43 ] ∧
    fenceGuarded sampleState.memoryReadBy
      ((sampleState.drawFrames 2
        [sampleFrame VK_SUCCESS 0 VK_SUCCESS VK_SUCCESS,
         sampleFrame VK_SUCCESS 1 VK_SUCCESS VK_ERROR_OUT_OF_DATE_KHR,
         sampleFrame VK_SUCCESS 0 VK_SUCCESS VK_SUCCESS]).state.callsSince
        sampleState.trace.length) = false := by
  decide

/-- C2, amended: in a run of `drawFrame` calls of which none but the last
triggers a swapchain recreation, from a state with a valid slot counter and
pairwise distinct command buffers and uniform-buffer memories, with acquired
image indices that are in range and of which none recurs within
`MAX_CONCURRENT_FRAMES` consecutive frames, no command buffer is submitted
again and no uniform buffer it reads is written before the completion fence of
its previous submission has been waited on.  This covers the runs that a
failing submission or presentation ends with an exception; the run returns
normally when every frame runs to completion. -/
theorem drawFrames_fenceGuarded (MAX_CONCURRENT_FRAMES : Nat) (s : RenderSystem)
    (rs : List FrameReplies)
    (hc : s.mCurrentFrame < MAX_CONCURRENT_FRAMES)
    (hcb : s.mCommandBuffers.Nodup) (hum : s.mUniformBuffersMemory.Nodup)
    (hdrop : ∀ r ∈ rs.dropLast,
      r.queueSubmit = VK_SUCCESS → r.queuePresent ≠ VK_ERROR_OUT_OF_DATE_KHR)
    (hrange : ∀ r ∈ rs, r.imageIndex < s.mCommandBuffers.length ∧
      r.imageIndex < s.mUniformBuffersMemory.length)
    (hspread : imagesSpread MAX_CONCURRENT_FRAMES (rs.map fun r => r.imageIndex) = true) :
    fenceGuarded s.memoryReadBy
      ((s.drawFrames MAX_CONCURRENT_FRAMES rs).state.callsSince s.trace.length) = true ∧
    ((∀ r ∈ rs, r.queueSubmit = VK_SUCCESS ∧
        (r.queuePresent = VK_SUCCESS ∨ r.queuePresent = VK_SUBOPTIMAL_KHR)) →
      (s.drawFrames MAX_CONCURRENT_FRAMES rs).thrown = none) := by
  refine ⟨?_, fun hnormal => (drawFrames_completes MAX_CONCURRENT_FRAMES rs s hnormal).1⟩
  obtain ⟨p, q, rest, h₁, h₂, h₃⟩ := drawFrames_trace MAX_CONCURRENT_FRAMES rs s hdrop
  rw [RenderSystem.callsSince, h₁, List.drop_left]
  apply fenceGuarded_append _ q h₃
  apply fenceGuarded_prefix _ p rest
  rw [h₂]
  apply fenceGuarded_framesCalls MAX_CONCURRENT_FRAMES s hcb hum _ _ hc _ hspread
  intro k hk
  obtain ⟨r, hr, rfl⟩ := List.mem_map.mp hk
  exact hrange r hr

/-- Witness of C2: five frames in two slots over the three images in rotation;
the presentation of the last one reports out-of-date and the swapchain is
rebuilt. -/
theorem drawFrames_fenceGuarded_witness :
    imagesSpread 2 [0, 1, 2, 0, 1] = true ∧
    fenceGuarded sampleState.memoryReadBy
      ((sampleState.drawFrames 2
        [sampleFrame VK_SUCCESS 0 VK_SUCCESS VK_SUCCESS,
         sampleFrame VK_SUCCESS 1 VK_SUCCESS VK_SUBOPTIMAL_KHR,
         sampleFrame VK_SUCCESS 2 VK_SUCCESS VK_SUCCESS,
         sampleFrame VK_SUCCESS 0 VK_SUCCESS VK_SUCCESS,
         sampleFrame VK_SUCCESS 1 VK_SUCCESS VK_ERROR_OUT_OF_DATE_KHR]).state.callsSince
        sampleState.trace.length) = true :=
  ⟨by decide, (drawFrames_fenceGuarded 2 sampleState
    [sampleFrame VK_SUCCESS 0 VK_SUCCESS VK_SUCCESS,
     sampleFrame VK_SUCCESS 1 VK_SUCCESS VK_SUBOPTIMAL_KHR,
     sampleFrame VK_SUCCESS 2 VK_SUCCESS VK_SUCCESS,
     sampleFrame VK_SUCCESS 0 VK_SUCCESS VK_SUCCESS,
     sampleFrame VK_SUCCESS 1 VK_SUCCESS VK_ERROR_OUT_OF_DATE_KHR]
    (by decide) (by decide) (by decide) (by decide) (by decide) (by decide)).1⟩

/-! ## Swapchain recreation: the members it leaves alone -/

/-- C11: `recreateSwapchain` leaves the swapchain-independent members unchanged,
whether it returns or throws: descriptor pool, descriptor-set layout,
descriptor sets, uniform buffers and their memory, vertex and index buffers
and their memory, texture, the semaphores and fences of the frame slots, the
device context and `mCurrentFrame`. -/
theorem recreateSwapchain_keeps (MAX_CONCURRENT_FRAMES : Nat) (s : RenderSystem)
    (r : SwapchainReplies) :
    (s.recreateSwapchain MAX_CONCURRENT_FRAMES r).state.mDescriptorPool = s.mDescriptorPool ∧
    (s.recreateSwapchain MAX_CONCURRENT_FRAMES r).state.mDescriptorSetLayout
      = s.mDescriptorSetLayout ∧
    (s.recreateSwapchain MAX_CONCURRENT_FRAMES r).state.mDescriptorSets = s.mDescriptorSets ∧
    (s.recreateSwapchain MAX_CONCURRENT_FRAMES r).state.mUniformBuffers = s.mUniformBuffers ∧
    (s.recreateSwapchain MAX_CONCURRENT_FRAMES r).state.mUniformBuffersMemory
      = s.mUniformBuffersMemory ∧
    (s.recreateSwapchain MAX_CONCURRENT_FRAMES r).state.mVertexBuffer = s.mVertexBuffer ∧
    (s.recreateSwapchain MAX_CONCURRENT_FRAMES r).state.mVertexBufferMemory
      = s.mVertexBufferMemory ∧
    (s.recreateSwapchain MAX_CONCURRENT_FRAMES r).state.mIndexBuffer = s.mIndexBuffer ∧
    (s.recreateSwapchain MAX_CONCURRENT_FRAMES r).state.mIndexBufferMemory
      = s.mIndexBufferMemory ∧
    (s.recreateSwapchain MAX_CONCURRENT_FRAMES r).state.mTexture = s.mTexture ∧
    (s.recreateSwapchain MAX_CONCURRENT_FRAMES r).state.mImageAvailableSemaphores
      = s.mImageAvailableSemaphores ∧
    (s.recreateSwapchain MAX_CONCURRENT_FRAMES r).state.mRenderFinishedSemaphores
      = s.mRenderFinishedSemaphores ∧
    (s.recreateSwapchain MAX_CONCURRENT_FRAMES r).state.mFrameFences = s.mFrameFences ∧
    (s.recreateSwapchain MAX_CONCURRENT_FRAMES r).state.physicalDevice = s.physicalDevice ∧
    (s.recreateSwapchain MAX_CONCURRENT_FRAMES r).state.device = s.device ∧
    (s.recreateSwapchain MAX_CONCURRENT_FRAMES r).state.graphicsQueue = s.graphicsQueue ∧
    (s.recreateSwapchain MAX_CONCURRENT_FRAMES r).state.presentQueue = s.presentQueue ∧
    (s.recreateSwapchain MAX_CONCURRENT_FRAMES r).state.mCurrentFrame = s.mCurrentFrame := by
  have h := (recreateSwapchain_rebuilds MAX_CONCURRENT_FRAMES s r).2
  generalize (s.recreateSwapchain MAX_CONCURRENT_FRAMES r).state = t at h ⊢
  simp only [RenderSystem.fixedPart, RenderSystem.call, Prod.mk.injEq] at h
  obtain ⟨⟨a₁, a₂, a₃⟩, ⟨b₁, b₂⟩, ⟨c₁, c₂, c₃, c₄⟩, d, ⟨e₁, e₂, e₃⟩, ⟨f₁, f₂, f₃, f₄⟩, g, _⟩ := h
  exact ⟨a₁, a₂, a₃, b₁, b₂, c₁, c₂, c₃, c₄, d, e₁, e₂, e₃, f₁, f₂, f₃, f₄, g⟩

/-- C18: on the sentinel path, for every signed window size (converted to
`uint32_t` modulo `2 ^ 32`), each component of the result is the converted
size clamped by `max(min, min(max, size))`; it is never below the minimum
extent, it is not above the maximum extent when the minimum does not exceed
the maximum, and it equals the minimum when the minimum exceeds the
maximum. -/
theorem chooseSwapchainExtent_signed (s : RenderSystem) (size : Handle → Int × Int)
    (capabilities : VkSurfaceCapabilitiesKHR)
    (hs : capabilities.currentExtent.width = UINT32_MAX) :
    (s.chooseSwapchainExtent size capabilities).width
      = max capabilities.minImageExtent.width
          (min capabilities.maxImageExtent.width (toUint32 (size s.mWindow).1)) ∧
    (s.chooseSwapchainExtent size capabilities).height
      = max capabilities.minImageExtent.height
          (min capabilities.maxImageExtent.height (toUint32 (size s.mWindow).2)) ∧
    capabilities.minImageExtent.width ≤ (s.chooseSwapchainExtent size capabilities).width ∧
    capabilities.minImageExtent.height ≤ (s.chooseSwapchainExtent size capabilities).height ∧
    (capabilities.minImageExtent.width ≤ capabilities.maxImageExtent.width →
      (s.chooseSwapchainExtent size capabilities).width ≤ capabilities.maxImageExtent.width) ∧
    (capabilities.minImageExtent.height ≤ capabilities.maxImageExtent.height →
      (s.chooseSwapchainExtent size capabilities).height ≤ capabilities.maxImageExtent.height) ∧
    (capabilities.maxImageExtent.width < capabilities.minImageExtent.width →
      (s.chooseSwapchainExtent size capabilities).width = capabilities.minImageExtent.width) ∧
    (capabilities.maxImageExtent.height < capabilities.minImageExtent.height →
      (s.chooseSwapchainExtent size capabilities).height
        = capabilities.minImageExtent.height) := by
  simp only [RenderSystem.chooseSwapchainExtent, hs, ne_eq, not_true_eq_false, if_false]
  refine ⟨trivial, trivial, ?_, ?_, ?_, ?_, ?_, ?_⟩ <;> omega


theorem and_one_shiftLeft_ne_zero (x i : Nat) : x &&& (1 <<< i) ≠ 0 ↔ x.testBit i = true := by
  rw [Nat.one_shiftLeft, Nat.and_comm, Nat.two_pow_and]
  cases x.testBit i <;> simp

theorem findMemoryTypeFrom_spec (memoryTypes : List Nat) (typeFilter properties : Nat) :
    ∀ (n i : Nat), i + n = memoryTypes.length →
      (∀ k, findMemoryTypeFrom memoryTypes typeFilter properties n i = .ok k ↔
        (i ≤ k ∧ memoryTypeSuits memoryTypes typeFilter properties k ∧
          ∀ j, i ≤ j → j < k → ¬ memoryTypeSuits memoryTypes typeFilter properties j)) ∧
      (findMemoryTypeFrom memoryTypes typeFilter properties n i
          = .error (.runtime_error "Failed to find a suitable memory type!") ↔
        ∀ j, i ≤ j → ¬ memoryTypeSuits memoryTypes typeFilter properties j) ∧
      (∀ e, findMemoryTypeFrom memoryTypes typeFilter properties n i = .error e →
        e = .runtime_error "Failed to find a suitable memory type!") := by
  intro n
  induction n with
  | zero =>
    intro i hi
    simp only [findMemoryTypeFrom, reduceCtorEq, false_iff, true_iff, not_and]
    refine ⟨?_, ?_, ?_⟩
    · intro k hk hs
      exact absurd hs.1 (by omega)
    · intro j hj hs
      exact absurd hs.1 (by omega)
    · intro e he
      cases he
      rfl
  | succ n ih =>
    intro i hi
    obtain ⟨ih₁, ih₂, ih₃⟩ := ih (i + 1) (by omega)
    have hsuits : memoryTypeSuits memoryTypes typeFilter properties i ↔
        (typeFilter &&& (1 <<< i) ≠ 0 ∧ (memoryTypes.getD i 0) &&& properties = properties) := by
      rw [and_one_shiftLeft_ne_zero]
      simp only [memoryTypeSuits]
      constructor
      · exact fun h => h.2
      · exact fun h => ⟨by omega, h⟩
    unfold findMemoryTypeFrom
    split
    · next hcond =>
      have hi' := hsuits.mpr hcond
      refine ⟨?_, ?_, ?_⟩
      · intro k
        constructor
        · intro hk
          cases hk
          exact ⟨Nat.le_refl _, hi', fun j h₁ h₂ => absurd h₂ (by omega)⟩
        · rintro ⟨hik, hk, hmin⟩
          by_cases hlt : i < k
          · exact absurd hi' (hmin i (Nat.le_refl _) hlt)
          · have : k = i := by omega
            rw [this]
      · simp only [reduceCtorEq, false_iff, not_forall]
        exact ⟨i, Nat.le_refl _, fun h => h hi'⟩
      · intro e he
        cases he
    · next hcond =>
      have hi' : ¬ memoryTypeSuits memoryTypes typeFilter properties i :=
        fun h => hcond (hsuits.mp h)
      refine ⟨?_, ?_, ih₃⟩
      · intro k
        rw [ih₁ k]
        constructor
        · rintro ⟨hik, hk, hmin⟩
          refine ⟨by omega, hk, fun j h₁ h₂ => ?_⟩
          by_cases hji : j = i
          · rw [hji]; exact hi'
          · exact hmin j (by omega) h₂
        · rintro ⟨hik, hk, hmin⟩
          have hne : k ≠ i := fun h => hi' (h ▸ hk)
          exact ⟨by omega, hk, fun j h₁ h₂ => hmin j (by omega) h₂⟩
      · rw [ih₂]
        constructor
        · intro h j hj
          by_cases hji : j = i
          · rw [hji]; exact hi'
          · exact h j (by omega)
        · intro h j hj
          exact h j (by omega)

/-- Witness of C18: a window reporting the width -1, converted to 4294967295,
on the surface with bounds 1 by 1 and 4096 by 4096 yields the width 4096. -/
theorem chooseSwapchainExtent_signed_witness :
    sentinelCapabilities.currentExtent.width = UINT32_MAX ∧
    (sampleState.chooseSwapchainExtent (fun _ => (-1, 600)) sentinelCapabilities).width
      = max 1 (min 4096 (toUint32 (-1))) ∧
    toUint32 (-1) = 4294967295 :=
  ⟨rfl, (chooseSwapchainExtent_signed sampleState (fun _ => (-1, 600)) sentinelCapabilities
    rfl).1, by decide⟩

/-- C20: `findMemoryType` returns `k` exactly when `k` is the smallest index
below the memory type count such that bit `k` of the type filter is set and
the flags of memory type `k` contain all required flags; it fails exactly when
no index suits, and then with the runtime error of line 807. -/
theorem findMemoryType_smallest (memoryTypes : List Nat) (typeFilter properties : Nat) :
    (∀ k, findMemoryType memoryTypes typeFilter properties = .ok k ↔
      (memoryTypeSuits memoryTypes typeFilter properties k ∧
        ∀ j, j < k → ¬ memoryTypeSuits memoryTypes typeFilter properties j)) ∧
    ((∃ e, findMemoryType memoryTypes typeFilter properties = .error e) ↔
      ¬ ∃ k, memoryTypeSuits memoryTypes typeFilter properties k) ∧
    (∀ e, findMemoryType memoryTypes typeFilter properties = .error e →
      e = .runtime_error "Failed to find a suitable memory type!") := by
  obtain ⟨h₁, h₂, h₃⟩ := findMemoryTypeFrom_spec memoryTypes typeFilter properties
    memoryTypes.length 0 (Nat.zero_add _)
  unfold findMemoryType
  refine ⟨?_, ?_, h₃⟩
  · intro k
    rw [h₁ k]
    constructor
    · rintro ⟨-, hk, hmin⟩
      exact ⟨hk, fun j hj => hmin j (Nat.zero_le _) hj⟩
    · rintro ⟨hk, hmin⟩
      exact ⟨Nat.zero_le _, hk, fun j _ hj => hmin j hj⟩
  · constructor
    · rintro ⟨e, he⟩
      rw [h₃ e he] at he
      rintro ⟨k, hk⟩
      exact h₂.mp he k (Nat.zero_le _) hk
    · intro hnone
      exact ⟨_, h₂.mpr fun j _ hj => hnone ⟨j, hj⟩⟩

/-! ## Image layout transitions: properties -/

/-- C13: `transitionImageLayout` raises the invalid-argument error exactly for
the pairs of layouts other than (undefined, transfer-destination) and
(transfer-destination, shader-read-only), and returns normally exactly for
these two; for them it records one pipeline barrier carrying one image barrier
with the old layout, the new layout and the image it was given, and when it
raises it records no barrier. -/
theorem transitionImageLayout_spec (s : RenderSystem) (image : Handle) (format : Nat)
    (oldLayout newLayout : Nat) :
    ((s.transitionImageLayout image format oldLayout newLayout).thrown
        = some (.invalid_argument "Layout transition not supported!") ↔
      ¬ layoutTransitionSupported oldLayout newLayout) ∧
    ((s.transitionImageLayout image format oldLayout newLayout).thrown = none ↔
      layoutTransitionSupported oldLayout newLayout) ∧
    (layoutTransitionSupported oldLayout newLayout →
      (((s.transitionImageLayout image format oldLayout newLayout).state.callsSince
          s.trace.length).flatMap Call.imageBarriers).map
            (fun b => (b.oldLayout, b.newLayout, b.image)) = [(oldLayout, newLayout, image)] ∧
      (((s.transitionImageLayout image format oldLayout newLayout).state.callsSince
          s.trace.length).filter Call.isPipelineBarrier).length = 1) ∧
    (¬ layoutTransitionSupported oldLayout newLayout →
      ((s.transitionImageLayout image format oldLayout newLayout).state.callsSince
        s.trace.length).filter Call.isPipelineBarrier = []) := by
  unfold RenderSystem.transitionImageLayout layoutTransitionSupported
  by_cases h₁ : oldLayout = VK_IMAGE_LAYOUT_UNDEFINED ∧
      newLayout = VK_IMAGE_LAYOUT_TRANSFER_DST_OPTIMAL
  · simp [h₁, CommandPool.beginSingleCmdBuffer, CommandPool.endSingleCmdBuffer,
      RenderSystem.call, RenderSystem.callsSince, Outcome.ok, Call.imageBarriers,
      Call.isPipelineBarrier]
  · by_cases h₂ : oldLayout = VK_IMAGE_LAYOUT_TRANSFER_DST_OPTIMAL ∧
        newLayout = VK_IMAGE_LAYOUT_SHADER_READ_ONLY_OPTIMAL
    · simp only [if_neg h₁, if_pos h₂]
      simp [h₁, h₂, CommandPool.beginSingleCmdBuffer, CommandPool.endSingleCmdBuffer,
        RenderSystem.call, RenderSystem.callsSince, Outcome.ok, Call.imageBarriers,
        Call.isPipelineBarrier]
    · simp only [if_neg h₁, if_neg h₂]
      simp [h₁, h₂, CommandPool.beginSingleCmdBuffer,
        RenderSystem.call, RenderSystem.callsSince, Outcome.throw,
        Call.isPipelineBarrier]

/-- Witness of C13: the transition from undefined to transfer-destination of
image 50 is supported and records its barrier; the reverse is refused. -/
theorem transitionImageLayout_spec_witness :
    layoutTransitionSupported VK_IMAGE_LAYOUT_UNDEFINED VK_IMAGE_LAYOUT_TRANSFER_DST_OPTIMAL ∧
    (sampleState.transitionImageLayout 50 37 VK_IMAGE_LAYOUT_UNDEFINED
      VK_IMAGE_LAYOUT_TRANSFER_DST_OPTIMAL).thrown = none ∧
    (sampleState.transitionImageLayout 50 37 VK_IMAGE_LAYOUT_TRANSFER_DST_OPTIMAL
      VK_IMAGE_LAYOUT_UNDEFINED).thrown
      = some (.invalid_argument "Layout transition not supported!") :=
  ⟨by decide,
    (transitionImageLayout_spec sampleState 50 37 VK_IMAGE_LAYOUT_UNDEFINED
      VK_IMAGE_LAYOUT_TRANSFER_DST_OPTIMAL).2.1.mpr (by decide),
    (transitionImageLayout_spec sampleState 50 37 VK_IMAGE_LAYOUT_TRANSFER_DST_OPTIMAL
      VK_IMAGE_LAYOUT_UNDEFINED).1.mpr (by decide)⟩

/-! ## The submission and the presentation of a frame -/

/-- C16: in slot `mCurrentFrame` with the acquired image `imageIndex`, the one
submission `drawFrame` makes submits exactly the command buffer of that image,
waits on exactly the image-available semaphore of the slot at the
color-attachment-output stage, signals exactly the render-finished semaphore
of the slot and uses the fence of the slot; when the submission succeeds, the
one presentation waits on exactly that render-finished semaphore and presents
that image index. -/
theorem drawFrame_submission (MAX_CONCURRENT_FRAMES : Nat) (s : RenderSystem)
    (r : FrameReplies) :
    ((s.drawFrame MAX_CONCURRENT_FRAMES r).state.callsSince s.trace.length).filter
        Call.isQueueSubmit =
      [ .vkQueueSubmit s.graphicsQueue
          [s.mImageAvailableSemaphores.getD s.mCurrentFrame VK_NULL_HANDLE]
          [VK_PIPELINE_STAGE_COLOR_ATTACHMENT_OUTPUT_BIT]
          [s.mCommandBuffers.getD r.imageIndex VK_NULL_HANDLE]
          [s.mRenderFinishedSemaphores.getD s.mCurrentFrame VK_NULL_HANDLE]
          (s.mFrameFences.getD s.mCurrentFrame VK_NULL_HANDLE) ] ∧
    (r.queueSubmit = VK_SUCCESS →
      ((s.drawFrame MAX_CONCURRENT_FRAMES r).state.callsSince s.trace.length).filter
          Call.isQueuePresent =
        [ .vkQueuePresentKHR s.presentQueue
            [s.mRenderFinishedSemaphores.getD s.mCurrentFrame VK_NULL_HANDLE]
            [s.mSwapchain.getVkSwapchain] [r.imageIndex] ]) := by
  by_cases hsubmit : r.queueSubmit = VK_SUCCESS
  · by_cases hpresent : r.queuePresent = VK_ERROR_OUT_OF_DATE_KHR
    · have heq := drawFrame_out_of_date_eq MAX_CONCURRENT_FRAMES s r hsubmit hpresent
      obtain ⟨⟨calls, htrace, hcalls⟩, -⟩ := recreateSwapchain_rebuilds MAX_CONCURRENT_FRAMES
        ({ s with trace := s.trace ++ s.frameCalls r.imageIndex } : RenderSystem) r.recreate
      rw [← heq] at htrace
      have hsince : (s.drawFrame MAX_CONCURRENT_FRAMES r).state.callsSince s.trace.length =
          s.frameCalls r.imageIndex ++ Call.vkDeviceWaitIdle s.device :: calls := by
        simp [RenderSystem.callsSince, htrace, RenderSystem.call, List.append_assoc]
      have hnone : ∀ p : Call → Bool, (∀ c, c.isRebuild = true → p c = false) →
          calls.filter p = [] := by
        intro p hp
        exact List.filter_eq_nil_iff.mpr fun c hc => by simp [hp c (hcalls c hc)]
      refine ⟨?_, fun _ => ?_⟩
      · rw [hsince, List.filter_append, List.filter_cons,
          hnone _ fun c hc => (Call.isRebuild_not_frame c hc).2.1]
        simp [RenderSystem.frameCalls, Call.isQueueSubmit]
      · rw [hsince, List.filter_append, List.filter_cons,
          hnone _ fun c hc => (Call.isRebuild_not_frame c hc).2.2]
        simp [RenderSystem.frameCalls, Call.isQueuePresent]
    · by_cases herr : r.queuePresent ≠ VK_SUCCESS ∧ r.queuePresent ≠ VK_SUBOPTIMAL_KHR
      · simp [RenderSystem.drawFrame, RenderSystem.updateUniformBuffer, RenderSystem.call,
          RenderSystem.callsSince, Outcome.throw, hsubmit, hpresent, herr, Call.isQueueSubmit,
          Call.isQueuePresent]
      · simp [RenderSystem.drawFrame, RenderSystem.updateUniformBuffer, RenderSystem.call,
          RenderSystem.callsSince, Outcome.ok, hsubmit, hpresent, herr, Call.isQueueSubmit,
          Call.isQueuePresent]
  · simp [RenderSystem.drawFrame, RenderSystem.updateUniformBuffer, RenderSystem.call,
      RenderSystem.callsSince, Outcome.throw, hsubmit, Call.isQueueSubmit]

/-- Witness of C16: in slot 1 with image 2 the sample render system submits
command buffer 36 with semaphores 55 and 57 and fence 59, and presents
image 2 waiting on semaphore 57. -/
theorem drawFrame_submission_witness :
    ((({ sampleState with mCurrentFrame := 1 } : RenderSystem).drawFrame 2
        (sampleFrame VK_SUCCESS 2 VK_SUCCESS VK_SUCCESS)).state.callsSince 0).filter
        Call.isQueueSubmit =
      [ .vkQueueSubmit 6 [55] [VK_PIPELINE_STAGE_COLOR_ATTACHMENT_OUTPUT_BIT] [36] [57] 59 ] ∧
    ((({ sampleState with mCurrentFrame := 1 } : RenderSystem).drawFrame 2
        (sampleFrame VK_SUCCESS 2 VK_SUCCESS VK_SUCCESS)).state.callsSince 0).filter
        Call.isQueuePresent =
      [ .vkQueuePresentKHR 7 [57] [20] [2] ] :=
  have h := drawFrame_submission 2 { sampleState with mCurrentFrame := 1 }
    (sampleFrame VK_SUCCESS 2 VK_SUCCESS VK_SUCCESS)
  ⟨h.1, h.2 rfl⟩

/-! ## Descriptors: properties -/

theorem descriptorWrites_call (s : RenderSystem) (c : Call) (j : Nat) :
    (s.call c).descriptorWrites j = s.descriptorWrites j := rfl

theorem updateDescriptorSetsFrom_trace (n : Nat) :
    ∀ (i : Nat) (s : RenderSystem),
      (RenderSystem.updateDescriptorSetsFrom n i s).forgetTrace = s.forgetTrace ∧
      (RenderSystem.updateDescriptorSetsFrom n i s).trace = s.trace ++
        (List.range' i n).map fun j => Call.vkUpdateDescriptorSets s.device (s.descriptorWrites j)
      := by
  induction n with
  | zero => intro i s; simp [RenderSystem.updateDescriptorSetsFrom]
  | succ n ih =>
    intro i s
    obtain ⟨h₁, h₂⟩ := ih (i + 1)
      (s.call (.vkUpdateDescriptorSets s.device (s.descriptorWrites i)))
    unfold RenderSystem.updateDescriptorSetsFrom
    refine ⟨h₁.trans (forgetTrace_call _ _), ?_⟩
    rw [h₂]
    simp only [RenderSystem.call, List.range'_succ, List.map_cons, List.append_assoc,
      List.singleton_append]
    rfl

theorem filter_descriptorWrites (s : RenderSystem) (h N i : Nat)
    (hsets : ∀ j, j < N → s.mDescriptorSets.getD j VK_NULL_HANDLE = h + j) :
    ∀ (n a : Nat), a + n ≤ N →
      ((List.range' a n).flatMap s.descriptorWrites).filter
          (fun w => decide (w.dstSet = h + i)) =
        if a ≤ i ∧ i < a + n then s.descriptorWrites i else [] := by
  intro n
  induction n with
  | zero => intro a _; simp
  | succ n ih =>
    intro a ha
    rw [List.range'_succ, List.flatMap_cons, List.filter_append, ih (a + 1) (by omega)]
    have hset : s.mDescriptorSets[a]?.getD VK_NULL_HANDLE = h + a := by
      simpa using hsets a (by omega)
    by_cases hai : a = i
    · subst hai
      have h₁ : ¬ (a + 1 ≤ a ∧ a < a + 1 + n) := by omega
      have h₂ : a ≤ a ∧ a < a + (n + 1) := by omega
      rw [if_neg h₁, if_pos h₂, List.append_nil]
      simp [RenderSystem.descriptorWrites, hset]
    · have hne : ¬ (h + a = h + i) := by omega
      have hfirst : (s.descriptorWrites a).filter (fun w => decide (w.dstSet = h + i)) = [] := by
        simp [RenderSystem.descriptorWrites, hset, hne]
      rw [hfirst, List.nil_append]
      by_cases hin : a + 1 ≤ i ∧ i < a + 1 + n
      · rw [if_pos hin, if_pos (by omega)]
      · rw [if_neg hin, if_neg (by omega)]


/-- C12: with `N` the image count of the swapchain, `createDescriptorPool` asks
for a pool of `N` sets, `N` uniform-buffer descriptors and `N`
combined-image-sampler descriptors; `createDescriptorSets` allocates `N`
pairwise distinct descriptor sets in one allocation, and for every `i < N`
the writes addressed to set `i` are exactly two: binding 0, a uniform buffer,
pointing at uniform buffer `i`, and binding 1, a combined image sampler,
pointing at the view and the sampler of the texture. -/
theorem createDescriptors_spec (s : RenderSystem) (result : VkResult) (i : Nat)
    (hi : i < s.mSwapchain.size) :
    (s.createDescriptorPool result).state.callsSince s.trace.length =
      [ .vkCreateDescriptorPool s.device
          [ (VK_DESCRIPTOR_TYPE_UNIFORM_BUFFER, s.mSwapchain.size),
            (VK_DESCRIPTOR_TYPE_COMBINED_IMAGE_SAMPLER, s.mSwapchain.size) ]
          s.mSwapchain.size ] ∧
    (s.createDescriptorSets VK_SUCCESS).thrown = none ∧
    (s.createDescriptorSets VK_SUCCESS).state.mDescriptorSets.length = s.mSwapchain.size ∧
    (s.createDescriptorSets VK_SUCCESS).state.mDescriptorSets.Nodup ∧
    ((s.createDescriptorSets VK_SUCCESS).state.callsSince s.trace.length).filter
        Call.isAllocateDescriptorSets =
      [ .vkAllocateDescriptorSets s.device s.mDescriptorPool
          (List.replicate s.mSwapchain.size s.mDescriptorSetLayout) s.mSwapchain.size ] ∧
    (((s.createDescriptorSets VK_SUCCESS).state.callsSince s.trace.length).flatMap
        Call.descriptorWrites).filter
        (fun w => decide (w.dstSet =
          (s.createDescriptorSets VK_SUCCESS).state.mDescriptorSets.getD i VK_NULL_HANDLE)) =
      [ { dstSet := (s.createDescriptorSets VK_SUCCESS).state.mDescriptorSets.getD i
            VK_NULL_HANDLE
          dstBinding := 0
          dstArrayElement := 0
          descriptorType := VK_DESCRIPTOR_TYPE_UNIFORM_BUFFER
          descriptorCount := 1
          pBufferInfo := some { buffer := s.mUniformBuffers.getD i VK_NULL_HANDLE, offset := 0 }
          pImageInfo := none },
        { dstSet := (s.createDescriptorSets VK_SUCCESS).state.mDescriptorSets.getD i
            VK_NULL_HANDLE
          dstBinding := 1
          dstArrayElement := 0
          descriptorType := VK_DESCRIPTOR_TYPE_COMBINED_IMAGE_SAMPLER
          descriptorCount := 1
          pBufferInfo := none
          pImageInfo := some
            { imageLayout := VK_IMAGE_LAYOUT_SHADER_READ_ONLY_OPTIMAL
              imageView := s.mTexture.getImageView
              sampler := s.mTexture.getSampler } } ] := by
  refine ⟨?_, ?_⟩
  · unfold RenderSystem.createDescriptorPool
    split_ifs <;> simp [RenderSystem.callsSince, RenderSystem.call, Outcome.throw, Outcome.ok]
  · generalize hs₃ : ({ (({ s with mDescriptorSets := resize s.mDescriptorSets s.mSwapchain.size }
        : RenderSystem).call (.vkAllocateDescriptorSets s.device s.mDescriptorPool
          (List.replicate s.mSwapchain.size s.mDescriptorSetLayout) s.mSwapchain.size)) with
        mDescriptorSets := List.range' s.nextHandle s.mSwapchain.size
        nextHandle := s.nextHandle + s.mSwapchain.size } : RenderSystem) = s₃
    have hrun : s.createDescriptorSets VK_SUCCESS
        = Outcome.ok (RenderSystem.updateDescriptorSetsFrom s.mSwapchain.size 0 s₃) := by
      rw [← hs₃]
      simp [RenderSystem.createDescriptorSets, RenderSystem.call]
    obtain ⟨hforget, htrace⟩ := updateDescriptorSetsFrom_trace s.mSwapchain.size 0 s₃
    have hsets₃ : s₃.mDescriptorSets = List.range' s.nextHandle s.mSwapchain.size := by
      rw [← hs₃]
    have hub₃ : s₃.mUniformBuffers = s.mUniformBuffers := by rw [← hs₃]; rfl
    have htex₃ : s₃.mTexture = s.mTexture := by rw [← hs₃]; rfl
    have hdev₃ : s₃.device = s.device := by rw [← hs₃]; rfl
    have htrace₃ : s₃.trace = s.trace ++ [.vkAllocateDescriptorSets s.device s.mDescriptorPool
        (List.replicate s.mSwapchain.size s.mDescriptorSetLayout) s.mSwapchain.size] := by
      rw [← hs₃]; rfl
    have hsets : (RenderSystem.updateDescriptorSetsFrom s.mSwapchain.size 0 s₃).mDescriptorSets
        = List.range' s.nextHandle s.mSwapchain.size := by
      have := congrArg RenderSystem.mDescriptorSets hforget
      simp only [RenderSystem.forgetTrace] at this
      rw [this, hsets₃]
    have hsince : (s.createDescriptorSets VK_SUCCESS).state.callsSince s.trace.length
        = Call.vkAllocateDescriptorSets s.device s.mDescriptorPool
            (List.replicate s.mSwapchain.size s.mDescriptorSetLayout) s.mSwapchain.size ::
          (List.range' 0 s.mSwapchain.size).map
            fun j => Call.vkUpdateDescriptorSets s.device (s₃.descriptorWrites j) := by
      rw [hrun]
      simp [Outcome.ok, RenderSystem.callsSince, htrace, htrace₃, hdev₃]
    have hget : ∀ j, j < s.mSwapchain.size →
        s₃.mDescriptorSets.getD j VK_NULL_HANDLE = s.nextHandle + j := by
      intro j hj
      rw [hsets₃, List.getD_eq_getElem _ _ (by simpa using hj)]
      simp
    have hflat : ((s.createDescriptorSets VK_SUCCESS).state.callsSince s.trace.length).flatMap
        Call.descriptorWrites = (List.range' 0 s.mSwapchain.size).flatMap s₃.descriptorWrites := by
      rw [hsince]
      simp [List.flatMap, Call.descriptorWrites, List.map_map, Function.comp_def]
    refine ⟨by rw [hrun]; rfl, ?_, ?_, ?_, ?_⟩
    · rw [hrun]; simp [Outcome.ok, hsets]
    · rw [hrun]; simp only [Outcome.ok, hsets]; exact List.nodup_range' _ _
    · rw [hsince]
      simp [Call.isAllocateDescriptorSets, List.filter_map, Function.comp_def]
    · have hstate : (s.createDescriptorSets VK_SUCCESS).state.mDescriptorSets.getD i
          VK_NULL_HANDLE = s.nextHandle + i := by
        rw [hrun]
        simp only [Outcome.ok, hsets]
        rw [← hsets₃]
        exact hget i hi
      rw [hflat, hstate,
        filter_descriptorWrites s₃ s.nextHandle s.mSwapchain.size i hget s.mSwapchain.size 0
          (by omega),
        if_pos ⟨Nat.zero_le _, by omega⟩]
      have hgeti : s₃.mDescriptorSets[i]?.getD VK_NULL_HANDLE = s.nextHandle + i := by
        simpa using hget i hi
      simp [RenderSystem.descriptorWrites, hgeti, hub₃, htex₃]

/-- Witness of C12: the sample render system has three images; three
descriptor sets are allocated. -/
theorem createDescriptors_spec_witness :
    1 < sampleState.mSwapchain.size ∧
    (sampleState.createDescriptorSets VK_SUCCESS).thrown = none ∧
    (sampleState.createDescriptorSets VK_SUCCESS).state.mDescriptorSets.length = 3 :=
  have h := createDescriptors_spec sampleState VK_SUCCESS 1 (by decide)
  ⟨by decide, h.2.1, h.2.2.1⟩

/-! ## The clear colour: properties -/

theorem recordCalls_call (s : RenderSystem) (c : Call) (i : Nat) :
    (s.call c).recordCalls i = s.recordCalls i := rfl

theorem recordCommandBuffersFrom_forgetTrace (r : SwapchainReplies) (n : Nat) :
    ∀ (i : Nat) (s : RenderSystem),
      (RenderSystem.recordCommandBuffersFrom r n i s).state.forgetTrace = s.forgetTrace := by
  induction n with
  | zero => intro i s; rfl
  | succ n ih =>
    intro i s
    unfold RenderSystem.recordCommandBuffersFrom
    split_ifs
    · simp only [Outcome.throw, forgetTrace_call]
    · simp only [Outcome.throw, forgetTrace_call]
    · exact (ih _ _).trans (by simp only [forgetTrace_call])

theorem recordCommandBuffersFrom_trace (r : SwapchainReplies) (n : Nat) :
    ∀ (i : Nat) (s : RenderSystem),
      (∀ j, i ≤ j → j < i + n →
        r.beginCommandBuffer j = VK_SUCCESS ∧ r.endCommandBuffer j = VK_SUCCESS) →
      (RenderSystem.recordCommandBuffersFrom r n i s).state.trace
        = s.trace ++ (List.range' i n).flatMap (fun j => s.recordCalls j) := by
  induction n with
  | zero => intro i s _; simp [RenderSystem.recordCommandBuffersFrom, Outcome.ok]
  | succ n ih =>
    intro i s hok
    obtain ⟨hb, he⟩ := hok i (Nat.le_refl _) (by omega)
    unfold RenderSystem.recordCommandBuffersFrom
    simp only [hb, he, ne_eq, not_true_eq_false, if_false]
    rw [ih (i + 1) _ (fun j h₁ h₂ => hok j (by omega) (by omega))]
    simp only [recordCalls_call]
    simp [RenderSystem.call, RenderSystem.recordCalls, List.range'_succ]

theorem filter_beginRenderPass (s : RenderSystem) (l : List Nat) :
    (l.flatMap (fun j => s.recordCalls j)).filter Call.isBeginRenderPass
      = l.map (fun i => .vkCmdBeginRenderPass (s.mCommandBuffers.getD i VK_NULL_HANDLE)
          s.mRenderPass (s.mSwapchainFramebuffers.getD i VK_NULL_HANDLE) s.mSwapchain.getExtent
          s.mClearColor) := by
  induction l with
  | nil => rfl
  | cons a l ih =>
    rw [List.flatMap_cons, List.filter_append, ih]
    rfl

/-- C14: `setClearColor(c)` first waits for the device to be idle, stores `c` as
the clear colour, and leaves as many command buffers as there are
framebuffers; apart from the clear colour and the command buffers (newly
allocated handles) no member changes.  When the driver accepts the begin and
the end of every recording, it returns normally and the render passes begun
are exactly one per index `i`, in command buffer `i`, on framebuffer `i`, with
clear value `c`. -/
theorem setClearColor_spec (s : RenderSystem) (clearColor : VkClearValue)
    (r : SwapchainReplies) :
    ((s.setClearColor clearColor r).state.callsSince s.trace.length).head?
      = some (.vkDeviceWaitIdle s.device) ∧
    (s.setClearColor clearColor r).state.mClearColor = clearColor ∧
    (s.setClearColor clearColor r).state.mCommandBuffers.length
      = (s.setClearColor clearColor r).state.mSwapchainFramebuffers.length ∧
    (s.setClearColor clearColor r).state.forgetTrace =
      ({ s with
        mClearColor := clearColor
        mCommandBuffers := List.range' s.nextHandle s.mSwapchainFramebuffers.length
        nextHandle := s.nextHandle + s.mSwapchainFramebuffers.length } : RenderSystem).forgetTrace ∧
    ((∀ j, j < s.mSwapchainFramebuffers.length →
        r.beginCommandBuffer j = VK_SUCCESS ∧ r.endCommandBuffer j = VK_SUCCESS) →
      (s.setClearColor clearColor r).thrown = none ∧
      ((s.setClearColor clearColor r).state.callsSince s.trace.length).filter
          Call.isBeginRenderPass
        = (List.range s.mSwapchainFramebuffers.length).map (fun i =>
            .vkCmdBeginRenderPass
              ((s.setClearColor clearColor r).state.mCommandBuffers.getD i VK_NULL_HANDLE)
              s.mRenderPass (s.mSwapchainFramebuffers.getD i VK_NULL_HANDLE)
              s.mSwapchain.getExtent clearColor)) := by
  have hft : (s.setClearColor clearColor r).state.forgetTrace =
      ({ s with
        mClearColor := clearColor
        mCommandBuffers := List.range' s.nextHandle s.mSwapchainFramebuffers.length
        nextHandle := s.nextHandle + s.mSwapchainFramebuffers.length } :
        RenderSystem).forgetTrace := by
    unfold RenderSystem.setClearColor RenderSystem.createCommandBuffers
    refine (recordCommandBuffersFrom_forgetTrace r _ 0 _).trans ?_
    simp [CommandPool.allocateCommandBuffers, RenderSystem.call, RenderSystem.forgetTrace,
      resize_length]
  have hfields := hft
  simp only [RenderSystem.forgetTrace, RenderSystem.mk.injEq] at hfields
  have hhead : ∃ rest, (s.setClearColor clearColor r).state.trace
      = s.trace ++ .vkDeviceWaitIdle s.device :: rest := by
    obtain ⟨⟨calls, hc, -⟩, -⟩ := createCommandBuffers_rebuilds
      ({ s.call (.vkDeviceWaitIdle s.device) with mClearColor := clearColor }) r
    exact ⟨calls, by
      unfold RenderSystem.setClearColor
      rw [hc]
      simp [RenderSystem.call]⟩
  refine ⟨?_, ?_, ?_, hft, ?_⟩
  · obtain ⟨rest, hrest⟩ := hhead
    simp [RenderSystem.callsSince, hrest]
  · simp only [hfields]
  · simp only [hfields, List.length_range']
  · intro hok
    have hthrown : (s.setClearColor clearColor r).thrown = none :=
      (createCommandBuffers_ok
        ({ s.call (.vkDeviceWaitIdle s.device) with mClearColor := clearColor }) r hok).1
    refine ⟨hthrown, ?_⟩
    have htrace : (s.setClearColor clearColor r).state.trace
        = s.trace ++ (.vkDeviceWaitIdle s.device ::
            .allocateCommandBuffers s.mCommandPool s.mSwapchainFramebuffers.length ::
            (List.range' 0 s.mSwapchainFramebuffers.length).flatMap (fun j =>
              ({ s with
                mClearColor := clearColor
                mCommandBuffers := List.range' s.nextHandle s.mSwapchainFramebuffers.length } :
                RenderSystem).recordCalls j)) := by
      unfold RenderSystem.setClearColor RenderSystem.createCommandBuffers
      simp only
      rw [recordCommandBuffersFrom_trace r _ 0 _ (fun j _ hj => hok j (by
        simp only [CommandPool.allocateCommandBuffers, RenderSystem.call, List.length_range',
          resize_length] at hj
        omega))]
      simp [CommandPool.allocateCommandBuffers, RenderSystem.call, resize_length,
        RenderSystem.recordCalls]
    simp only [RenderSystem.callsSince, htrace, List.drop_left, hfields]
    rw [List.filter_cons_of_neg (by simp [Call.isDeviceWaitIdle, Call.isBeginRenderPass]),
      List.filter_cons_of_neg (by simp [Call.isBeginRenderPass]), filter_beginRenderPass,
      List.range_eq_range']

/-- Witness of C14: on the sample render system with a driver that accepts
every recording, `setClearColor` returns normally with three command
buffers. -/
theorem setClearColor_spec_witness :
    (∀ j, j < sampleState.mSwapchainFramebuffers.length →
      (sampleReplies fixedCapabilities 3).beginCommandBuffer j = VK_SUCCESS ∧
      (sampleReplies fixedCapabilities 3).endCommandBuffer j = VK_SUCCESS) ∧
    (sampleState.setClearColor ⟨1, 2, 3, 4⟩ (sampleReplies fixedCapabilities 3)).thrown = none ∧
    (sampleState.setClearColor ⟨1, 2, 3, 4⟩ (sampleReplies fixedCapabilities 3)).state.mClearColor
      = ⟨1, 2, 3, 4⟩ :=
  have h := setClearColor_spec sampleState ⟨1, 2, 3, 4⟩ (sampleReplies fixedCapabilities 3)
  ⟨fun _ _ => ⟨rfl, rfl⟩, (h.2.2.2.2 fun _ _ => ⟨rfl, rfl⟩).1, h.2.1⟩

/-! ## Swapchain recreation: the order of its calls -/

theorem RenderSystem.Builds.builds_refl (k : Nat) (s : RenderSystem) : s.Builds k s :=
  ⟨[], by simp, by simp⟩

theorem RenderSystem.Builds.builds_trans {k : Nat} {s t u : RenderSystem} (h₁ : s.Builds k t)
    (h₂ : t.Builds k u) : s.Builds k u := by
  obtain ⟨c₁, e₁, q₁⟩ := h₁
  obtain ⟨c₂, e₂, q₂⟩ := h₂
  refine ⟨c₁ ++ c₂, by rw [e₂, e₁, List.append_assoc], ?_⟩
  intro c hc
  rcases List.mem_append.mp hc with h | h
  · exact q₁ c h
  · exact q₂ c h

theorem destroyFramebuffers_trace (framebuffers : List Handle) :
    ∀ s : RenderSystem, (framebuffers.foldl
      (fun (t : RenderSystem) framebuffer => t.call (.vkDestroyFramebuffer t.device framebuffer))
      s).trace = s.trace ++ framebuffers.map (fun framebuffer =>
        .vkDestroyFramebuffer s.device framebuffer) := by
  induction framebuffers with
  | nil => intro s; simp
  | cons fb rest ih =>
    intro s
    rw [List.foldl_cons, ih]
    simp [RenderSystem.call]

theorem cleanupSwapchain_trace (s : RenderSystem) :
    s.cleanupSwapchain.trace = s.trace ++ s.teardownCalls := by
  have h₁ := destroyFramebuffers_trace s.mSwapchainFramebuffers s
  have h₂ := destroyFramebuffers_forgetTrace s.mSwapchainFramebuffers s
  unfold RenderSystem.cleanupSwapchain
  simp only
  generalize s.mSwapchainFramebuffers.foldl
    (fun (t : RenderSystem) framebuffer => t.call (.vkDestroyFramebuffer t.device framebuffer))
    s = s₁ at h₁ h₂
  simp only [RenderSystem.forgetTrace, RenderSystem.mk.injEq] at h₂
  simp [RenderSystem.call, RenderSystem.teardownCalls, h₁, h₂]

theorem createSwapchain_builds (MAX_CONCURRENT_FRAMES : Nat) (s : RenderSystem)
    (r : SwapchainReplies) :
    ∃ calls, (s.createSwapchain MAX_CONCURRENT_FRAMES r).state.trace = s.trace ++ calls ∧
      (∀ c ∈ calls, c.buildStep = 1) ∧ calls ≠ [] := by
  unfold RenderSystem.createSwapchain Swapchain.initialize Swapchain.createImageViews
    Outcome.andThen
  simp only
  split_ifs <;>
    simp [RenderSystem.call, Outcome.throw, Outcome.ok, Call.buildStep]

theorem createRenderPass_builds (s : RenderSystem) (r : SwapchainReplies) :
    ∃ calls, (s.createRenderPass r).state.trace = s.trace ++ calls ∧
      (∀ c ∈ calls, c.buildStep = 2) ∧ calls ≠ [] := by
  unfold RenderSystem.createRenderPass
  split_ifs <;> simp [RenderSystem.call, Outcome.throw, Outcome.ok, Call.buildStep]

theorem createGraphicsPipeline_builds (s : RenderSystem) (r : SwapchainReplies) :
    ∃ calls, (s.createGraphicsPipeline r).state.trace = s.trace ++ calls ∧
      (∀ c ∈ calls, c.buildStep = 3) ∧ calls ≠ [] := by
  unfold RenderSystem.createGraphicsPipeline RenderSystem.createShaderModule Outcome.andThen
  simp only
  split_ifs <;>
    simp [RenderSystem.call, Outcome.throw, Outcome.ok, Call.buildStep]

theorem createFramebuffersFrom_builds (r : SwapchainReplies) (views : List Handle) :
    ∀ (i : Nat) (s : RenderSystem),
      ∃ calls, (RenderSystem.createFramebuffersFrom r views i s).state.trace = s.trace ++ calls ∧
        (∀ c ∈ calls, c.buildStep = 4) ∧
        ((RenderSystem.createFramebuffersFrom r views i s).thrown = none →
          calls.length = views.length) ∧
        (RenderSystem.createFramebuffersFrom r views i s).state.mSwapchainFramebuffers.length
          = s.mSwapchainFramebuffers.length := by
  induction views with
  | nil => intro i s; exact ⟨[], by simp [RenderSystem.createFramebuffersFrom, Outcome.ok]⟩
  | cons view rest ih =>
    intro i s
    unfold RenderSystem.createFramebuffersFrom
    split_ifs
    · simp [RenderSystem.call, Outcome.throw, Call.buildStep]
    · obtain ⟨calls, e, p, n, l⟩ := ih (i + 1)
        { s.call (.vkCreateFramebuffer s.device s.mRenderPass [view]
            s.mSwapchain.getExtent.width s.mSwapchain.getExtent.height) with
          mSwapchainFramebuffers := (s.call (.vkCreateFramebuffer s.device s.mRenderPass [view]
            s.mSwapchain.getExtent.width s.mSwapchain.getExtent.height)).mSwapchainFramebuffers.set
              i (s.call (.vkCreateFramebuffer s.device s.mRenderPass [view]
            s.mSwapchain.getExtent.width s.mSwapchain.getExtent.height)).nextHandle
          nextHandle := (s.call (.vkCreateFramebuffer s.device s.mRenderPass [view]
            s.mSwapchain.getExtent.width s.mSwapchain.getExtent.height)).nextHandle + 1 }
      refine ⟨.vkCreateFramebuffer s.device s.mRenderPass [view]
            s.mSwapchain.getExtent.width s.mSwapchain.getExtent.height :: calls, ?_, ?_, ?_, ?_⟩
      · simp only at e ⊢
        rw [e]
        simp [RenderSystem.call]
      · intro c hc
        rcases List.mem_cons.mp hc with h | h
        · rw [h]; rfl
        · exact p c h
      · intro h
        simp only at n h
        simp [n h]
      · simp only at l ⊢
        rw [l]
        simp [RenderSystem.call]

theorem createFramebuffers_builds (s : RenderSystem) (r : SwapchainReplies) :
    ∃ calls, (s.createFramebuffers r).state.trace = s.trace ++ calls ∧
      (∀ c ∈ calls, c.buildStep = 4) ∧
      ((s.createFramebuffers r).thrown = none →
        calls.length = (s.createFramebuffers r).state.mSwapchainFramebuffers.length) := by
  unfold RenderSystem.createFramebuffers
  simp only
  obtain ⟨calls, e, p, n, l⟩ := createFramebuffersFrom_builds r s.mSwapchain.getImageViews 0
    { s with mSwapchainFramebuffers :=
        resize s.mSwapchainFramebuffers s.mSwapchain.getImageViews.length }
  refine ⟨calls, e, p, fun h => ?_⟩
  rw [n h, l]
  simp [resize_length]

theorem recordCommandBuffersFrom_builds (r : SwapchainReplies) (n : Nat) :
    ∀ (i : Nat) (s : RenderSystem),
      s.Builds 5 (RenderSystem.recordCommandBuffersFrom r n i s).state := by
  induction n with
  | zero => intro i s; exact RenderSystem.Builds.builds_refl 5 s
  | succ n ih =>
    intro i s
    unfold RenderSystem.recordCommandBuffersFrom
    split_ifs
    · simp [RenderSystem.Builds, RenderSystem.call, Outcome.throw, Call.buildStep]
    · simp [RenderSystem.Builds, RenderSystem.call, Outcome.throw, Call.buildStep]
    · refine RenderSystem.Builds.builds_trans ?_ (ih _ _)
      simp [RenderSystem.Builds, RenderSystem.call, Call.buildStep]

theorem createCommandBuffers_builds (s : RenderSystem) (r : SwapchainReplies) :
    ∃ calls, (s.createCommandBuffers r).state.trace = s.trace ++ calls ∧
      (∀ c ∈ calls, c.buildStep = 5) ∧ calls ≠ [] ∧
      (s.createCommandBuffers r).state.mSwapchainFramebuffers = s.mSwapchainFramebuffers := by
  unfold RenderSystem.createCommandBuffers
  simp only
  obtain ⟨calls, e, p⟩ := recordCommandBuffersFrom_builds r
    (CommandPool.allocateCommandBuffers
      { s with mCommandBuffers := resize s.mCommandBuffers
                s.mSwapchainFramebuffers.length }).mCommandBuffers.length 0
    (CommandPool.allocateCommandBuffers
      { s with mCommandBuffers := resize s.mCommandBuffers s.mSwapchainFramebuffers.length })
  refine ⟨.allocateCommandBuffers s.mCommandPool s.mSwapchainFramebuffers.length :: calls,
    ?_, ?_, by simp, ?_⟩
  · rw [e]
    simp [CommandPool.allocateCommandBuffers, RenderSystem.call, resize_length]
  · intro c hc
    rcases List.mem_cons.mp hc with h | h
    · rw [h]; rfl
    · exact p c h
  · rw [(forgetTrace_fields (recordCommandBuffersFrom_forgetTrace r
      (CommandPool.allocateCommandBuffers
        { s with mCommandBuffers := resize s.mCommandBuffers
                  s.mSwapchainFramebuffers.length }).mCommandBuffers.length 0
      (CommandPool.allocateCommandBuffers
        { s with mCommandBuffers := resize s.mCommandBuffers
                  s.mSwapchainFramebuffers.length }))).2.2.1]
    simp [CommandPool.allocateCommandBuffers, RenderSystem.call]

/-- C17: the calls of `recreateSwapchain` are, in this order: one device-idle
wait; the destructions of `cleanupSwapchain` in the order framebuffers,
command buffers (freed back to the pool), pipeline, pipeline layout, render
pass, swapchain; then five blocks of creation calls, those of
`createSwapchain`, `createRenderPass`, `createGraphicsPipeline`,
`createFramebuffers` and `createCommandBuffers`.  The first block is never
empty; on normal return no block is empty but the fourth, which holds one call
per framebuffer.  No call belongs to the teardown of `cleanup`: the command
pool is not destroyed. -/
theorem recreateSwapchain_order (MAX_CONCURRENT_FRAMES : Nat) (s : RenderSystem)
    (r : SwapchainReplies) :
    ∃ b₁ b₂ b₃ b₄ b₅ : List Call,
      (s.recreateSwapchain MAX_CONCURRENT_FRAMES r).state.callsSince s.trace.length
        = .vkDeviceWaitIdle s.device ::
            (s.teardownCalls ++ (b₁ ++ (b₂ ++ (b₃ ++ (b₄ ++ b₅))))) ∧
      (∀ c ∈ b₁, c.buildStep = 1) ∧ (∀ c ∈ b₂, c.buildStep = 2) ∧
      (∀ c ∈ b₃, c.buildStep = 3) ∧ (∀ c ∈ b₄, c.buildStep = 4) ∧
      (∀ c ∈ b₅, c.buildStep = 5) ∧
      b₁ ≠ [] ∧
      ((s.recreateSwapchain MAX_CONCURRENT_FRAMES r).thrown = none →
        b₂ ≠ [] ∧ b₃ ≠ [] ∧
        b₄.length
          = (s.recreateSwapchain MAX_CONCURRENT_FRAMES r).state.mSwapchainFramebuffers.length ∧
        b₅ ≠ []) ∧
      (∀ c ∈ (s.recreateSwapchain MAX_CONCURRENT_FRAMES r).state.callsSince s.trace.length,
        ∀ t : TeardownCall, c ≠ .teardown t) := by
  have key : ∃ b₁ b₂ b₃ b₄ b₅ : List Call,
      (s.recreateSwapchain MAX_CONCURRENT_FRAMES r).state.trace
        = s.trace ++ .vkDeviceWaitIdle s.device ::
            (s.teardownCalls ++ (b₁ ++ (b₂ ++ (b₃ ++ (b₄ ++ b₅))))) ∧
      (∀ c ∈ b₁, c.buildStep = 1) ∧ (∀ c ∈ b₂, c.buildStep = 2) ∧
      (∀ c ∈ b₃, c.buildStep = 3) ∧ (∀ c ∈ b₄, c.buildStep = 4) ∧
      (∀ c ∈ b₅, c.buildStep = 5) ∧
      b₁ ≠ [] ∧
      ((s.recreateSwapchain MAX_CONCURRENT_FRAMES r).thrown = none →
        b₂ ≠ [] ∧ b₃ ≠ [] ∧
        b₄.length
          = (s.recreateSwapchain MAX_CONCURRENT_FRAMES r).state.mSwapchainFramebuffers.length ∧
        b₅ ≠ []) := by
    have h₀ : (s.call (.vkDeviceWaitIdle s.device)).cleanupSwapchain.trace
        = s.trace ++ .vkDeviceWaitIdle s.device :: s.teardownCalls := by
      rw [cleanupSwapchain_trace]
      simp [RenderSystem.call, RenderSystem.teardownCalls]
    unfold RenderSystem.recreateSwapchain
    simp only
    generalize (s.call (.vkDeviceWaitIdle s.device)).cleanupSwapchain = s₂ at h₀ ⊢
    obtain ⟨b₁, e₁, p₁, n₁⟩ := createSwapchain_builds MAX_CONCURRENT_FRAMES s₂ r
    rw [h₀] at e₁
    cases t₁ : (s₂.createSwapchain MAX_CONCURRENT_FRAMES r).thrown with
    | some x =>
      refine ⟨b₁, [], [], [], [], ?_, p₁, ?_, ?_, ?_, ?_, n₁, ?_⟩ <;>
        simp [Outcome.andThen, t₁, e₁]
    | none =>
      simp only [Outcome.andThen, t₁]
      generalize (s₂.createSwapchain MAX_CONCURRENT_FRAMES r).state = s₃ at e₁ ⊢
      obtain ⟨b₂, e₂, p₂, n₂⟩ := createRenderPass_builds s₃ r
      rw [e₁] at e₂
      cases t₂ : (s₃.createRenderPass r).thrown with
      | some x =>
        refine ⟨b₁, b₂, [], [], [], ?_, p₁, p₂, ?_, ?_, ?_, n₁, ?_⟩ <;> simp [t₂, e₂]
      | none =>
        simp only [t₂]
        generalize (s₃.createRenderPass r).state = s₄ at e₂ ⊢
        obtain ⟨b₃, e₃, p₃, n₃⟩ := createGraphicsPipeline_builds s₄ r
        rw [e₂] at e₃
        cases t₃ : (s₄.createGraphicsPipeline r).thrown with
        | some x =>
          refine ⟨b₁, b₂, b₃, [], [], ?_, p₁, p₂, p₃, ?_, ?_, n₁, ?_⟩ <;> simp [t₃, e₃]
        | none =>
          simp only [t₃]
          generalize (s₄.createGraphicsPipeline r).state = s₅ at e₃ ⊢
          obtain ⟨b₄, e₄, p₄, n₄⟩ := createFramebuffers_builds s₅ r
          rw [e₃] at e₄
          cases t₄ : (s₅.createFramebuffers r).thrown with
          | some x =>
            refine ⟨b₁, b₂, b₃, b₄, [], ?_, p₁, p₂, p₃, p₄, ?_, n₁, ?_⟩ <;> simp [t₄, e₄]
          | none =>
            simp only [t₄]
            have n₄ := n₄ t₄
            generalize (s₅.createFramebuffers r).state = s₆ at e₄ n₄ ⊢
            obtain ⟨b₅, e₅, p₅, n₅, f₅⟩ := createCommandBuffers_builds s₆ r
            rw [e₄] at e₅
            refine ⟨b₁, b₂, b₃, b₄, b₅, ?_, p₁, p₂, p₃, p₄, p₅, n₁, fun _ => ⟨n₂, n₃, ?_, n₅⟩⟩
            · simp [e₅]
            · rw [f₅, n₄]
  obtain ⟨b₁, b₂, b₃, b₄, b₅, e, p₁, p₂, p₃, p₄, p₅, n⟩ := key
  have hcalls : (s.recreateSwapchain MAX_CONCURRENT_FRAMES r).state.callsSince s.trace.length
      = .vkDeviceWaitIdle s.device ::
          (s.teardownCalls ++ (b₁ ++ (b₂ ++ (b₃ ++ (b₄ ++ b₅))))) := by
    simp [RenderSystem.callsSince, e]
  refine ⟨b₁, b₂, b₃, b₄, b₅, hcalls, p₁, p₂, p₃, p₄, p₅, n.1, n.2, ?_⟩
  rw [hcalls]
  intro c hc t ht
  subst ht
  have hstep : ∀ k : Nat, k ≠ 0 → ∀ b : List Call, (∀ c ∈ b, c.buildStep = k) →
      Call.teardown t ∉ b := fun k hk b p hmem => hk (p _ hmem).symm
  have hdown : Call.teardown t ∉ s.teardownCalls := by simp [RenderSystem.teardownCalls]
  simp only [List.mem_cons, List.mem_append] at hc
  rcases hc with h | h | h | h | h | h | h
  · exact Call.noConfusion h
  · exact hdown h
  · exact hstep 1 (by decide) b₁ p₁ h
  · exact hstep 2 (by decide) b₂ p₂ h
  · exact hstep 3 (by decide) b₃ p₃ h
  · exact hstep 4 (by decide) b₄ p₄ h
  · exact hstep 5 (by decide) b₅ p₅ h

/-! ## Shutdown: properties -/

theorem RenderSystem.Destroys.destroys_refl (s : RenderSystem) : s.Destroys s :=
  ⟨[], by simp, by simp⟩

theorem RenderSystem.Destroys.destroys_trans {s t u : RenderSystem} (h₁ : s.Destroys t)
    (h₂ : t.Destroys u) : s.Destroys u := by
  obtain ⟨c₁, e₁, q₁⟩ := h₁
  obtain ⟨c₂, e₂, q₂⟩ := h₂
  refine ⟨c₁ ++ c₂, by rw [e₂, e₁, List.append_assoc], ?_⟩
  intro c hc
  rcases List.mem_append.mp hc with h | h
  · exact q₁ c h
  · exact q₂ c h

theorem RenderSystem.Destroys.destroys_call (s : RenderSystem) (c : Call)
    (hc : c.isDestroy = true) : s.Destroys (s.call c) :=
  ⟨[c], rfl, by simpa using hc⟩

theorem destroyUniformBuffersFrom_destroys (n : Nat) :
    ∀ (i : Nat) (s : RenderSystem),
      s.Destroys (RenderSystem.destroyUniformBuffersFrom n i s) := by
  induction n with
  | zero => intro i s; exact RenderSystem.Destroys.destroys_refl s
  | succ n ih =>
    intro i s
    unfold RenderSystem.destroyUniformBuffersFrom
    exact (RenderSystem.Destroys.destroys_call _ _ (by rfl)).destroys_trans
      ((RenderSystem.Destroys.destroys_call _ _ (by rfl)).destroys_trans (ih _ _))

theorem destroySyncObjectsFrom_destroys (n : Nat) :
    ∀ (i : Nat) (s : RenderSystem),
      s.Destroys (RenderSystem.destroySyncObjectsFrom n i s) := by
  induction n with
  | zero => intro i s; exact RenderSystem.Destroys.destroys_refl s
  | succ n ih =>
    intro i s
    unfold RenderSystem.destroySyncObjectsFrom
    exact (RenderSystem.Destroys.destroys_call _ _ (by rfl)).destroys_trans
      ((RenderSystem.Destroys.destroys_call _ _ (by rfl)).destroys_trans
        ((RenderSystem.Destroys.destroys_call _ _ (by rfl)).destroys_trans (ih _ _)))

theorem cleanupSwapchain_destroys (s : RenderSystem) : s.Destroys s.cleanupSwapchain := by
  unfold RenderSystem.cleanupSwapchain
  have h : ∀ (framebuffers : List Handle) (s : RenderSystem), s.Destroys (framebuffers.foldl
      (fun (t : RenderSystem) framebuffer => t.call (.vkDestroyFramebuffer t.device framebuffer))
      s) := by
    intro framebuffers
    induction framebuffers with
    | nil => intro s; exact RenderSystem.Destroys.destroys_refl s
    | cons fb rest ih =>
      intro s
      exact (RenderSystem.Destroys.destroys_call s _ (by rfl)).destroys_trans (ih _)
  have c := RenderSystem.Destroys.destroys_call
  exact (h s.mSwapchainFramebuffers s).destroys_trans
    ((c _ _ (by rfl)).destroys_trans ((c _ _ (by rfl)).destroys_trans
      ((c _ _ (by rfl)).destroys_trans ((c _ _ (by rfl)).destroys_trans (c _ _ (by rfl))))))

theorem cleanup_destroys (enableValidationLayers : Bool) (MAX_CONCURRENT_FRAMES : Nat)
    (s : RenderSystem) :
    ∃ calls, (s.cleanup enableValidationLayers MAX_CONCURRENT_FRAMES).trace
        = s.trace ++ .vkQueueWaitIdle s.presentQueue :: calls ∧
      (∀ c ∈ calls, c.isDestroy = true) ∧ calls ≠ [] := by
  unfold RenderSystem.cleanup
  lift_lets
  extract_lets s1 s2 s3 s4 s5 s6 s7 s8 s9 s10 s11 s12 s13 s14 s15
  have h2 : s1.Destroys s2 := cleanupSwapchain_destroys s1
  have h3 : s2.Destroys s3 := RenderSystem.Destroys.destroys_call _ _ (by rfl)
  have h4 : s3.Destroys s4 := RenderSystem.Destroys.destroys_call _ _ (by rfl)
  have h5 : s4.Destroys s5 := RenderSystem.Destroys.destroys_call _ _ (by rfl)
  have h6 : s5.Destroys s6 := destroyUniformBuffersFrom_destroys _ _ _
  have h7 : s6.Destroys s7 := RenderSystem.Destroys.destroys_call _ _ (by rfl)
  have h8 : s7.Destroys s8 := RenderSystem.Destroys.destroys_call _ _ (by rfl)
  have h9 : s8.Destroys s9 := RenderSystem.Destroys.destroys_call _ _ (by rfl)
  have h10 : s9.Destroys s10 := RenderSystem.Destroys.destroys_call _ _ (by rfl)
  have h11 : s10.Destroys s11 := destroySyncObjectsFrom_destroys _ _ _
  have h12 : s11.Destroys s12 := RenderSystem.Destroys.destroys_call _ _ (by rfl)
  have h13 : s12.Destroys s13 := RenderSystem.Destroys.destroys_call _ _ (by rfl)
  have h14 : s13.Destroys s14 := by
    cases enableValidationLayers
    · exact RenderSystem.Destroys.destroys_refl _
    · exact RenderSystem.Destroys.destroys_call _ _ (by rfl)
  have h15 : s14.Destroys s15 := RenderSystem.Destroys.destroys_call _ _ (by rfl)
  obtain ⟨calls, e, p⟩ := h2.destroys_trans (h3.destroys_trans (h4.destroys_trans
    (h5.destroys_trans (h6.destroys_trans (h7.destroys_trans (h8.destroys_trans
      (h9.destroys_trans (h10.destroys_trans (h11.destroys_trans (h12.destroys_trans
        (h13.destroys_trans (h14.destroys_trans h15))))))))))))
  refine ⟨calls ++ [.teardown (.vkDestroyInstance s15.mInstance)], ?_, ?_, by simp⟩
  · show s15.trace ++ [_] = _
    rw [e]
    show (s.trace ++ [_]) ++ calls ++ [_] = _
    simp
  · intro c hc
    rcases List.mem_append.mp hc with h | h
    · exact p c h
    · rw [List.mem_singleton.mp h]; rfl

/-- C15, counterexample: on the sample render system `cleanup` makes no
device-idle wait at all; its first call is the queue-idle wait on the present
queue (handle 7) and its second call already destroys a framebuffer. -/
theorem cleanup_without_device_wait_idle :
    ((sampleState.cleanup true 2).callsSince 0).filter Call.isDeviceWaitIdle = [] ∧
    ((sampleState.cleanup true 2).callsSince 0).take 2
      = [.vkQueueWaitIdle 7, .vkDestroyFramebuffer 5 31] := by
  decide

/-- C15, amended: the first call of `cleanup` is a queue-idle wait on the
present queue; every later call destroys or frees an object, and there are
such calls; no call of `cleanup` is a device-idle wait. -/
theorem cleanup_waits_for_present_queue (enableValidationLayers : Bool)
    (MAX_CONCURRENT_FRAMES : Nat) (s : RenderSystem) :
    ((s.cleanup enableValidationLayers MAX_CONCURRENT_FRAMES).callsSince s.trace.length).head?
      = some (.vkQueueWaitIdle s.presentQueue) ∧
    (∀ c ∈ ((s.cleanup enableValidationLayers MAX_CONCURRENT_FRAMES).callsSince
        s.trace.length).tail, c.isDestroy = true) ∧
    ((s.cleanup enableValidationLayers MAX_CONCURRENT_FRAMES).callsSince s.trace.length).tail
      ≠ [] ∧
    (∀ c ∈ (s.cleanup enableValidationLayers MAX_CONCURRENT_FRAMES).callsSince s.trace.length,
      c.isDeviceWaitIdle = false) := by
  obtain ⟨calls, e, p, n⟩ := cleanup_destroys enableValidationLayers MAX_CONCURRENT_FRAMES s
  have hcalls : (s.cleanup enableValidationLayers MAX_CONCURRENT_FRAMES).callsSince
      s.trace.length = .vkQueueWaitIdle s.presentQueue :: calls := by
    simp [RenderSystem.callsSince, e]
  rw [hcalls]
  refine ⟨rfl, p, n, ?_⟩
  intro c hc
  rcases List.mem_cons.mp hc with h | h
  · rw [h]; rfl
  · have := p c h
    cases c <;> simp_all [Call.isDestroy, Call.isDeviceWaitIdle]

/-! ## The counts that follow the number of swapchain images -/

theorem counts_call (s : RenderSystem) (c : Call) : (s.call c).counts = s.counts := rfl

theorem counts_of_forgetTrace {s t : RenderSystem} (h : s.forgetTrace = t.forgetTrace) :
    s.counts = t.counts := by
  simp only [RenderSystem.forgetTrace, RenderSystem.mk.injEq] at h
  simp only [RenderSystem.counts, h]

theorem Outcome.andThen_none (o : Outcome) (f : RenderSystem → Outcome)
    (h : (o.andThen f).thrown = none) : o.thrown = none := by
  unfold Outcome.andThen at h
  cases ho : o.thrown with
  | none => rfl
  | some e =>
    rw [ho] at h
    simp only at h
    rw [ho] at h
    exact h

theorem createSwapchain_counts (MAX_CONCURRENT_FRAMES : Nat) (s : RenderSystem)
    (r : SwapchainReplies) :
    (s.createSwapchain MAX_CONCURRENT_FRAMES r).state.counts.1
      = (if r.createSwapchain = VK_SUCCESS then r.imageCount else 0) ∧
    ((s.createSwapchain MAX_CONCURRENT_FRAMES r).thrown = none →
      (s.createSwapchain MAX_CONCURRENT_FRAMES r).state.counts.1 = r.imageCount ∧
      (s.createSwapchain MAX_CONCURRENT_FRAMES r).state.counts.2.1 = r.imageCount) ∧
    (s.createSwapchain MAX_CONCURRENT_FRAMES r).state.counts.2.2 = s.counts.2.2 := by
  unfold RenderSystem.createSwapchain Swapchain.initialize Swapchain.createImageViews
    Outcome.andThen
  simp only
  split_ifs <;>
    simp_all [RenderSystem.call, Outcome.throw, Outcome.ok, Swapchain.size, RenderSystem.counts,
      Swapchain.getImageViews, Swapchain.empty]

theorem createRenderPass_counts (s : RenderSystem) (r : SwapchainReplies) :
    (s.createRenderPass r).state.counts = s.counts := by
  unfold RenderSystem.createRenderPass
  split_ifs <;> simp [RenderSystem.call, Outcome.throw, Outcome.ok, RenderSystem.counts]

theorem createGraphicsPipeline_counts (s : RenderSystem) (r : SwapchainReplies) :
    (s.createGraphicsPipeline r).state.counts = s.counts := by
  unfold RenderSystem.createGraphicsPipeline RenderSystem.createShaderModule Outcome.andThen
  simp only
  split_ifs <;> simp [RenderSystem.call, Outcome.throw, Outcome.ok, RenderSystem.counts]

theorem createDescriptorPool_counts (s : RenderSystem) (result : VkResult) :
    (s.createDescriptorPool result).state.counts = s.counts := by
  unfold RenderSystem.createDescriptorPool
  split_ifs <;> simp [RenderSystem.call, Outcome.throw, Outcome.ok, RenderSystem.counts]

theorem createDescriptorSetLayout_counts (s : RenderSystem) (r : InitializeReplies) :
    (s.createDescriptorSetLayout r).state.counts = s.counts := by
  unfold RenderSystem.createDescriptorSetLayout
  split_ifs <;> simp [RenderSystem.call, Outcome.throw, Outcome.ok, RenderSystem.counts]

theorem createTexture_counts (s : RenderSystem) (r : InitializeReplies) :
    (s.createTexture r).state.counts = s.counts := by
  unfold RenderSystem.createTexture Texture.load Outcome.andThen
  simp only
  split_ifs <;> simp [RenderSystem.call, Outcome.throw, Outcome.ok, RenderSystem.counts]

theorem createSyncObjectsFrom_counts (r : InitializeReplies) (n : Nat) :
    ∀ (i : Nat) (s : RenderSystem),
      (RenderSystem.createSyncObjectsFrom r n i s).state.counts = s.counts := by
  induction n with
  | zero => intro i s; rfl
  | succ n ih =>
    intro i s
    unfold RenderSystem.createSyncObjectsFrom
    simp only
    split_ifs
    · rfl
    · rfl
    · rfl
    · rw [ih]; rfl

theorem createSyncObjects_counts (MAX_CONCURRENT_FRAMES : Nat) (s : RenderSystem)
    (r : InitializeReplies) :
    (s.createSyncObjects MAX_CONCURRENT_FRAMES r).state.counts = s.counts := by
  unfold RenderSystem.createSyncObjects
  simp only
  rw [createSyncObjectsFrom_counts]
  rfl

theorem createFramebuffersFrom_counts (r : SwapchainReplies) (views : List Handle) :
    ∀ (i : Nat) (s : RenderSystem),
      (RenderSystem.createFramebuffersFrom r views i s).state.counts = s.counts := by
  induction views with
  | nil => intro i s; rfl
  | cons view rest ih =>
    intro i s
    unfold RenderSystem.createFramebuffersFrom
    simp only
    split_ifs
    · rfl
    · rw [ih]
      simp [RenderSystem.counts, RenderSystem.call]

theorem createFramebuffers_counts (s : RenderSystem) (r : SwapchainReplies) :
    (s.createFramebuffers r).state.counts =
      (s.counts.1, s.counts.2.1, s.counts.2.1, s.counts.2.2.2) := by
  unfold RenderSystem.createFramebuffers
  simp only
  rw [createFramebuffersFrom_counts]
  simp [RenderSystem.counts, resize_length]

theorem createCommandBuffers_counts (s : RenderSystem) (r : SwapchainReplies) :
    (s.createCommandBuffers r).state.counts =
      (s.counts.1, s.counts.2.1, s.counts.2.2.1, s.counts.2.2.1, s.counts.2.2.2.2) := by
  unfold RenderSystem.createCommandBuffers
  simp only
  rw [counts_of_forgetTrace (recordCommandBuffersFrom_forgetTrace r _ 0 _)]
  simp [RenderSystem.counts, CommandPool.allocateCommandBuffers, RenderSystem.call,
    resize_length]

theorem updateDescriptorSetsFrom_counts (n : Nat) :
    ∀ (i : Nat) (s : RenderSystem),
      (RenderSystem.updateDescriptorSetsFrom n i s).counts = s.counts := by
  induction n with
  | zero => intro i s; rfl
  | succ n ih =>
    intro i s
    unfold RenderSystem.updateDescriptorSetsFrom
    rw [ih]
    rfl

theorem createDescriptorSets_counts (s : RenderSystem) (result : VkResult) :
    (s.createDescriptorSets result).state.counts =
      (s.counts.1, s.counts.2.1, s.counts.2.2.1, s.counts.2.2.2.1, s.counts.1,
        s.counts.2.2.2.2.2) := by
  unfold RenderSystem.createDescriptorSets
  simp only
  split_ifs
  · simp [RenderSystem.counts, RenderSystem.call, Outcome.throw, resize_length]
  · simp only [Outcome.ok]
    rw [updateDescriptorSetsFrom_counts]
    simp [RenderSystem.counts, RenderSystem.call]

theorem createUniformBuffersFrom_counts (r : InitializeReplies) (n : Nat) :
    ∀ (i : Nat) (s : RenderSystem),
      (RenderSystem.createUniformBuffersFrom r n i s).state.counts = s.counts := by
  induction n with
  | zero => intro i s; rfl
  | succ n ih =>
    intro i s
    unfold RenderSystem.createUniformBuffersFrom BufferManager.createBuffer Outcome.andThen
    simp only
    split_ifs
    · rfl
    · simp only [Outcome.ok]
      rw [ih]
      simp [RenderSystem.counts, RenderSystem.call]

theorem createUniformBuffers_counts (s : RenderSystem) (r : InitializeReplies) :
    (s.createUniformBuffers r).state.counts =
      (s.counts.1, s.counts.2.1, s.counts.2.2.1, s.counts.2.2.2.1, s.counts.2.2.2.2.1,
        s.counts.1, s.counts.1) := by
  unfold RenderSystem.createUniformBuffers
  simp only
  rw [createUniformBuffersFrom_counts]
  simp [RenderSystem.counts, resize_length]

theorem createBuffers_counts (s : RenderSystem) (r : InitializeReplies)
    (h : (s.createBuffers r).thrown = none) :
    (s.createBuffers r).state.counts =
      (s.counts.1, s.counts.2.1, s.counts.2.2.1, s.counts.2.2.2.1, s.counts.2.2.2.2.1,
        s.counts.1, s.counts.1) := by
  by_cases hv : r.createVertexBuffer = VK_SUCCESS
  · by_cases hx : r.createIndexBuffer = VK_SUCCESS
    · simp only [RenderSystem.createBuffers, BufferManager.createBuffer, hv, hx, ne_eq,
        not_true_eq_false, if_false, Outcome.andThen, Outcome.ok]
      rw [createUniformBuffers_counts]
      simp [RenderSystem.counts, RenderSystem.call]
    · exfalso
      simp [RenderSystem.createBuffers, BufferManager.createBuffer, hv, hx, Outcome.andThen,
        Outcome.ok, Outcome.throw] at h
  · exfalso
    simp [RenderSystem.createBuffers, BufferManager.createBuffer, hv, Outcome.andThen,
      Outcome.throw] at h

theorem counted_iff (N : Nat) (s : RenderSystem) :
    s.Counted N ↔ s.counts.1 = N ∧ s.counts.2.2 = (N, N, N, N, N) := by
  simp [RenderSystem.Counted, RenderSystem.counts]

theorem RenderSystem.Resizes.andThen_keep (s : RenderSystem) (o : Outcome)
    (f : RenderSystem → Outcome) (hk : o.state.counts = s.counts)
    (hf : ∀ t : RenderSystem, t.Resizes (f t)) : s.Resizes (o.andThen f) := by
  cases t : o.thrown with
  | some x =>
    have e : o.andThen f = o := by simp only [Outcome.andThen, t]
    rw [e]
    simp [RenderSystem.Resizes, hk, t]
  | none =>
    have e : o.andThen f = f o.state := by simp only [Outcome.andThen, t]
    rw [e]
    have h := hf o.state
    rw [RenderSystem.Resizes, hk] at h
    exact h

theorem createFramebuffers_resizes (s : RenderSystem) (r : SwapchainReplies) :
    s.Resizes ((s.createFramebuffers r).andThen fun t => t.createCommandBuffers r) := by
  have d := createFramebuffers_counts s r
  cases t : (s.createFramebuffers r).thrown with
  | some x =>
    have e : ((s.createFramebuffers r).andThen fun t => t.createCommandBuffers r)
        = s.createFramebuffers r := by simp only [Outcome.andThen, t]
    rw [e]
    simp [RenderSystem.Resizes, d, t]
  | none =>
    have e : ((s.createFramebuffers r).andThen fun t => t.createCommandBuffers r)
        = (s.createFramebuffers r).state.createCommandBuffers r := by
      simp only [Outcome.andThen, t]
    rw [e]
    have c := createCommandBuffers_counts (s.createFramebuffers r).state r
    rw [d] at c
    simp [RenderSystem.Resizes, c]

theorem createRenderPass_resizes (s : RenderSystem) (r : SwapchainReplies) :
    s.Resizes ((s.createRenderPass r).andThen fun s5 =>
      (s5.createGraphicsPipeline r).andThen fun s6 =>
      (s6.createFramebuffers r).andThen fun s7 => s7.createCommandBuffers r) :=
  RenderSystem.Resizes.andThen_keep s _ _ (createRenderPass_counts s r) fun t =>
    RenderSystem.Resizes.andThen_keep t _ _ (createGraphicsPipeline_counts t r) fun u =>
      createFramebuffers_resizes u r

theorem recreateSwapchain_counts (MAX_CONCURRENT_FRAMES : Nat) (s : RenderSystem)
    (r : SwapchainReplies) :
    ((s.recreateSwapchain MAX_CONCURRENT_FRAMES r).thrown = none →
      (s.recreateSwapchain MAX_CONCURRENT_FRAMES r).state.counts =
        (r.imageCount, r.imageCount, r.imageCount, r.imageCount, s.counts.2.2.2.2)) ∧
    (∀ N, s.Counted N → (s.recreateSwapchain MAX_CONCURRENT_FRAMES r).state.counts.1 = N →
      (s.recreateSwapchain MAX_CONCURRENT_FRAMES r).state.Counted N) ∧
    (s.recreateSwapchain MAX_CONCURRENT_FRAMES r).state.counts.1
      = (if r.createSwapchain = VK_SUCCESS then r.imageCount else 0) ∧
    (s.recreateSwapchain MAX_CONCURRENT_FRAMES r).state.counts.2.2.2.2 = s.counts.2.2.2.2 := by
  have h₁ : (s.call (.vkDeviceWaitIdle s.device)).cleanupSwapchain.counts
      = (s.call (.vkDeviceWaitIdle s.device)).counts :=
    counts_of_forgetTrace (cleanupSwapchain_forgetTrace (s.call (.vkDeviceWaitIdle s.device)))
  have h₂ : (s.call (.vkDeviceWaitIdle s.device)).cleanupSwapchain.counts = s.counts := by
    rw [h₁, counts_call]
  clear h₁
  simp only [counted_iff]
  unfold RenderSystem.recreateSwapchain
  simp only
  generalize (s.call (.vkDeviceWaitIdle s.device)).cleanupSwapchain = s₂ at h₂ ⊢
  obtain ⟨a₁, a₂, a₃⟩ := createSwapchain_counts MAX_CONCURRENT_FRAMES s₂ r
  rw [h₂] at a₃
  clear h₂
  generalize (if r.createSwapchain = VK_SUCCESS then r.imageCount else 0) = z at a₁ ⊢
  cases t₃ : (s₂.createSwapchain MAX_CONCURRENT_FRAMES r).thrown with
  | some x =>
    have e : ((s₂.createSwapchain MAX_CONCURRENT_FRAMES r).andThen fun s3 =>
        (s3.createRenderPass r).andThen fun s5 =>
        (s5.createGraphicsPipeline r).andThen fun s6 =>
        (s6.createFramebuffers r).andThen fun s7 => s7.createCommandBuffers r)
        = s₂.createSwapchain MAX_CONCURRENT_FRAMES r := by simp only [Outcome.andThen, t₃]
    rw [e]
    clear e a₂
    generalize (s₂.createSwapchain MAX_CONCURRENT_FRAMES r).state.counts = m at a₁ a₃ ⊢
    generalize s.counts = n at a₃ ⊢
    obtain ⟨m₁, m₂, m₃, m₄, m₅, m₆, m₇⟩ := m
    obtain ⟨n₁, n₂, n₃, n₄, n₅, n₆, n₇⟩ := n
    simp only [Prod.mk.injEq] at a₁ a₃ ⊢
    refine ⟨fun h => by simp [t₃] at h, fun N hN hM => ?_, a₁, ?_⟩
    · omega
    · omega
  | none =>
    have e : ((s₂.createSwapchain MAX_CONCURRENT_FRAMES r).andThen fun s3 =>
        (s3.createRenderPass r).andThen fun s5 =>
        (s5.createGraphicsPipeline r).andThen fun s6 =>
        (s6.createFramebuffers r).andThen fun s7 => s7.createCommandBuffers r)
        = ((s₂.createSwapchain MAX_CONCURRENT_FRAMES r).state.createRenderPass r).andThen
          fun s5 => (s5.createGraphicsPipeline r).andThen fun s6 =>
          (s6.createFramebuffers r).andThen fun s7 => s7.createCommandBuffers r := by
      simp only [Outcome.andThen, t₃]
    rw [e]
    clear e
    obtain ⟨a₂, a₂'⟩ := a₂ t₃
    obtain ⟨b₁, b₂, b₃, b₄, b₅, b₆⟩ :=
      createRenderPass_resizes (s₂.createSwapchain MAX_CONCURRENT_FRAMES r).state r
    generalize (s₂.createSwapchain MAX_CONCURRENT_FRAMES r).state = s₃
      at a₁ a₂ a₂' a₃ b₁ b₂ b₃ b₄ b₅ b₆ ⊢
    generalize ((s₃.createRenderPass r).andThen fun s5 =>
      (s5.createGraphicsPipeline r).andThen fun s6 =>
      (s6.createFramebuffers r).andThen fun s7 => s7.createCommandBuffers r) = o
      at b₁ b₂ b₃ b₄ b₅ b₆ ⊢
    generalize o.state.counts = k at b₁ b₂ b₃ b₄ b₅ b₆ ⊢
    generalize s₃.counts = m at a₁ a₂ a₂' a₃ b₁ b₂ b₃ b₄ b₅ b₆ ⊢
    generalize s.counts = n at a₃ ⊢
    obtain ⟨k₁, k₂, k₃, k₄, k₅, k₆, k₇⟩ := k
    obtain ⟨m₁, m₂, m₃, m₄, m₅, m₆, m₇⟩ := m
    obtain ⟨n₁, n₂, n₃, n₄, n₅, n₆, n₇⟩ := n
    simp only [Prod.mk.injEq] at a₁ a₂ a₂' a₃ b₁ b₂ b₃ b₄ b₅ b₆ ⊢
    refine ⟨fun h => ?_, fun N hN hM => ?_, ?_, ?_⟩
    · have := b₆ h
      omega
    · omega
    · omega
    · omega

theorem setClearColor_counted (s : RenderSystem) (clearColor : VkClearValue)
    (r : SwapchainReplies) (N : Nat) (h : s.Counted N) :
    (s.setClearColor clearColor r).state.Counted N := by
  unfold RenderSystem.setClearColor
  simp only
  have e := createCommandBuffers_counts
    ({ s.call (.vkDeviceWaitIdle s.device) with mClearColor := clearColor }) r
  have e' : ({ s.call (.vkDeviceWaitIdle s.device) with mClearColor := clearColor } :
      RenderSystem).counts = s.counts := rfl
  rw [e'] at e
  rw [counted_iff] at h ⊢
  rw [e]
  generalize s.counts = n at h ⊢
  obtain ⟨n₁, n₂, n₃, n₄, n₅, n₆, n₇⟩ := n
  simp only [Prod.mk.injEq] at h ⊢
  omega

theorem counted_of_counts {s t : RenderSystem} (N : Nat) (e : t.counts = s.counts)
    (h : s.Counted N) : t.Counted N := by
  rw [counted_iff] at h ⊢
  rw [e]
  exact h

theorem drawFrame_counted (MAX_CONCURRENT_FRAMES : Nat) (s : RenderSystem) (r : FrameReplies)
    (N : Nat) (h : s.Counted N)
    (hr : (s.drawFrame MAX_CONCURRENT_FRAMES r).state.mSwapchain.size = N) :
    (s.drawFrame MAX_CONCURRENT_FRAMES r).state.Counted N := by
  by_cases hsubmit : r.queueSubmit = VK_SUCCESS
  · by_cases hpresent : r.queuePresent = VK_ERROR_OUT_OF_DATE_KHR
    · rw [drawFrame_out_of_date_eq MAX_CONCURRENT_FRAMES s r hsubmit hpresent] at hr ⊢
      exact (recreateSwapchain_counts MAX_CONCURRENT_FRAMES _ r.recreate).2.1 N
        (counted_of_counts N (by simp [RenderSystem.counts]) h) hr
    · refine counted_of_counts N ?_ h
      unfold RenderSystem.drawFrame
      simp only [hsubmit, hpresent, ne_eq, not_true_eq_false, if_false]
      split_ifs <;>
        simp [RenderSystem.counts, RenderSystem.call, RenderSystem.updateUniformBuffer,
          Outcome.throw, Outcome.ok]
  · refine counted_of_counts N ?_ h
    unfold RenderSystem.drawFrame
    simp only [hsubmit, ne_eq, not_false_eq_true, if_true]
    simp [RenderSystem.counts, RenderSystem.call, RenderSystem.updateUniformBuffer,
      Outcome.throw]

theorem perform_counted (MAX_CONCURRENT_FRAMES : Nat) (s : RenderSystem) (op : Operation)
    (N : Nat) (h : s.Counted N)
    (hr : (s.perform MAX_CONCURRENT_FRAMES op).state.mSwapchain.size = N) :
    (s.perform MAX_CONCURRENT_FRAMES op).state.Counted N := by
  cases op with
  | drawFrame r => exact drawFrame_counted MAX_CONCURRENT_FRAMES s r N h hr
  | setClearColor clearColor r => exact setClearColor_counted s clearColor r N h
  | recreateSwapchain r => exact (recreateSwapchain_counts MAX_CONCURRENT_FRAMES s r).2.1 N h hr

theorem performAll_counted (MAX_CONCURRENT_FRAMES : Nat) (N : Nat) (ops : List Operation) :
    ∀ s : RenderSystem, s.Counted N →
      (∀ t ∈ s.statesOf MAX_CONCURRENT_FRAMES ops, t.mSwapchain.size = N) →
      (∀ t ∈ s.statesOf MAX_CONCURRENT_FRAMES ops, t.Counted N) ∧
      (s.performAll MAX_CONCURRENT_FRAMES ops).state.Counted N := by
  induction ops with
  | nil => intro s h _; exact ⟨fun t ht => by simp [RenderSystem.statesOf] at ht, h⟩
  | cons op rest ih =>
    intro s h hsize
    have hop : (s.perform MAX_CONCURRENT_FRAMES op).state.Counted N :=
      perform_counted MAX_CONCURRENT_FRAMES s op N h
        (hsize _ (by simp [RenderSystem.statesOf]))
    cases ht : (s.perform MAX_CONCURRENT_FRAMES op).thrown with
    | some x =>
      have e₁ : s.statesOf MAX_CONCURRENT_FRAMES (op :: rest)
          = [(s.perform MAX_CONCURRENT_FRAMES op).state] := by
        simp only [RenderSystem.statesOf, ht]
      have e₂ : s.performAll MAX_CONCURRENT_FRAMES (op :: rest)
          = s.perform MAX_CONCURRENT_FRAMES op := by
        simp only [RenderSystem.performAll, Outcome.andThen, ht]
      rw [e₁, e₂]
      refine ⟨fun t h' => ?_, hop⟩
      rw [List.mem_singleton] at h'
      rw [h']
      exact hop
    | none =>
      have e₁ : s.statesOf MAX_CONCURRENT_FRAMES (op :: rest)
          = (s.perform MAX_CONCURRENT_FRAMES op).state ::
            (s.perform MAX_CONCURRENT_FRAMES op).state.statesOf MAX_CONCURRENT_FRAMES rest := by
        simp only [RenderSystem.statesOf, ht]
      have e₂ : s.performAll MAX_CONCURRENT_FRAMES (op :: rest)
          = (s.perform MAX_CONCURRENT_FRAMES op).state.performAll MAX_CONCURRENT_FRAMES rest := by
        simp only [RenderSystem.performAll, Outcome.andThen, ht]
      rw [e₁] at hsize ⊢
      rw [e₂]
      obtain ⟨i₁, i₂⟩ := ih _ hop fun t h' => hsize t (List.mem_cons_of_mem _ h')
      refine ⟨fun t h' => ?_, i₂⟩
      rcases List.mem_cons.mp h' with h'' | h''
      · rw [h'']; exact hop
      · exact i₁ t h''

theorem initialize_builds_counted (MAX_CONCURRENT_FRAMES : Nat) (s : RenderSystem)
    (r : InitializeReplies)
    (h : ((s.createSwapchain MAX_CONCURRENT_FRAMES r.swapchain).andThen fun s9 =>
      (s9.createDescriptorPool r.createDescriptorPool).andThen fun s10 =>
      (s10.createRenderPass r.swapchain).andThen fun s11 =>
      (s11.createDescriptorSetLayout r).andThen fun s12 =>
      (s12.createGraphicsPipeline r.swapchain).andThen fun s13 =>
      (s13.createFramebuffers r.swapchain).andThen fun s14 =>
      (s14.createTexture r).andThen fun s15 =>
      (s15.createBuffers r).andThen fun s16 =>
      (s16.createDescriptorSets r.allocateDescriptorSets).andThen fun s17 =>
      (s17.createCommandBuffers r.swapchain).andThen fun s18 =>
      s18.createSyncObjects MAX_CONCURRENT_FRAMES r).thrown = none) :
    ((s.createSwapchain MAX_CONCURRENT_FRAMES r.swapchain).andThen fun s9 =>
      (s9.createDescriptorPool r.createDescriptorPool).andThen fun s10 =>
      (s10.createRenderPass r.swapchain).andThen fun s11 =>
      (s11.createDescriptorSetLayout r).andThen fun s12 =>
      (s12.createGraphicsPipeline r.swapchain).andThen fun s13 =>
      (s13.createFramebuffers r.swapchain).andThen fun s14 =>
      (s14.createTexture r).andThen fun s15 =>
      (s15.createBuffers r).andThen fun s16 =>
      (s16.createDescriptorSets r.allocateDescriptorSets).andThen fun s17 =>
      (s17.createCommandBuffers r.swapchain).andThen fun s18 =>
      s18.createSyncObjects MAX_CONCURRENT_FRAMES r).state.counts
      = (r.swapchain.imageCount, r.swapchain.imageCount, r.swapchain.imageCount,
          r.swapchain.imageCount, r.swapchain.imageCount, r.swapchain.imageCount,
          r.swapchain.imageCount) := by
  have t₁ := Outcome.andThen_none _ _ h
  rw [Outcome.andThen_ok _ _ t₁] at h ⊢
  obtain ⟨a₁, a₂⟩ := (createSwapchain_counts MAX_CONCURRENT_FRAMES s r.swapchain).2.1 t₁
  generalize (s.createSwapchain MAX_CONCURRENT_FRAMES r.swapchain).state = s₉ at a₁ a₂ h ⊢
  have t₂ := Outcome.andThen_none _ _ h
  rw [Outcome.andThen_ok _ _ t₂] at h ⊢
  have b := createDescriptorPool_counts s₉ r.createDescriptorPool
  generalize (s₉.createDescriptorPool r.createDescriptorPool).state = s₁₀ at b h ⊢
  have t₃ := Outcome.andThen_none _ _ h
  rw [Outcome.andThen_ok _ _ t₃] at h ⊢
  have c := createRenderPass_counts s₁₀ r.swapchain
  rw [b] at c
  generalize (s₁₀.createRenderPass r.swapchain).state = s₁₁ at c h ⊢
  have t₄ := Outcome.andThen_none _ _ h
  rw [Outcome.andThen_ok _ _ t₄] at h ⊢
  have d := createDescriptorSetLayout_counts s₁₁ r
  rw [c] at d
  generalize (s₁₁.createDescriptorSetLayout r).state = s₁₂ at d h ⊢
  have t₅ := Outcome.andThen_none _ _ h
  rw [Outcome.andThen_ok _ _ t₅] at h ⊢
  have e := createGraphicsPipeline_counts s₁₂ r.swapchain
  rw [d] at e
  generalize (s₁₂.createGraphicsPipeline r.swapchain).state = s₁₃ at e h ⊢
  have t₆ := Outcome.andThen_none _ _ h
  rw [Outcome.andThen_ok _ _ t₆] at h ⊢
  have f := createFramebuffers_counts s₁₃ r.swapchain
  rw [e] at f
  generalize (s₁₃.createFramebuffers r.swapchain).state = s₁₄ at f h ⊢
  have t₇ := Outcome.andThen_none _ _ h
  rw [Outcome.andThen_ok _ _ t₇] at h ⊢
  have g := createTexture_counts s₁₄ r
  rw [f] at g
  generalize (s₁₄.createTexture r).state = s₁₅ at g h ⊢
  have t₈ := Outcome.andThen_none _ _ h
  rw [Outcome.andThen_ok _ _ t₈] at h ⊢
  have i := createBuffers_counts s₁₅ r t₈
  rw [g] at i
  generalize (s₁₅.createBuffers r).state = s₁₆ at i h ⊢
  have t₉ := Outcome.andThen_none _ _ h
  rw [Outcome.andThen_ok _ _ t₉] at h ⊢
  have j := createDescriptorSets_counts s₁₆ r.allocateDescriptorSets
  rw [i] at j
  generalize (s₁₆.createDescriptorSets r.allocateDescriptorSets).state = s₁₇ at j h ⊢
  have t₁₀ := Outcome.andThen_none _ _ h
  rw [Outcome.andThen_ok _ _ t₁₀] at h ⊢
  have k := createCommandBuffers_counts s₁₇ r.swapchain
  rw [j] at k
  generalize (s₁₇.createCommandBuffers r.swapchain).state = s₁₈ at k h ⊢
  rw [createSyncObjects_counts, k]
  generalize s₉.counts = n at a₁ a₂ ⊢
  obtain ⟨n₁, n₂, n₃, n₄, n₅, n₆, n₇⟩ := n
  simp only at a₁ a₂ ⊢
  rw [a₁, a₂]

set_option maxRecDepth 4000 in
theorem initialize_counted (enableValidationLayers : Bool) (MAX_CONCURRENT_FRAMES : Nat)
    (s : RenderSystem) (r : InitializeReplies) (window : Handle)
    (h : ( RenderSystem.initialize enableValidationLayers MAX_CONCURRENT_FRAMES s r
      window).thrown = none) :
    ( RenderSystem.initialize enableValidationLayers MAX_CONCURRENT_FRAMES s r
      window).state.Counted r.swapchain.imageCount := by
  unfold RenderSystem.initialize at h ⊢
  simp only at h ⊢
  have t₁ := Outcome.andThen_none _ _ h
  rw [Outcome.andThen_ok _ _ t₁] at h ⊢
  have t₂ := Outcome.andThen_none _ _ h
  rw [Outcome.andThen_ok _ _ t₂] at h ⊢
  rw [counted_iff, initialize_builds_counted MAX_CONCURRENT_FRAMES _ r h]
  exact ⟨rfl, rfl⟩

/-- C19: when `initialize` returns normally, the swapchain image count and the
numbers of framebuffers, command buffers, descriptor sets, uniform buffers and
uniform-buffer memories all equal the image count the driver gave; in every
run of `drawFrame`, `setClearColor` and `recreateSwapchain` calls after each
of which the swapchain has the same image count, the equality holds after each
call, also after one that throws; under it the framebuffer and descriptor-set
index of every command buffer that `createCommandBuffers` records and the
command-buffer and uniform-buffer-memory index of every image index below the
image count are in range; and a recreation leaves the image count the driver
gave, or none when the swapchain creation fails, while the numbers of
descriptor sets and uniform buffers keep the old value, so that the equality
fails whenever the image count has changed. -/
theorem counts_follow_image_count (enableValidationLayers : Bool)
    (MAX_CONCURRENT_FRAMES : Nat) (s₀ : RenderSystem) (r : InitializeReplies) (window : Handle)
    (hinit : ( RenderSystem.initialize enableValidationLayers MAX_CONCURRENT_FRAMES s₀ r
      window).thrown = none) :
    ( RenderSystem.initialize enableValidationLayers MAX_CONCURRENT_FRAMES s₀ r
      window).state.Counted r.swapchain.imageCount ∧
    (∀ (N : Nat) (s : RenderSystem) (ops : List Operation), s.Counted N →
      (∀ t ∈ s.statesOf MAX_CONCURRENT_FRAMES ops, t.mSwapchain.size = N) →
      (∀ t ∈ s.statesOf MAX_CONCURRENT_FRAMES ops, t.Counted N) ∧
      (s.performAll MAX_CONCURRENT_FRAMES ops).state.Counted N) ∧
    (∀ (N : Nat) (s : RenderSystem), s.Counted N →
      (∀ (r' : SwapchainReplies) (i : Nat),
        i < (s.createCommandBuffers r').state.mCommandBuffers.length →
        i < s.mSwapchainFramebuffers.length ∧ i < s.mDescriptorSets.length) ∧
      (∀ k, k < s.mSwapchain.size →
        k < s.mCommandBuffers.length ∧ k < s.mUniformBuffersMemory.length)) ∧
    (∀ (N : Nat) (s : RenderSystem) (r' : SwapchainReplies), s.Counted N →
      (s.recreateSwapchain MAX_CONCURRENT_FRAMES r').state.mSwapchain.size
        = (if r'.createSwapchain = VK_SUCCESS then r'.imageCount else 0) ∧
      ((s.recreateSwapchain MAX_CONCURRENT_FRAMES r').thrown = none →
        (s.recreateSwapchain MAX_CONCURRENT_FRAMES r').state.mSwapchainFramebuffers.length
          = r'.imageCount ∧
        (s.recreateSwapchain MAX_CONCURRENT_FRAMES r').state.mCommandBuffers.length
          = r'.imageCount) ∧
      (s.recreateSwapchain MAX_CONCURRENT_FRAMES r').state.mDescriptorSets.length = N ∧
      (s.recreateSwapchain MAX_CONCURRENT_FRAMES r').state.mUniformBuffers.length = N ∧
      (s.recreateSwapchain MAX_CONCURRENT_FRAMES r').state.mUniformBuffersMemory.length = N ∧
      ((s.recreateSwapchain MAX_CONCURRENT_FRAMES r').state.mSwapchain.size ≠ N →
        ∀ M, ¬ (s.recreateSwapchain MAX_CONCURRENT_FRAMES r').state.Counted M)) := by
  refine ⟨initialize_counted enableValidationLayers MAX_CONCURRENT_FRAMES s₀ r window hinit,
    fun N s ops h hops => performAll_counted MAX_CONCURRENT_FRAMES N ops s h hops, ?_, ?_⟩
  · intro N s h
    obtain ⟨h₁, h₂, h₃, h₄, h₅, h₆⟩ := h
    refine ⟨fun r' i hi => ?_, fun k hk => ⟨?_, ?_⟩⟩
    · have e := createCommandBuffers_counts s r'
      simp only [RenderSystem.counts, Prod.mk.injEq] at e
      rw [e.2.2.2.1] at hi
      exact ⟨hi, by rw [h₄]; rw [h₂] at hi; exact hi⟩
    · rw [h₃]; rw [h₁] at hk; exact hk
    · rw [h₆]; rw [h₁] at hk; exact hk
  · intro N s r' h
    obtain ⟨e₁, -, e₃, e₄⟩ := recreateSwapchain_counts MAX_CONCURRENT_FRAMES s r'
    obtain ⟨h₁, h₂, h₃, h₄, h₅, h₆⟩ := h
    simp only [RenderSystem.counts, Prod.mk.injEq] at e₁ e₃ e₄
    obtain ⟨e₅, e₆, e₇⟩ := e₄
    refine ⟨e₃, fun ht => ⟨(e₁ ht).2.2.1, (e₁ ht).2.2.2.1⟩, e₅.trans h₄, e₆.trans h₅,
      e₇.trans h₆, ?_⟩
    rintro hne M ⟨m₁, -, -, m₄, -, -⟩
    exact hne (m₁.trans ((e₅.trans h₄).symm.trans m₄).symm)

/-- Witness of C19: `initialize` on an empty render system with a driver on
which every call succeeds and which provides three swapchain images returns
normally, and all counts are three; a recreation on the sample render system
whose swapchain creation fails leaves no image and no image view beside three
framebuffers, command buffers, descriptor sets and uniform buffers. -/
theorem counts_follow_image_count_witness :
    ( RenderSystem.initialize true 2 freshState (sampleInitializeReplies 3) 1).thrown = none ∧
    ( RenderSystem.initialize true 2 freshState (sampleInitializeReplies 3)
      1).state.Counted 3 ∧
    (sampleState.recreateSwapchain 2
      { sampleReplies fixedCapabilities 3 with
        createSwapchain := VK_ERROR_SURFACE_LOST_KHR }).state.counts = (0, 0, 3, 3, 3, 3, 3) ∧
    ¬ (sampleState.recreateSwapchain 2
      { sampleReplies fixedCapabilities 3 with
        createSwapchain := VK_ERROR_SURFACE_LOST_KHR }).state.Counted 3 :=
  have h := counts_follow_image_count true 2 freshState (sampleInitializeReplies 3) 1
    (by decide)
  ⟨by decide, h.1, by decide,
    (h.2.2.2 3 sampleState { sampleReplies fixedCapabilities 3 with
        createSwapchain := VK_ERROR_SURFACE_LOST_KHR } (by decide)).2.2.2.2.2 (by decide) 3⟩

end UwbVk
